import Mathlib

/-!
# terraform-provider-starbucks: the API request executor and its callers

A shallow embedding of `client/client.go`, `provider.go`, the five resources
(`resource_store.go`, `resource_employee.go`, `resource_menu_item.go`,
`resource_inventory.go`, `resource_promotion.go`) and the two data sources
(`datasource_store.go`, `datasource_stores.go`).

Conventions of the embedding.

* Go byte slices are `Bytes` (lists of bytes). Go strings that hold text
  (credentials, addresses, methods, field names) are `String`; where the program
  writes a string into a byte-level result it is rendered with `utf8`.
* Go `int` and `int64` are `Int`; where the program multiplies 64-bit values the
  result is reduced with `wrapInt64`.
* The Go standard library and the remote server are not part of the repository.
  They enter through `Env`: every field of `Env` stands for one library call the
  source makes, and the theorems hold for every `Env`.
* Every library call a function makes is appended to a trace (`Call`), in the
  order of the source, so that statements about what is built and what is sent
  can be made about the trace.
-/

namespace Starbucks

/-! ## Bytes and text -/

/-- Go byte slices: response bodies, encoded payloads and rendered error texts. -/
abbrev Bytes := List UInt8

/-- Bytes of a Go string holding text: its UTF-8 encoding. -/
def utf8 (s : String) : Bytes := s.data.flatMap String.utf8EncodeChar

/-- Go 64-bit signed wrap-around: the value of an `int64` expression whose
mathematical value is `x`. -/
def wrapInt64 (x : Int) : Int := (x + 2 ^ 63) % 2 ^ 64 - 2 ^ 63

/-! ## Values carried by payloads and decoded responses -/

/-- Go `float64`: a finite value by its exact rational value, and the specials. -/
inductive Float64 where
  | finite (q : ℚ)
  | negZero
  | posInf
  | negInf
  | nan
  deriving DecidableEq

/-- Dynamic values the handlers put in a request payload (`map[string]interface{}`
whose values are `nil`, `string`, `bool`, `int64`, `float64`). -/
inductive GoValue where
  | nil
  | str (s : String)
  | bool (b : Bool)
  | int64 (n : Int)
  | float64 (f : Float64)
  deriving DecidableEq

/-- Request payload: a Go map from field name to value, as an association list. -/
abbrev Payload := List (String × GoValue)

/-- Go `m[k] = v` on a map held as an association list. -/
def mapSet {α : Type} (m : List (String × α)) (k : String) (v : α) : List (String × α) :=
  m.filter (fun e => e.1 != k) ++ [(k, v)]

/-- Values `json.Unmarshal` stores into an `interface{}`. -/
inductive JsonValue where
  | null
  | bool (b : Bool)
  | number (f : Float64)
  | string (s : String)
  | array (items : List JsonValue)
  | object (fields : List (String × JsonValue))

/-- Decoded `map[string]interface{}`. -/
abbrev JsonMap := List (String × JsonValue)

/-! ## HTTP requests and responses -/

/-- Go `http.Header`, restricted to single-valued entries. -/
abbrev Header := List (String × String)

/-- Go `Header.Set`: replaces the entry for `key`. The three keys the program
sets are already in canonical form, so canonicalisation is the identity on them. -/
def Header.Set (h : Header) (key value : String) : Header :=
  mapSet h key value

/-- Go `*url.URL` as `url.Parse` returns it, by the two texts `Parse` separates
before anything else. `Address` is the text before the first `#`: the parser
splits it into scheme, host, path and query, and it is what a request asks the
server for, written out again by the library when the request is sent (escaped
where the wire needs it, which is part of `Env.Do`). `Fragment` is the text
after the first `#`: the parser keeps it apart and it is never sent. -/
structure URL where
  Address : String
  Fragment : String
  deriving DecidableEq

/-- Go `*http.Request`, the part the program determines. `URL` is the parsed
address, as `http.NewRequest` stores it. -/
structure Request where
  Method : String
  URL : URL
  Header : Header
  Body : Option Bytes
  deriving DecidableEq

/-- Outcome of a library call that returns `(value, error)`. -/
inductive Outcome (α : Type) where
  | ok (v : α)
  | error (msg : String)
  deriving DecidableEq

/-- Go `*http.Response`: the status code and what `io.ReadAll(resp.Body)` yields. -/
structure Response where
  StatusCode : Int
  Body : Outcome Bytes
  deriving DecidableEq

/-- Go `*http.Client`: `Timeout` is a `time.Duration`, a count of nanoseconds. -/
structure HTTPClient where
  Timeout : Int
  deriving DecidableEq

/-- Framework diagnostic severity. -/
inductive Severity where
  | Error
  | Warning
  deriving DecidableEq

/-- Framework diagnostic: severity, summary and detail. The detail can embed the
bytes of a response body, so it is a byte sequence. -/
structure Diagnostic where
  Severity : Severity
  Summary : String
  Detail : Bytes
  deriving DecidableEq

/-- Framework `diag.Diagnostics`. -/
abbrev Diagnostics := List Diagnostic

/-- Library functions and the remote side, as the program calls them. -/
structure Env where
  /-- Go `json.Marshal` on a payload. -/
  Marshal : Payload → Outcome Bytes
  /-- Go `strconv.Quote`, used by the library to render `%q`. -/
  Quote : String → String
  /-- Go `url.Parse` on an address that holds no control byte before its
  fragment: its error, if any, from the rest of the parser or from the fragment. -/
  ParseRest : String → Option String
  /-- Go `(*http.Client).Do`: the round trip, bounded by the client timeout. -/
  Do : HTTPClient → Request → Outcome Response
  /-- Go `json.Unmarshal` into a `map[string]interface{}`; a JSON `null` leaves
  the map nil, which reads as the empty map. -/
  Unmarshal : Bytes → Outcome JsonMap
  /-- Go `json.Unmarshal` into a `[]map[string]interface{}`. -/
  UnmarshalList : Bytes → Outcome (List JsonMap)
  /-- Framework `resp.State.Set` on a model that holds a list of decoded maps: the
  diagnostics the conversion of the list to the schema of the state returns. -/
  StateSetStores : List JsonMap → List Diagnostic

/-- Go `httpguts.IsTokenRune`: the characters allowed in an HTTP method. -/
def isTokenRune (r : Char) : Bool :=
  r.isAlphanum || "!#$%&\x27*+-.^_\x60|~".data.contains r

/-- Go `validMethod` of `net/http`. -/
def validMethod (method : String) : Bool :=
  decide (method.length > 0) && method.data.all isTokenRune

/-- Go `stringContainsCTLByte` of `net/url`: a byte below 0x20 or equal to 0x7f. -/
def stringContainsCTLByte (s : String) : Bool :=
  (utf8 s).any (fun b => decide (b.toNat < 32) || decide (b.toNat = 127))

/-- Go `strings.Cut(rawURL, "#")`, the first step of `url.Parse`: the text before
the first `#` (the character 35) and the text after it; the whole text and an
empty fragment when there is no `#`. -/
def cutFragment (rawURL : String) : URL :=
  { Address := String.mk (rawURL.data.takeWhile (fun ch => ch.toNat != 35))
    Fragment := String.mk ((rawURL.data.dropWhile (fun ch => ch.toNat != 35)).drop 1) }

/-- Go `url.Parse`: the fragment is cut off, then the text before it is checked
for control bytes, and the error of that check names that text only; the rest
of the parser is `Env.ParseRest`. -/
def urlParse (env : Env) (rawURL : String) : Outcome URL :=
  let u := cutFragment rawURL
  if stringContainsCTLByte u.Address then
    .error ("parse " ++ env.Quote u.Address ++ ": net/url: invalid control character in URL")
  else
    match env.ParseRest rawURL with
    | some e => .error e
    | none => .ok u

/-- Go `http.NewRequest(method, url, body)`: the request holds the URL `url.Parse`
returns for the address, not the address as written. -/
def NewRequest (env : Env) (method url : String) (body : Option Bytes) : Outcome Request :=
  let method := if method = "" then "GET" else method
  if !validMethod method then
    .error ("net/http: invalid method " ++ env.Quote method)
  else
    match urlParse env url with
    | .error e => .error e
    | .ok u => .ok { Method := method, URL := u, Header := [], Body := body }

/-! ## client/client.go -/

/-- Go `StarbucksClient` (client.go:12-17). -/
structure StarbucksClient where
  APIKey : String
  Endpoint : String
  Region : String
  HTTPClient : HTTPClient
  deriving DecidableEq

/-- Go `NewStarbucksClient` (client.go:19-28): `time.Duration(timeout) * time.Second`
is a 64-bit product. -/
def NewStarbucksClient (apiKey endpoint region : String) (timeout : Int) : StarbucksClient :=
  { APIKey := apiKey
    Endpoint := endpoint
    Region := region
    HTTPClient := { Timeout := wrapInt64 (timeout * 1000000000) } }

/-- The error values `DoRequest` returns, one constructor per `fmt.Errorf` call
site of client.go (lines 35, 42, 51, 57, 61). The first four wrap a library error. -/
inductive DoRequestError where
  | marshaling (inner : String)
  | creating (inner : String)
  | making (inner : String)
  | reading (inner : String)
  | api (status : Int) (body : Bytes)
  deriving DecidableEq

/-- Go `err.Error()`: the text each `fmt.Errorf` call renders. `%d` prints the
status in decimal, `%s` copies the bytes of `string(respBody)`. -/
def DoRequestError.Error : DoRequestError → Bytes
  | .marshaling inner => utf8 ("error marshaling request: " ++ inner)
  | .creating inner => utf8 ("error creating request: " ++ inner)
  | .making inner => utf8 ("error making request: " ++ inner)
  | .reading inner => utf8 ("error reading response: " ++ inner)
  | .api status body => utf8 ("API error (status " ++ toString status ++ "): ") ++ body

/-- Library calls made by the program, with their arguments. -/
inductive Call where
  | Marshal (payload : Payload)
  | NewRequest (method url : String) (body : Option Bytes)
  | Do (client : HTTPClient) (req : Request)
  | ReadAll (resp : Response)
  | Unmarshal (data : Bytes)
  | Getenv (key : String)
  deriving DecidableEq

/-- What `DoRequest` returns (`[]byte`, `error`), and the library calls it made. -/
structure DoResult where
  body : Option Bytes
  err : Option DoRequestError
  calls : List Call
  deriving DecidableEq

/-- Lines 45-47 of client.go: the three `req.Header.Set` calls. -/
def setHeaders (c : StarbucksClient) (req : Request) : Request :=
  let h1 := req.Header.Set "Authorization" ("Bearer " ++ c.APIKey)
  let h2 := h1.Set "Content-Type" "application/json"
  let h3 := h2.Set "X-Region" c.Region
  { req with Header := h3 }

/-- Go `(*StarbucksClient).DoRequest` (client.go:30-65). -/
def DoRequest (env : Env) (c : StarbucksClient) (method path : String)
    (body : Option Payload) : DoResult :=
  -- lines 31-38: encode the payload when there is one
  let encoded : Outcome (Option Bytes) × List Call :=
    match body with
    | none => (.ok none, [])
    | some p =>
      match env.Marshal p with
      | .error e => (.error e, [Call.Marshal p])
      | .ok jsonBody => (.ok (some jsonBody), [Call.Marshal p])
  match encoded with
  | (.error e, t1) => { body := none, err := some (.marshaling e), calls := t1 }
  | (.ok reqBody, t1) =>
    -- lines 40-43
    let t2 := t1 ++ [Call.NewRequest method (c.Endpoint ++ path) reqBody]
    match NewRequest env method (c.Endpoint ++ path) reqBody with
    | .error e => { body := none, err := some (.creating e), calls := t2 }
    | .ok req0 =>
      -- lines 45-47
      let req := setHeaders c req0
      -- lines 49-53
      let t3 := t2 ++ [Call.Do c.HTTPClient req]
      match env.Do c.HTTPClient req with
      | .error e => { body := none, err := some (.making e), calls := t3 }
      | .ok resp =>
        -- lines 55-58
        let t4 := t3 ++ [Call.ReadAll resp]
        match resp.Body with
        | .error e => { body := none, err := some (.reading e), calls := t4 }
        | .ok respBody =>
          -- lines 60-64
          if resp.StatusCode ≥ 400 then
            { body := none, err := some (.api resp.StatusCode respBody), calls := t4 }
          else
            { body := some respBody, err := none, calls := t4 }

/-- Whether a library call is the outbound network call `HTTPClient.Do`. -/
def Call.isDo : Call → Bool
  | .Do _ _ => true
  | _ => false

/-- The five kinds of error `DoRequest` returns, by call site. -/
inductive ErrorKind where
  | Serialization
  | RequestConstruction
  | Transport
  | Read
  | API
  deriving DecidableEq

/-- Kind of a `DoRequest` error. -/
def DoRequestError.kind : DoRequestError → ErrorKind
  | .marshaling _ => .Serialization
  | .creating _ => .RequestConstruction
  | .making _ => .Transport
  | .reading _ => .Read
  | .api _ _ => .API

/-! ## Terraform plugin framework values -/

/-- Framework attribute value (`types.String`, `types.Int64`, ...): null, unknown
or known. -/
inductive TfValue (α : Type) where
  | null
  | unknown
  | known (v : α)
  deriving DecidableEq

/-- Framework `IsNull`. -/
def TfValue.IsNull {α : Type} : TfValue α → Bool
  | .null => true
  | _ => false

/-- Framework `IsUnknown`. -/
def TfValue.IsUnknown {α : Type} : TfValue α → Bool
  | .unknown => true
  | _ => false

/-- Framework `ValueString`: the known value, the empty string otherwise. -/
def TfValue.ValueString : TfValue String → String
  | .known v => v
  | _ => ""

/-- Framework `ValueBool`: the known value, `false` otherwise. -/
def TfValue.ValueBool : TfValue Bool → Bool
  | .known v => v
  | _ => false

/-- Framework `ValueInt64`: the known value, zero otherwise. -/
def TfValue.ValueInt64 : TfValue Int → Int
  | .known v => v
  | _ => 0

/-- Framework `ValueFloat64`: the known value, zero otherwise. -/
def TfValue.ValueFloat64 : TfValue Float64 → Float64
  | .known v => v
  | _ => .finite 0

/-- Framework `Diagnostics.Append`: appends each diagnostic not already contained. -/
def Diagnostics.Append (ds : Diagnostics) (more : List Diagnostic) : Diagnostics :=
  more.foldl (fun acc d => if acc.contains d then acc else acc ++ [d]) ds

/-- Framework `Diagnostics.AddError`. -/
def Diagnostics.AddError (ds : Diagnostics) (summary : String) (detail : Bytes) : Diagnostics :=
  Diagnostics.Append ds [{ Severity := .Error, Summary := summary, Detail := detail }]

/-- Framework `Diagnostics.AddWarning`. -/
def Diagnostics.AddWarning (ds : Diagnostics) (summary : String) (detail : Bytes) : Diagnostics :=
  Diagnostics.Append ds [{ Severity := .Warning, Summary := summary, Detail := detail }]

/-- Framework `Diagnostics.HasError`. -/
def Diagnostics.HasError (ds : Diagnostics) : Bool :=
  ds.any (fun d => decide (d.Severity = .Error))

/-- Go `os.Getenv` over the process environment: the value of the variable, the
empty string when it is not set. -/
def Getenv (environ : List (String × String)) (key : String) : String :=
  (environ.lookup key).getD ""

/-! ## provider.go -/

/-- Go `starbucksProviderModel` (provider.go:20-25). -/
structure starbucksProviderModel where
  APIKey : TfValue String
  Endpoint : TfValue String
  Region : TfValue String
  Timeout : TfValue Int
  deriving DecidableEq

/-- Framework `provider.ConfigureRequest`: the configuration `req.Config.Get`
decodes into the model, and the diagnostics that decoding returns. -/
structure ProviderConfigureRequest where
  Config : starbucksProviderModel
  ConfigGetDiags : List Diagnostic

/-- Framework `provider.ConfigureResponse`. The two data fields hold the client
pointer handed to data sources and resources, `none` while unset. -/
structure ProviderConfigureResponse where
  Diagnostics : Diagnostics
  DataSourceData : Option StarbucksClient
  ResourceData : Option StarbucksClient
  deriving DecidableEq

/-- Go `(*starbucksProvider).Configure` (provider.go:65-109): the response after
the call and the library calls made. -/
def starbucksProvider.Configure (environ : List (String × String)) (req : ProviderConfigureRequest)
    (resp : ProviderConfigureResponse) : ProviderConfigureResponse × List Call :=
  let config := req.Config
  -- lines 67-70
  let resp := { resp with Diagnostics := Diagnostics.Append resp.Diagnostics req.ConfigGetDiags }
  if Diagnostics.HasError resp.Diagnostics then (resp, [])
  -- lines 72-78
  else if config.APIKey.IsUnknown then
    let diags := Diagnostics.AddWarning resp.Diagnostics "Unable to create client"
      (utf8 "Cannot use unknown value as api_key")
    ({ resp with Diagnostics := diags }, [])
  else
    -- lines 80-83
    let apiKey := Getenv environ "STARBUCKS_API_KEY"
    let endpoint := "https://api.starbucks.com/v1"
    let region := "us-west-2"
    let timeout : Int := 30
    -- lines 85-96
    let apiKey := if !config.APIKey.IsNull then config.APIKey.ValueString else apiKey
    let endpoint := if !config.Endpoint.IsNull then config.Endpoint.ValueString else endpoint
    let region := if !config.Region.IsNull then config.Region.ValueString else region
    let timeout := if !config.Timeout.IsNull then config.Timeout.ValueInt64 else timeout
    -- lines 98-104
    if apiKey = "" then
      let diags := Diagnostics.AddError resp.Diagnostics "Missing API Key Configuration"
        (utf8 "API key must be provided via api_key attribute or STARBUCKS_API_KEY environment variable")
      ({ resp with Diagnostics := diags }, [Call.Getenv "STARBUCKS_API_KEY"])
    else
      -- lines 106-108
      let client := NewStarbucksClient apiKey endpoint region timeout
      ({ resp with DataSourceData := some client, ResourceData := some client },
        [Call.Getenv "STARBUCKS_API_KEY"])

/-! ## resource_store.go -/

/-- Go `storeResourceModel` (resource_store.go:24-44). -/
structure storeResourceModel where
  ID : TfValue String
  Name : TfValue String
  StoreNumber : TfValue String
  Address : TfValue String
  City : TfValue String
  State : TfValue String
  ZipCode : TfValue String
  Country : TfValue String
  PhoneNumber : TfValue String
  Latitude : TfValue Float64
  Longitude : TfValue Float64
  OpeningHours : TfValue String
  HasDriveThru : TfValue Bool
  HasWifi : TfValue Bool
  HasMobileOrder : TfValue Bool
  Capacity : TfValue Int
  StoreType : TfValue String
  ManagerEmail : TfValue String
  Status : TfValue String
  deriving DecidableEq

/-- Framework `resource.CreateRequest`: the plan `req.Plan.Get` decodes into the
model, and the diagnostics that decoding returns. -/
structure CreateRequest (M : Type) where
  Plan : M
  PlanGetDiags : List Diagnostic

/-- Framework `resource.CreateResponse`: the state (`none` while nothing has been
written) and the diagnostics. `resp.State.Set` with a model whose fields match
the schema stores the model and returns no diagnostic. -/
structure CreateResponse (M : Type) where
  State : Option M
  Diagnostics : Diagnostics

/-- Lines 173-204 of resource_store.go: the payload `Create` builds from the plan. -/
def storeCreateBody (plan : storeResourceModel) : Payload :=
  let requestBody : Payload :=
    [ ("name", .str plan.Name.ValueString),
      ("store_number", .str plan.StoreNumber.ValueString),
      ("address", .str plan.Address.ValueString),
      ("city", .str plan.City.ValueString),
      ("state", .str plan.State.ValueString),
      ("zip_code", .str plan.ZipCode.ValueString),
      ("phone_number", .str plan.PhoneNumber.ValueString),
      ("has_drive_thru", .bool plan.HasDriveThru.ValueBool),
      ("has_wifi", .bool plan.HasWifi.ValueBool),
      ("has_mobile_order", .bool plan.HasMobileOrder.ValueBool),
      ("capacity", .int64 plan.Capacity.ValueInt64) ]
  let requestBody := if !plan.Country.IsNull then
    mapSet requestBody "country" (.str plan.Country.ValueString) else requestBody
  let requestBody := if !plan.Latitude.IsNull then
    mapSet requestBody "latitude" (.float64 plan.Latitude.ValueFloat64) else requestBody
  let requestBody := if !plan.Longitude.IsNull then
    mapSet requestBody "longitude" (.float64 plan.Longitude.ValueFloat64) else requestBody
  let requestBody := if !plan.OpeningHours.IsNull then
    mapSet requestBody "opening_hours" (.str plan.OpeningHours.ValueString) else requestBody
  let requestBody := if !plan.StoreType.IsNull then
    mapSet requestBody "store_type" (.str plan.StoreType.ValueString) else requestBody
  let requestBody := if !plan.ManagerEmail.IsNull then
    mapSet requestBody "manager_email" (.str plan.ManagerEmail.ValueString) else requestBody
  requestBody

/-- Go `(*storeResource).Create` (resource_store.go:166-224) for a resource whose
client pointer is `c`: the response after the call and the library calls made. -/
def storeResource.Create (env : Env) (c : StarbucksClient)
    (req : CreateRequest storeResourceModel) (resp : CreateResponse storeResourceModel) :
    CreateResponse storeResourceModel × List Call :=
  -- lines 167-171
  let plan := req.Plan
  let resp := { resp with Diagnostics := Diagnostics.Append resp.Diagnostics req.PlanGetDiags }
  if Diagnostics.HasError resp.Diagnostics then (resp, [])
  else
    -- lines 173-210
    let r := DoRequest env c "POST" "/stores" (some (storeCreateBody plan))
    match r.err with
    | some err =>
      let diags := Diagnostics.AddError resp.Diagnostics "Client Error"
        (utf8 "Unable to create store: " ++ err.Error)
      ({ resp with Diagnostics := diags }, r.calls)
    | none =>
      -- lines 212-216
      let respBody := r.body.getD []
      let calls := r.calls ++ [Call.Unmarshal respBody]
      match env.Unmarshal respBody with
      | .error e =>
        let diags := Diagnostics.AddError resp.Diagnostics "Parse Error"
          (utf8 ("Unable to parse response: " ++ e))
        ({ resp with Diagnostics := diags }, calls)
      | .ok result =>
        -- lines 218-221
        let plan := match result.lookup "id" with
          | some (.string id) => { plan with ID := .known id }
          | _ => plan
        let plan := { plan with Status := .known "active" }
        -- line 223
        ({ resp with State := some plan }, calls)

/-- Framework `resource.ReadRequest`: the prior state `req.State.Get` decodes into
the model, and the diagnostics that decoding returns. -/
structure ReadRequest (M : Type) where
  State : M
  StateGetDiags : List Diagnostic

/-- Framework `resource.UpdateRequest`, the part the handlers read: the plan
`req.Plan.Get` decodes into the model, and the diagnostics that decoding returns. -/
structure UpdateRequest (M : Type) where
  Plan : M
  PlanGetDiags : List Diagnostic

/-- Framework `resource.DeleteRequest`: the prior state and the diagnostics of
decoding it. -/
structure DeleteRequest (M : Type) where
  State : M
  StateGetDiags : List Diagnostic

/-- Framework `datasource.ReadRequest`: the configuration `req.Config.Get` decodes
into the model, and the diagnostics that decoding returns. -/
structure DataSourceReadRequest (M : Type) where
  Config : M
  ConfigGetDiags : List Diagnostic

/-- Framework `resource.ReadResponse`: the same two fields as `CreateResponse`.
The state is what the host put there before the call. -/
abbrev ReadResponse (M : Type) := CreateResponse M

/-- Framework `resource.UpdateResponse`: the same two fields as `CreateResponse`. -/
abbrev UpdateResponse (M : Type) := CreateResponse M

/-- Framework `resource.DeleteResponse`: the same two fields as `CreateResponse`. -/
abbrev DeleteResponse (M : Type) := CreateResponse M

/-- Framework `datasource.ReadResponse`: the same two fields as `CreateResponse`. -/
abbrev DataSourceReadResponse (M : Type) := CreateResponse M

/-- Go `(*storeResource).Read` (resource_store.go:226-251). -/
def storeResource.Read (env : Env) (c : StarbucksClient)
    (req : ReadRequest storeResourceModel) (resp : ReadResponse storeResourceModel) :
    ReadResponse storeResourceModel × List Call :=
  -- lines 227-231
  let state := req.State
  let resp := { resp with Diagnostics := Diagnostics.Append resp.Diagnostics req.StateGetDiags }
  if Diagnostics.HasError resp.Diagnostics then (resp, [])
  else
    -- lines 233-237
    let r := DoRequest env c "GET" ("/stores/" ++ state.ID.ValueString) none
    match r.err with
    | some err =>
      let diags := Diagnostics.AddError resp.Diagnostics "Client Error"
        (utf8 "Unable to read store: " ++ err.Error)
      ({ resp with Diagnostics := diags }, r.calls)
    | none =>
      -- lines 239-243
      let respBody := r.body.getD []
      let calls := r.calls ++ [Call.Unmarshal respBody]
      match env.Unmarshal respBody with
      | .error e =>
        let diags := Diagnostics.AddError resp.Diagnostics "Parse Error"
          (utf8 ("Unable to parse response: " ++ e))
        ({ resp with Diagnostics := diags }, calls)
      | .ok result =>
        -- lines 246-248
        let state := match result.lookup "status" with
          | some (.string val) => { state with Status := .known val }
          | _ => state
        -- line 250
        ({ resp with State := some state }, calls)

/-- Lines 260-271 of resource_store.go: the payload `Update` builds from the plan. -/
def storeUpdateBody (plan : storeResourceModel) : Payload :=
  [ ("name", .str plan.Name.ValueString),
    ("address", .str plan.Address.ValueString),
    ("city", .str plan.City.ValueString),
    ("state", .str plan.State.ValueString),
    ("zip_code", .str plan.ZipCode.ValueString),
    ("phone_number", .str plan.PhoneNumber.ValueString),
    ("has_drive_thru", .bool plan.HasDriveThru.ValueBool),
    ("has_wifi", .bool plan.HasWifi.ValueBool),
    ("has_mobile_order", .bool plan.HasMobileOrder.ValueBool),
    ("capacity", .int64 plan.Capacity.ValueInt64) ]

/-- Go `(*storeResource).Update` (resource_store.go:253-280). -/
def storeResource.Update (env : Env) (c : StarbucksClient)
    (req : UpdateRequest storeResourceModel) (resp : UpdateResponse storeResourceModel) :
    UpdateResponse storeResourceModel × List Call :=
  -- lines 254-258
  let plan := req.Plan
  let resp := { resp with Diagnostics := Diagnostics.Append resp.Diagnostics req.PlanGetDiags }
  if Diagnostics.HasError resp.Diagnostics then (resp, [])
  else
    -- lines 260-277
    let r := DoRequest env c "PUT" ("/stores/" ++ plan.ID.ValueString) (some (storeUpdateBody plan))
    match r.err with
    | some err =>
      let diags := Diagnostics.AddError resp.Diagnostics "Client Error"
        (utf8 "Unable to update store: " ++ err.Error)
      ({ resp with Diagnostics := diags }, r.calls)
    | none =>
      -- line 279
      ({ resp with State := some plan }, r.calls)

/-- Go `(*storeResource).Delete` (resource_store.go:282-294). -/
def storeResource.Delete (env : Env) (c : StarbucksClient)
    (req : DeleteRequest storeResourceModel) (resp : DeleteResponse storeResourceModel) :
    DeleteResponse storeResourceModel × List Call :=
  -- lines 283-287
  let state := req.State
  let resp := { resp with Diagnostics := Diagnostics.Append resp.Diagnostics req.StateGetDiags }
  if Diagnostics.HasError resp.Diagnostics then (resp, [])
  else
    -- lines 289-293
    let r := DoRequest env c "DELETE" ("/stores/" ++ state.ID.ValueString) none
    match r.err with
    | some err =>
      let diags := Diagnostics.AddError resp.Diagnostics "Client Error"
        (utf8 "Unable to delete store: " ++ err.Error)
      ({ resp with Diagnostics := diags }, r.calls)
    | none => (resp, r.calls)

/-! ## resource_employee.go -/

/-- Go `employeeResourceModel` (resource_employee.go:22-39). -/
structure employeeResourceModel where
  ID : TfValue String
  EmployeeNumber : TfValue String
  FirstName : TfValue String
  LastName : TfValue String
  Email : TfValue String
  PhoneNumber : TfValue String
  StoreID : TfValue String
  Position : TfValue String
  HireDate : TfValue String
  HourlyRate : TfValue Float64
  IsBarista : TfValue Bool
  IsShiftSupervisor : TfValue Bool
  IsCertified : TfValue Bool
  AvailableHours : TfValue String
  EmploymentType : TfValue String
  Status : TfValue String
  deriving DecidableEq

/-- Lines 150-161 of resource_employee.go: the payload `Create` builds from the plan. -/
def employeeCreateBody (plan : employeeResourceModel) : Payload :=
  [ ("employee_number", .str plan.EmployeeNumber.ValueString),
    ("first_name", .str plan.FirstName.ValueString),
    ("last_name", .str plan.LastName.ValueString),
    ("email", .str plan.Email.ValueString),
    ("store_id", .str plan.StoreID.ValueString),
    ("position", .str plan.Position.ValueString),
    ("hire_date", .str plan.HireDate.ValueString),
    ("is_barista", .bool plan.IsBarista.ValueBool),
    ("is_shift_supervisor", .bool plan.IsShiftSupervisor.ValueBool),
    ("is_certified", .bool plan.IsCertified.ValueBool) ]

/-- Go `(*employeeResource).Create` (resource_employee.go:143-180). -/
def employeeResource.Create (env : Env) (c : StarbucksClient)
    (req : CreateRequest employeeResourceModel) (resp : CreateResponse employeeResourceModel) :
    CreateResponse employeeResourceModel × List Call :=
  -- lines 144-148
  let plan := req.Plan
  let resp := { resp with Diagnostics := Diagnostics.Append resp.Diagnostics req.PlanGetDiags }
  if Diagnostics.HasError resp.Diagnostics then (resp, [])
  else
    -- lines 150-167
    let r := DoRequest env c "POST" "/employees" (some (employeeCreateBody plan))
    match r.err with
    | some err =>
      let diags := Diagnostics.AddError resp.Diagnostics "Client Error"
        (utf8 "Unable to create employee: " ++ err.Error)
      ({ resp with Diagnostics := diags }, r.calls)
    | none =>
      -- lines 169-173
      let respBody := r.body.getD []
      let calls := r.calls ++ [Call.Unmarshal respBody]
      match env.Unmarshal respBody with
      | .error e =>
        let diags := Diagnostics.AddError resp.Diagnostics "Parse Error"
          (utf8 ("Unable to parse response: " ++ e))
        ({ resp with Diagnostics := diags }, calls)
      | .ok result =>
        -- lines 174-177
        let plan := match result.lookup "id" with
          | some (.string id) => { plan with ID := .known id }
          | _ => plan
        let plan := { plan with Status := .known "active" }
        -- line 179
        ({ resp with State := some plan }, calls)

/-- Go `(*employeeResource).Read` (resource_employee.go:182-206). -/
def employeeResource.Read (env : Env) (c : StarbucksClient)
    (req : ReadRequest employeeResourceModel) (resp : ReadResponse employeeResourceModel) :
    ReadResponse employeeResourceModel × List Call :=
  -- lines 183-187
  let state := req.State
  let resp := { resp with Diagnostics := Diagnostics.Append resp.Diagnostics req.StateGetDiags }
  if Diagnostics.HasError resp.Diagnostics then (resp, [])
  else
    -- lines 189-193
    let r := DoRequest env c "GET" ("/employees/" ++ state.ID.ValueString) none
    match r.err with
    | some err =>
      let diags := Diagnostics.AddError resp.Diagnostics "Client Error"
        (utf8 "Unable to read employee: " ++ err.Error)
      ({ resp with Diagnostics := diags }, r.calls)
    | none =>
      -- lines 195-199
      let respBody := r.body.getD []
      let calls := r.calls ++ [Call.Unmarshal respBody]
      match env.Unmarshal respBody with
      | .error e =>
        let diags := Diagnostics.AddError resp.Diagnostics "Parse Error"
          (utf8 ("Unable to parse response: " ++ e))
        ({ resp with Diagnostics := diags }, calls)
      | .ok result =>
        -- lines 201-203
        let state := match result.lookup "status" with
          | some (.string val) => { state with Status := .known val }
          | _ => state
        -- line 205
        ({ resp with State := some state }, calls)

/-- Lines 215-225 of resource_employee.go: the payload `Update` builds from the
plan; the phone number is `nil` when the plan holds null. -/
def employeeUpdateBody (plan : employeeResourceModel) : Payload :=
  [ ("first_name", .str plan.FirstName.ValueString),
    ("last_name", .str plan.LastName.ValueString),
    ("email", .str plan.Email.ValueString),
    ("phone_number", if plan.PhoneNumber.IsNull then .nil else .str plan.PhoneNumber.ValueString),
    ("position", .str plan.Position.ValueString) ]

/-- Go `(*employeeResource).Update` (resource_employee.go:208-233). -/
def employeeResource.Update (env : Env) (c : StarbucksClient)
    (req : UpdateRequest employeeResourceModel) (resp : UpdateResponse employeeResourceModel) :
    UpdateResponse employeeResourceModel × List Call :=
  -- lines 209-213
  let plan := req.Plan
  let resp := { resp with Diagnostics := Diagnostics.Append resp.Diagnostics req.PlanGetDiags }
  if Diagnostics.HasError resp.Diagnostics then (resp, [])
  else
    -- lines 215-230
    let r := DoRequest env c "PUT" ("/employees/" ++ plan.ID.ValueString)
      (some (employeeUpdateBody plan))
    match r.err with
    | some err =>
      let diags := Diagnostics.AddError resp.Diagnostics "Client Error"
        (utf8 "Unable to update employee: " ++ err.Error)
      ({ resp with Diagnostics := diags }, r.calls)
    | none =>
      -- line 232
      ({ resp with State := some plan }, r.calls)

/-- Go `(*employeeResource).Delete` (resource_employee.go:235-247). -/
def employeeResource.Delete (env : Env) (c : StarbucksClient)
    (req : DeleteRequest employeeResourceModel) (resp : DeleteResponse employeeResourceModel) :
    DeleteResponse employeeResourceModel × List Call :=
  -- lines 236-240
  let state := req.State
  let resp := { resp with Diagnostics := Diagnostics.Append resp.Diagnostics req.StateGetDiags }
  if Diagnostics.HasError resp.Diagnostics then (resp, [])
  else
    -- lines 242-246
    let r := DoRequest env c "DELETE" ("/employees/" ++ state.ID.ValueString) none
    match r.err with
    | some err =>
      let diags := Diagnostics.AddError resp.Diagnostics "Client Error"
        (utf8 "Unable to delete employee: " ++ err.Error)
      ({ resp with Diagnostics := diags }, r.calls)
    | none => (resp, r.calls)

/-! ## resource_menu_item.go -/

/-- Go `menuItemResourceModel` (resource_menu_item.go:17-27). -/
structure menuItemResourceModel where
  ID : TfValue String
  Name : TfValue String
  Category : TfValue String
  Size : TfValue String
  Price : TfValue Float64
  Calories : TfValue Int
  Description : TfValue String
  IsAvailable : TfValue Bool
  IsSeasonal : TfValue Bool
  deriving DecidableEq

/-- Lines 67-72 of resource_menu_item.go: the payload `Create` builds from the
plan; an optional field is `nil` when the plan holds null. -/
def menuItemCreateBody (plan : menuItemResourceModel) : Payload :=
  [ ("name", .str plan.Name.ValueString),
    ("category", if plan.Category.IsNull then .nil else .str plan.Category.ValueString),
    ("size", if plan.Size.IsNull then .nil else .str plan.Size.ValueString),
    ("price", if plan.Price.IsNull then .nil else .float64 plan.Price.ValueFloat64) ]

/-- Go `(*menuItemResource).Create` (resource_menu_item.go:62-87). -/
def menuItemResource.Create (env : Env) (c : StarbucksClient)
    (req : CreateRequest menuItemResourceModel) (resp : CreateResponse menuItemResourceModel) :
    CreateResponse menuItemResourceModel × List Call :=
  -- lines 63-65
  let plan := req.Plan
  let resp := { resp with Diagnostics := Diagnostics.Append resp.Diagnostics req.PlanGetDiags }
  if Diagnostics.HasError resp.Diagnostics then (resp, [])
  else
    -- lines 67-78
    let r := DoRequest env c "POST" "/menu_items" (some (menuItemCreateBody plan))
    match r.err with
    | some err =>
      let diags := Diagnostics.AddError resp.Diagnostics "Client Error"
        (utf8 "Unable to create menu item: " ++ err.Error)
      ({ resp with Diagnostics := diags }, r.calls)
    | none =>
      -- lines 80-84
      let respBody := r.body.getD []
      let calls := r.calls ++ [Call.Unmarshal respBody]
      match env.Unmarshal respBody with
      | .error e =>
        let diags := Diagnostics.AddError resp.Diagnostics "Parse Error"
          (utf8 ("Unable to parse response: " ++ e))
        ({ resp with Diagnostics := diags }, calls)
      | .ok result =>
        -- line 85
        let plan := match result.lookup "id" with
          | some (.string id) => { plan with ID := .known id }
          | _ => plan
        -- line 86
        ({ resp with State := some plan }, calls)

/-- Go `(*menuItemResource).Read` (resource_menu_item.go:89-106). -/
def menuItemResource.Read (env : Env) (c : StarbucksClient)
    (req : ReadRequest menuItemResourceModel) (resp : ReadResponse menuItemResourceModel) :
    ReadResponse menuItemResourceModel × List Call :=
  -- lines 90-92
  let state := req.State
  let resp := { resp with Diagnostics := Diagnostics.Append resp.Diagnostics req.StateGetDiags }
  if Diagnostics.HasError resp.Diagnostics then (resp, [])
  else
    -- lines 94-98
    let r := DoRequest env c "GET" ("/menu_items/" ++ state.ID.ValueString) none
    match r.err with
    | some err =>
      let diags := Diagnostics.AddError resp.Diagnostics "Client Error"
        (utf8 "Unable to read menu item: " ++ err.Error)
      ({ resp with Diagnostics := diags }, r.calls)
    | none =>
      -- lines 99-103
      let respBody := r.body.getD []
      let calls := r.calls ++ [Call.Unmarshal respBody]
      match env.Unmarshal respBody with
      | .error e =>
        let diags := Diagnostics.AddError resp.Diagnostics "Parse Error"
          (utf8 ("Unable to parse response: " ++ e))
        ({ resp with Diagnostics := diags }, calls)
      | .ok result =>
        -- line 104
        let state := match result.lookup "name" with
          | some (.string v) => { state with Name := .known v }
          | _ => state
        -- line 105
        ({ resp with State := some state }, calls)

/-- Go `(*menuItemResource).Update` (resource_menu_item.go:108-117). -/
def menuItemResource.Update (env : Env) (c : StarbucksClient)
    (req : UpdateRequest menuItemResourceModel) (resp : UpdateResponse menuItemResourceModel) :
    UpdateResponse menuItemResourceModel × List Call :=
  -- lines 109-111
  let plan := req.Plan
  let resp := { resp with Diagnostics := Diagnostics.Append resp.Diagnostics req.PlanGetDiags }
  if Diagnostics.HasError resp.Diagnostics then (resp, [])
  else
    -- lines 113-115
    let body : Payload := [("name", .str plan.Name.ValueString)]
    let r := DoRequest env c "PUT" ("/menu_items/" ++ plan.ID.ValueString) (some body)
    match r.err with
    | some err =>
      let diags := Diagnostics.AddError resp.Diagnostics "Client Error"
        (utf8 "Unable to update menu item: " ++ err.Error)
      ({ resp with Diagnostics := diags }, r.calls)
    | none =>
      -- line 116
      ({ resp with State := some plan }, r.calls)

/-- Go `(*menuItemResource).Delete` (resource_menu_item.go:119-125). -/
def menuItemResource.Delete (env : Env) (c : StarbucksClient)
    (req : DeleteRequest menuItemResourceModel) (resp : DeleteResponse menuItemResourceModel) :
    DeleteResponse menuItemResourceModel × List Call :=
  -- lines 120-122
  let state := req.State
  let resp := { resp with Diagnostics := Diagnostics.Append resp.Diagnostics req.StateGetDiags }
  if Diagnostics.HasError resp.Diagnostics then (resp, [])
  else
    -- lines 123-124
    let r := DoRequest env c "DELETE" ("/menu_items/" ++ state.ID.ValueString) none
    match r.err with
    | some err =>
      let diags := Diagnostics.AddError resp.Diagnostics "Client Error"
        (utf8 "Unable to delete menu item: " ++ err.Error)
      ({ resp with Diagnostics := diags }, r.calls)
    | none => (resp, r.calls)

/-! ## resource_inventory.go -/

/-- Go conversion `int64(q)` of a `float64`: the fraction is discarded. For a value
outside the range of `int64` the language leaves the result to the
implementation; the value here is the one amd64 gives. -/
def int64OfFloat64 : Float64 → Int
  | .finite q =>
    let t : Int := if 0 ≤ q then Rat.floor q else -Rat.floor (-q)
    if -2 ^ 63 ≤ t ∧ t < 2 ^ 63 then t else -2 ^ 63
  | .negZero => 0
  | _ => -2 ^ 63

/-- Go `inventoryResourceModel` (resource_inventory.go:15-21). -/
structure inventoryResourceModel where
  ID : TfValue String
  StoreID : TfValue String
  ItemSKU : TfValue String
  Quantity : TfValue Int
  Threshold : TfValue Int
  deriving DecidableEq

/-- Line 54 of resource_inventory.go: the payload `Create` builds from the plan. -/
def inventoryCreateBody (plan : inventoryResourceModel) : Payload :=
  [ ("store_id", .str plan.StoreID.ValueString),
    ("item_sku", .str plan.ItemSKU.ValueString),
    ("quantity", .int64 plan.Quantity.ValueInt64) ]

/-- Go `(*inventoryResource).Create` (resource_inventory.go:49-61). -/
def inventoryResource.Create (env : Env) (c : StarbucksClient)
    (req : CreateRequest inventoryResourceModel) (resp : CreateResponse inventoryResourceModel) :
    CreateResponse inventoryResourceModel × List Call :=
  -- lines 50-52
  let plan := req.Plan
  let resp := { resp with Diagnostics := Diagnostics.Append resp.Diagnostics req.PlanGetDiags }
  if Diagnostics.HasError resp.Diagnostics then (resp, [])
  else
    -- lines 54-56
    let r := DoRequest env c "POST" "/inventory" (some (inventoryCreateBody plan))
    match r.err with
    | some err =>
      let diags := Diagnostics.AddError resp.Diagnostics "Client Error"
        (utf8 "Unable to create inventory item: " ++ err.Error)
      ({ resp with Diagnostics := diags }, r.calls)
    | none =>
      -- lines 57-58
      let respBody := r.body.getD []
      let calls := r.calls ++ [Call.Unmarshal respBody]
      match env.Unmarshal respBody with
      | .error e =>
        let diags := Diagnostics.AddError resp.Diagnostics "Parse Error"
          (utf8 ("Unable to parse response: " ++ e))
        ({ resp with Diagnostics := diags }, calls)
      | .ok result =>
        -- line 59
        let plan := match result.lookup "id" with
          | some (.string id) => { plan with ID := .known id }
          | _ => plan
        -- line 60
        ({ resp with State := some plan }, calls)

/-- Go `(*inventoryResource).Read` (resource_inventory.go:63-73). -/
def inventoryResource.Read (env : Env) (c : StarbucksClient)
    (req : ReadRequest inventoryResourceModel) (resp : ReadResponse inventoryResourceModel) :
    ReadResponse inventoryResourceModel × List Call :=
  -- lines 64-66
  let state := req.State
  let resp := { resp with Diagnostics := Diagnostics.Append resp.Diagnostics req.StateGetDiags }
  if Diagnostics.HasError resp.Diagnostics then (resp, [])
  else
    -- lines 67-68
    let r := DoRequest env c "GET" ("/inventory/" ++ state.ID.ValueString) none
    match r.err with
    | some err =>
      let diags := Diagnostics.AddError resp.Diagnostics "Client Error"
        (utf8 "Unable to read inventory item: " ++ err.Error)
      ({ resp with Diagnostics := diags }, r.calls)
    | none =>
      -- lines 69-70
      let respBody := r.body.getD []
      let calls := r.calls ++ [Call.Unmarshal respBody]
      match env.Unmarshal respBody with
      | .error e =>
        let diags := Diagnostics.AddError resp.Diagnostics "Parse Error"
          (utf8 ("Unable to parse response: " ++ e))
        ({ resp with Diagnostics := diags }, calls)
      | .ok result =>
        -- line 71
        let state := match result.lookup "quantity" with
          | some (.number q) => { state with Quantity := .known (int64OfFloat64 q) }
          | _ => state
        -- line 72
        ({ resp with State := some state }, calls)

/-- Go `(*inventoryResource).Update` (resource_inventory.go:75-83). -/
def inventoryResource.Update (env : Env) (c : StarbucksClient)
    (req : UpdateRequest inventoryResourceModel) (resp : UpdateResponse inventoryResourceModel) :
    UpdateResponse inventoryResourceModel × List Call :=
  -- lines 76-78
  let plan := req.Plan
  let resp := { resp with Diagnostics := Diagnostics.Append resp.Diagnostics req.PlanGetDiags }
  if Diagnostics.HasError resp.Diagnostics then (resp, [])
  else
    -- lines 79-81
    let body : Payload := [("quantity", .int64 plan.Quantity.ValueInt64)]
    let r := DoRequest env c "PUT" ("/inventory/" ++ plan.ID.ValueString) (some body)
    match r.err with
    | some err =>
      let diags := Diagnostics.AddError resp.Diagnostics "Client Error"
        (utf8 "Unable to update inventory item: " ++ err.Error)
      ({ resp with Diagnostics := diags }, r.calls)
    | none =>
      -- line 82
      ({ resp with State := some plan }, r.calls)

/-- Go `(*inventoryResource).Delete` (resource_inventory.go:85-91). -/
def inventoryResource.Delete (env : Env) (c : StarbucksClient)
    (req : DeleteRequest inventoryResourceModel) (resp : DeleteResponse inventoryResourceModel) :
    DeleteResponse inventoryResourceModel × List Call :=
  -- lines 86-88
  let state := req.State
  let resp := { resp with Diagnostics := Diagnostics.Append resp.Diagnostics req.StateGetDiags }
  if Diagnostics.HasError resp.Diagnostics then (resp, [])
  else
    -- lines 89-90
    let r := DoRequest env c "DELETE" ("/inventory/" ++ state.ID.ValueString) none
    match r.err with
    | some err =>
      let diags := Diagnostics.AddError resp.Diagnostics "Client Error"
        (utf8 "Unable to delete inventory item: " ++ err.Error)
      ({ resp with Diagnostics := diags }, r.calls)
    | none => (resp, r.calls)

/-! ## resource_promotion.go -/

/-- Go `promotionResourceModel` (resource_promotion.go:15-22). -/
structure promotionResourceModel where
  ID : TfValue String
  Name : TfValue String
  Description : TfValue String
  StartDate : TfValue String
  EndDate : TfValue String
  Active : TfValue Bool
  deriving DecidableEq

/-- Line 55 of resource_promotion.go: the payload `Create` builds from the plan;
the description is `nil` when the plan holds null. -/
def promotionCreateBody (plan : promotionResourceModel) : Payload :=
  [ ("name", .str plan.Name.ValueString),
    ("description",
      if plan.Description.IsNull then .nil else .str plan.Description.ValueString) ]

/-- Go `(*promotionResource).Create` (resource_promotion.go:51-62). -/
def promotionResource.Create (env : Env) (c : StarbucksClient)
    (req : CreateRequest promotionResourceModel) (resp : CreateResponse promotionResourceModel) :
    CreateResponse promotionResourceModel × List Call :=
  -- lines 52-54
  let plan := req.Plan
  let resp := { resp with Diagnostics := Diagnostics.Append resp.Diagnostics req.PlanGetDiags }
  if Diagnostics.HasError resp.Diagnostics then (resp, [])
  else
    -- lines 55-57
    let r := DoRequest env c "POST" "/promotions" (some (promotionCreateBody plan))
    match r.err with
    | some err =>
      let diags := Diagnostics.AddError resp.Diagnostics "Client Error"
        (utf8 "Unable to create promotion: " ++ err.Error)
      ({ resp with Diagnostics := diags }, r.calls)
    | none =>
      -- lines 58-59
      let respBody := r.body.getD []
      let calls := r.calls ++ [Call.Unmarshal respBody]
      match env.Unmarshal respBody with
      | .error e =>
        let diags := Diagnostics.AddError resp.Diagnostics "Parse Error"
          (utf8 ("Unable to parse response: " ++ e))
        ({ resp with Diagnostics := diags }, calls)
      | .ok result =>
        -- line 60
        let plan := match result.lookup "id" with
          | some (.string id) => { plan with ID := .known id }
          | _ => plan
        -- line 61
        ({ resp with State := some plan }, calls)

/-- Go `(*promotionResource).Read` (resource_promotion.go:64-74). -/
def promotionResource.Read (env : Env) (c : StarbucksClient)
    (req : ReadRequest promotionResourceModel) (resp : ReadResponse promotionResourceModel) :
    ReadResponse promotionResourceModel × List Call :=
  -- lines 65-67
  let state := req.State
  let resp := { resp with Diagnostics := Diagnostics.Append resp.Diagnostics req.StateGetDiags }
  if Diagnostics.HasError resp.Diagnostics then (resp, [])
  else
    -- lines 68-69
    let r := DoRequest env c "GET" ("/promotions/" ++ state.ID.ValueString) none
    match r.err with
    | some err =>
      let diags := Diagnostics.AddError resp.Diagnostics "Client Error"
        (utf8 "Unable to read promotion: " ++ err.Error)
      ({ resp with Diagnostics := diags }, r.calls)
    | none =>
      -- lines 70-71
      let respBody := r.body.getD []
      let calls := r.calls ++ [Call.Unmarshal respBody]
      match env.Unmarshal respBody with
      | .error e =>
        let diags := Diagnostics.AddError resp.Diagnostics "Parse Error"
          (utf8 ("Unable to parse response: " ++ e))
        ({ resp with Diagnostics := diags }, calls)
      | .ok result =>
        -- line 72
        let state := match result.lookup "active" with
          | some (.bool a) => { state with Active := .known a }
          | _ => state
        -- line 73
        ({ resp with State := some state }, calls)

/-- Go `(*promotionResource).Update` (resource_promotion.go:76-84). -/
def promotionResource.Update (env : Env) (c : StarbucksClient)
    (req : UpdateRequest promotionResourceModel) (resp : UpdateResponse promotionResourceModel) :
    UpdateResponse promotionResourceModel × List Call :=
  -- lines 77-79
  let plan := req.Plan
  let resp := { resp with Diagnostics := Diagnostics.Append resp.Diagnostics req.PlanGetDiags }
  if Diagnostics.HasError resp.Diagnostics then (resp, [])
  else
    -- lines 80-82
    let body : Payload := [("name", .str plan.Name.ValueString)]
    let r := DoRequest env c "PUT" ("/promotions/" ++ plan.ID.ValueString) (some body)
    match r.err with
    | some err =>
      let diags := Diagnostics.AddError resp.Diagnostics "Client Error"
        (utf8 "Unable to update promotion: " ++ err.Error)
      ({ resp with Diagnostics := diags }, r.calls)
    | none =>
      -- line 83
      ({ resp with State := some plan }, r.calls)

/-- Go `(*promotionResource).Delete` (resource_promotion.go:86-92). -/
def promotionResource.Delete (env : Env) (c : StarbucksClient)
    (req : DeleteRequest promotionResourceModel) (resp : DeleteResponse promotionResourceModel) :
    DeleteResponse promotionResourceModel × List Call :=
  -- lines 87-89
  let state := req.State
  let resp := { resp with Diagnostics := Diagnostics.Append resp.Diagnostics req.StateGetDiags }
  if Diagnostics.HasError resp.Diagnostics then (resp, [])
  else
    -- lines 90-91
    let r := DoRequest env c "DELETE" ("/promotions/" ++ state.ID.ValueString) none
    match r.err with
    | some err =>
      let diags := Diagnostics.AddError resp.Diagnostics "Client Error"
        (utf8 "Unable to delete promotion: " ++ err.Error)
      ({ resp with Diagnostics := diags }, r.calls)
    | none => (resp, r.calls)

/-! ## datasource_store.go and datasource_stores.go -/

/-- Go `storeDataSourceModel` (datasource_store.go:15-20). -/
structure storeDataSourceModel where
  ID : TfValue String
  Name : TfValue String
  City : TfValue String
  State : TfValue String
  deriving DecidableEq

/-- Go `(*storeDataSource).Read` (datasource_store.go:46-60). -/
def storeDataSource.Read (env : Env) (c : StarbucksClient)
    (req : DataSourceReadRequest storeDataSourceModel)
    (resp : DataSourceReadResponse storeDataSourceModel) :
    DataSourceReadResponse storeDataSourceModel × List Call :=
  -- lines 47-49
  let state := req.Config
  let resp := { resp with Diagnostics := Diagnostics.Append resp.Diagnostics req.ConfigGetDiags }
  if Diagnostics.HasError resp.Diagnostics then (resp, [])
  else
    -- lines 51-52
    let r := DoRequest env c "GET" ("/stores/" ++ state.ID.ValueString) none
    match r.err with
    | some err =>
      let diags := Diagnostics.AddError resp.Diagnostics "Client Error"
        (utf8 "Unable to read store: " ++ err.Error)
      ({ resp with Diagnostics := diags }, r.calls)
    | none =>
      -- lines 53-54
      let respBody := r.body.getD []
      let calls := r.calls ++ [Call.Unmarshal respBody]
      match env.Unmarshal respBody with
      | .error e =>
        let diags := Diagnostics.AddError resp.Diagnostics "Parse Error"
          (utf8 ("Unable to parse response: " ++ e))
        ({ resp with Diagnostics := diags }, calls)
      | .ok result =>
        -- lines 55-57
        let state := match result.lookup "name" with
          | some (.string v) => { state with Name := .known v }
          | _ => state
        let state := match result.lookup "city" with
          | some (.string v) => { state with City := .known v }
          | _ => state
        let state := match result.lookup "state" with
          | some (.string v) => { state with State := .known v }
          | _ => state
        -- line 59
        ({ resp with State := some state }, calls)

/-- Go `storesDataSourceModel` (datasource_stores.go:15-17). -/
structure storesDataSourceModel where
  Stores : List JsonMap

/-- Go `(*storesDataSource).Read` (datasource_stores.go:49-57). The handler does
not decode the configuration, so the request carries nothing it reads. -/
def storesDataSource.Read (env : Env) (c : StarbucksClient)
    (resp : DataSourceReadResponse storesDataSourceModel) :
    DataSourceReadResponse storesDataSourceModel × List Call :=
  -- lines 50-51
  let r := DoRequest env c "GET" "/stores" none
  match r.err with
  | some err =>
    let diags := Diagnostics.AddError resp.Diagnostics "Client Error"
      (utf8 "Unable to list stores: " ++ err.Error)
    ({ resp with Diagnostics := diags }, r.calls)
  | none =>
    -- lines 52-53
    let respBody := r.body.getD []
    let calls := r.calls ++ [Call.Unmarshal respBody]
    match env.UnmarshalList respBody with
    | .error e =>
      let diags := Diagnostics.AddError resp.Diagnostics "Parse Error"
        (utf8 ("Unable to parse response: " ++ e))
      ({ resp with Diagnostics := diags }, calls)
    | .ok result =>
      -- lines 55-56: `State.Set` replaces the state unless its diagnostics hold an
      -- error, and the handler appends those diagnostics
      let model : storesDataSourceModel := { Stores := result }
      let setDiags := env.StateSetStores model.Stores
      let state := if Diagnostics.HasError setDiags then resp.State else some model
      (⟨state, Diagnostics.Append resp.Diagnostics setDiags⟩, calls)

/-! ## The client as state: `DoRequest` and the handlers as steps on it -/

/-- Go `(*StarbucksClient).DoRequest` (client.go:30-65) as a step on the client its
receiver points to: `s` is that client when the call starts, and the result
comes with the client when the call returns. The body uses the receiver four
times, each a read of a field: `c.Endpoint` on line 40, `c.APIKey` on line 45,
`c.Region` on line 47 and `c.HTTPClient` on line 49. The library calls get
values, not the client, and `HTTPClient.Do` leaves the timeout of the HTTP
client as it is. -/
def DoRequestOn (env : Env) (method path : String) (body : Option Payload)
    (s : StarbucksClient) : DoResult × StarbucksClient :=
  -- lines 31-38
  let encoded : Outcome (Option Bytes) × List Call :=
    match body with
    | none => (.ok none, [])
    | some p =>
      match env.Marshal p with
      | .error e => (.error e, [Call.Marshal p])
      | .ok jsonBody => (.ok (some jsonBody), [Call.Marshal p])
  match encoded with
  | (.error e, t1) => (⟨none, some (.marshaling e), t1⟩, s)
  | (.ok reqBody, t1) =>
    -- lines 40-43: reads `c.Endpoint`
    let endpoint := s.Endpoint
    let t2 := t1 ++ [Call.NewRequest method (endpoint ++ path) reqBody]
    match NewRequest env method (endpoint ++ path) reqBody with
    | .error e => (⟨none, some (.creating e), t2⟩, s)
    | .ok req0 =>
      -- lines 45-47: read `c.APIKey` and `c.Region`
      let apiKey := s.APIKey
      let region := s.Region
      let h1 := req0.Header.Set "Authorization" ("Bearer " ++ apiKey)
      let h2 := h1.Set "Content-Type" "application/json"
      let h3 := h2.Set "X-Region" region
      let req := { req0 with Header := h3 }
      -- lines 49-53: reads `c.HTTPClient`
      let httpClient := s.HTTPClient
      let t3 := t2 ++ [Call.Do httpClient req]
      match env.Do httpClient req with
      | .error e => (⟨none, some (.making e), t3⟩, s)
      | .ok resp =>
        -- lines 55-58
        let t4 := t3 ++ [Call.ReadAll resp]
        match resp.Body with
        | .error e => (⟨none, some (.reading e), t4⟩, s)
        | .ok respBody =>
          -- lines 60-64
          if resp.StatusCode ≥ 400 then
            (⟨none, some (.api resp.StatusCode respBody), t4⟩, s)
          else
            (⟨some respBody, none, t4⟩, s)

/-- Go `(*storeResource).Create` as a step on the client its receiver points to: `s` is
that client when the handler starts, and the result comes with the client when
the handler returns. The handler uses the client only as the receiver of its
`DoRequest` call. -/
def storeResource.CreateOn (env : Env) (s : StarbucksClient)
    (req : CreateRequest storeResourceModel) (resp : CreateResponse storeResourceModel) :
    (CreateResponse storeResourceModel × List Call) × StarbucksClient :=
  -- lines 167-171
  let plan := req.Plan
  let resp := { resp with Diagnostics := Diagnostics.Append resp.Diagnostics req.PlanGetDiags }
  if Diagnostics.HasError resp.Diagnostics then ((resp, []), s)
  else
    -- lines 173-210
    let step := DoRequestOn env "POST" "/stores" (some (storeCreateBody plan)) s
    let r := step.1
    let s := step.2
    match r.err with
    | some err =>
      let diags := Diagnostics.AddError resp.Diagnostics "Client Error"
        (utf8 "Unable to create store: " ++ err.Error)
      (({ resp with Diagnostics := diags }, r.calls), s)
    | none =>
      -- lines 212-216
      let respBody := r.body.getD []
      let calls := r.calls ++ [Call.Unmarshal respBody]
      match env.Unmarshal respBody with
      | .error e =>
        let diags := Diagnostics.AddError resp.Diagnostics "Parse Error"
          (utf8 ("Unable to parse response: " ++ e))
        (({ resp with Diagnostics := diags }, calls), s)
      | .ok result =>
        -- lines 218-221
        let plan := match result.lookup "id" with
          | some (.string id) => { plan with ID := .known id }
          | _ => plan
        let plan := { plan with Status := .known "active" }
        -- line 223
        (({ resp with State := some plan }, calls), s)

/-- Go `(*storeResource).Read` as a step on the client its receiver points to: `s` is
that client when the handler starts, and the result comes with the client when
the handler returns. The handler uses the client only as the receiver of its
`DoRequest` call. -/
def storeResource.ReadOn (env : Env) (s : StarbucksClient)
    (req : ReadRequest storeResourceModel) (resp : ReadResponse storeResourceModel) :
    (ReadResponse storeResourceModel × List Call) × StarbucksClient :=
  -- lines 227-231
  let state := req.State
  let resp := { resp with Diagnostics := Diagnostics.Append resp.Diagnostics req.StateGetDiags }
  if Diagnostics.HasError resp.Diagnostics then ((resp, []), s)
  else
    -- lines 233-237
    let step := DoRequestOn env "GET" ("/stores/" ++ state.ID.ValueString) none s
    let r := step.1
    let s := step.2
    match r.err with
    | some err =>
      let diags := Diagnostics.AddError resp.Diagnostics "Client Error"
        (utf8 "Unable to read store: " ++ err.Error)
      (({ resp with Diagnostics := diags }, r.calls), s)
    | none =>
      -- lines 239-243
      let respBody := r.body.getD []
      let calls := r.calls ++ [Call.Unmarshal respBody]
      match env.Unmarshal respBody with
      | .error e =>
        let diags := Diagnostics.AddError resp.Diagnostics "Parse Error"
          (utf8 ("Unable to parse response: " ++ e))
        (({ resp with Diagnostics := diags }, calls), s)
      | .ok result =>
        -- lines 246-248
        let state := match result.lookup "status" with
          | some (.string val) => { state with Status := .known val }
          | _ => state
        -- line 250
        (({ resp with State := some state }, calls), s)

/-- Go `(*storeResource).Update` as a step on the client its receiver points to: `s` is
that client when the handler starts, and the result comes with the client when
the handler returns. The handler uses the client only as the receiver of its
`DoRequest` call. -/
def storeResource.UpdateOn (env : Env) (s : StarbucksClient)
    (req : UpdateRequest storeResourceModel) (resp : UpdateResponse storeResourceModel) :
    (UpdateResponse storeResourceModel × List Call) × StarbucksClient :=
  -- lines 254-258
  let plan := req.Plan
  let resp := { resp with Diagnostics := Diagnostics.Append resp.Diagnostics req.PlanGetDiags }
  if Diagnostics.HasError resp.Diagnostics then ((resp, []), s)
  else
    -- lines 260-277
    let step := DoRequestOn env "PUT" ("/stores/" ++ plan.ID.ValueString) (some (storeUpdateBody plan)) s
    let r := step.1
    let s := step.2
    match r.err with
    | some err =>
      let diags := Diagnostics.AddError resp.Diagnostics "Client Error"
        (utf8 "Unable to update store: " ++ err.Error)
      (({ resp with Diagnostics := diags }, r.calls), s)
    | none =>
      -- line 279
      (({ resp with State := some plan }, r.calls), s)

/-- Go `(*storeResource).Delete` as a step on the client its receiver points to: `s` is
that client when the handler starts, and the result comes with the client when
the handler returns. The handler uses the client only as the receiver of its
`DoRequest` call. -/
def storeResource.DeleteOn (env : Env) (s : StarbucksClient)
    (req : DeleteRequest storeResourceModel) (resp : DeleteResponse storeResourceModel) :
    (DeleteResponse storeResourceModel × List Call) × StarbucksClient :=
  -- lines 283-287
  let state := req.State
  let resp := { resp with Diagnostics := Diagnostics.Append resp.Diagnostics req.StateGetDiags }
  if Diagnostics.HasError resp.Diagnostics then ((resp, []), s)
  else
    -- lines 289-293
    let step := DoRequestOn env "DELETE" ("/stores/" ++ state.ID.ValueString) none s
    let r := step.1
    let s := step.2
    match r.err with
    | some err =>
      let diags := Diagnostics.AddError resp.Diagnostics "Client Error"
        (utf8 "Unable to delete store: " ++ err.Error)
      (({ resp with Diagnostics := diags }, r.calls), s)
    | none => ((resp, r.calls), s)

/-- Go `(*employeeResource).Create` as a step on the client its receiver points to: `s` is
that client when the handler starts, and the result comes with the client when
the handler returns. The handler uses the client only as the receiver of its
`DoRequest` call. -/
def employeeResource.CreateOn (env : Env) (s : StarbucksClient)
    (req : CreateRequest employeeResourceModel) (resp : CreateResponse employeeResourceModel) :
    (CreateResponse employeeResourceModel × List Call) × StarbucksClient :=
  -- lines 144-148
  let plan := req.Plan
  let resp := { resp with Diagnostics := Diagnostics.Append resp.Diagnostics req.PlanGetDiags }
  if Diagnostics.HasError resp.Diagnostics then ((resp, []), s)
  else
    -- lines 150-167
    let step := DoRequestOn env "POST" "/employees" (some (employeeCreateBody plan)) s
    let r := step.1
    let s := step.2
    match r.err with
    | some err =>
      let diags := Diagnostics.AddError resp.Diagnostics "Client Error"
        (utf8 "Unable to create employee: " ++ err.Error)
      (({ resp with Diagnostics := diags }, r.calls), s)
    | none =>
      -- lines 169-173
      let respBody := r.body.getD []
      let calls := r.calls ++ [Call.Unmarshal respBody]
      match env.Unmarshal respBody with
      | .error e =>
        let diags := Diagnostics.AddError resp.Diagnostics "Parse Error"
          (utf8 ("Unable to parse response: " ++ e))
        (({ resp with Diagnostics := diags }, calls), s)
      | .ok result =>
        -- lines 174-177
        let plan := match result.lookup "id" with
          | some (.string id) => { plan with ID := .known id }
          | _ => plan
        let plan := { plan with Status := .known "active" }
        -- line 179
        (({ resp with State := some plan }, calls), s)

/-- Go `(*employeeResource).Read` as a step on the client its receiver points to: `s` is
that client when the handler starts, and the result comes with the client when
the handler returns. The handler uses the client only as the receiver of its
`DoRequest` call. -/
def employeeResource.ReadOn (env : Env) (s : StarbucksClient)
    (req : ReadRequest employeeResourceModel) (resp : ReadResponse employeeResourceModel) :
    (ReadResponse employeeResourceModel × List Call) × StarbucksClient :=
  -- lines 183-187
  let state := req.State
  let resp := { resp with Diagnostics := Diagnostics.Append resp.Diagnostics req.StateGetDiags }
  if Diagnostics.HasError resp.Diagnostics then ((resp, []), s)
  else
    -- lines 189-193
    let step := DoRequestOn env "GET" ("/employees/" ++ state.ID.ValueString) none s
    let r := step.1
    let s := step.2
    match r.err with
    | some err =>
      let diags := Diagnostics.AddError resp.Diagnostics "Client Error"
        (utf8 "Unable to read employee: " ++ err.Error)
      (({ resp with Diagnostics := diags }, r.calls), s)
    | none =>
      -- lines 195-199
      let respBody := r.body.getD []
      let calls := r.calls ++ [Call.Unmarshal respBody]
      match env.Unmarshal respBody with
      | .error e =>
        let diags := Diagnostics.AddError resp.Diagnostics "Parse Error"
          (utf8 ("Unable to parse response: " ++ e))
        (({ resp with Diagnostics := diags }, calls), s)
      | .ok result =>
        -- lines 201-203
        let state := match result.lookup "status" with
          | some (.string val) => { state with Status := .known val }
          | _ => state
        -- line 205
        (({ resp with State := some state }, calls), s)

/-- Go `(*employeeResource).Update` as a step on the client its receiver points to: `s` is
that client when the handler starts, and the result comes with the client when
the handler returns. The handler uses the client only as the receiver of its
`DoRequest` call. -/
def employeeResource.UpdateOn (env : Env) (s : StarbucksClient)
    (req : UpdateRequest employeeResourceModel) (resp : UpdateResponse employeeResourceModel) :
    (UpdateResponse employeeResourceModel × List Call) × StarbucksClient :=
  -- lines 209-213
  let plan := req.Plan
  let resp := { resp with Diagnostics := Diagnostics.Append resp.Diagnostics req.PlanGetDiags }
  if Diagnostics.HasError resp.Diagnostics then ((resp, []), s)
  else
    -- lines 215-230
    let step := DoRequestOn env "PUT" ("/employees/" ++ plan.ID.ValueString)
      (some (employeeUpdateBody plan)) s
    let r := step.1
    let s := step.2
    match r.err with
    | some err =>
      let diags := Diagnostics.AddError resp.Diagnostics "Client Error"
        (utf8 "Unable to update employee: " ++ err.Error)
      (({ resp with Diagnostics := diags }, r.calls), s)
    | none =>
      -- line 232
      (({ resp with State := some plan }, r.calls), s)

/-- Go `(*employeeResource).Delete` as a step on the client its receiver points to: `s` is
that client when the handler starts, and the result comes with the client when
the handler returns. The handler uses the client only as the receiver of its
`DoRequest` call. -/
def employeeResource.DeleteOn (env : Env) (s : StarbucksClient)
    (req : DeleteRequest employeeResourceModel) (resp : DeleteResponse employeeResourceModel) :
    (DeleteResponse employeeResourceModel × List Call) × StarbucksClient :=
  -- lines 236-240
  let state := req.State
  let resp := { resp with Diagnostics := Diagnostics.Append resp.Diagnostics req.StateGetDiags }
  if Diagnostics.HasError resp.Diagnostics then ((resp, []), s)
  else
    -- lines 242-246
    let step := DoRequestOn env "DELETE" ("/employees/" ++ state.ID.ValueString) none s
    let r := step.1
    let s := step.2
    match r.err with
    | some err =>
      let diags := Diagnostics.AddError resp.Diagnostics "Client Error"
        (utf8 "Unable to delete employee: " ++ err.Error)
      (({ resp with Diagnostics := diags }, r.calls), s)
    | none => ((resp, r.calls), s)

/-- Go `(*menuItemResource).Create` as a step on the client its receiver points to: `s` is
that client when the handler starts, and the result comes with the client when
the handler returns. The handler uses the client only as the receiver of its
`DoRequest` call. -/
def menuItemResource.CreateOn (env : Env) (s : StarbucksClient)
    (req : CreateRequest menuItemResourceModel) (resp : CreateResponse menuItemResourceModel) :
    (CreateResponse menuItemResourceModel × List Call) × StarbucksClient :=
  -- lines 63-65
  let plan := req.Plan
  let resp := { resp with Diagnostics := Diagnostics.Append resp.Diagnostics req.PlanGetDiags }
  if Diagnostics.HasError resp.Diagnostics then ((resp, []), s)
  else
    -- lines 67-78
    let step := DoRequestOn env "POST" "/menu_items" (some (menuItemCreateBody plan)) s
    let r := step.1
    let s := step.2
    match r.err with
    | some err =>
      let diags := Diagnostics.AddError resp.Diagnostics "Client Error"
        (utf8 "Unable to create menu item: " ++ err.Error)
      (({ resp with Diagnostics := diags }, r.calls), s)
    | none =>
      -- lines 80-84
      let respBody := r.body.getD []
      let calls := r.calls ++ [Call.Unmarshal respBody]
      match env.Unmarshal respBody with
      | .error e =>
        let diags := Diagnostics.AddError resp.Diagnostics "Parse Error"
          (utf8 ("Unable to parse response: " ++ e))
        (({ resp with Diagnostics := diags }, calls), s)
      | .ok result =>
        -- line 85
        let plan := match result.lookup "id" with
          | some (.string id) => { plan with ID := .known id }
          | _ => plan
        -- line 86
        (({ resp with State := some plan }, calls), s)

/-- Go `(*menuItemResource).Read` as a step on the client its receiver points to: `s` is
that client when the handler starts, and the result comes with the client when
the handler returns. The handler uses the client only as the receiver of its
`DoRequest` call. -/
def menuItemResource.ReadOn (env : Env) (s : StarbucksClient)
    (req : ReadRequest menuItemResourceModel) (resp : ReadResponse menuItemResourceModel) :
    (ReadResponse menuItemResourceModel × List Call) × StarbucksClient :=
  -- lines 90-92
  let state := req.State
  let resp := { resp with Diagnostics := Diagnostics.Append resp.Diagnostics req.StateGetDiags }
  if Diagnostics.HasError resp.Diagnostics then ((resp, []), s)
  else
    -- lines 94-98
    let step := DoRequestOn env "GET" ("/menu_items/" ++ state.ID.ValueString) none s
    let r := step.1
    let s := step.2
    match r.err with
    | some err =>
      let diags := Diagnostics.AddError resp.Diagnostics "Client Error"
        (utf8 "Unable to read menu item: " ++ err.Error)
      (({ resp with Diagnostics := diags }, r.calls), s)
    | none =>
      -- lines 99-103
      let respBody := r.body.getD []
      let calls := r.calls ++ [Call.Unmarshal respBody]
      match env.Unmarshal respBody with
      | .error e =>
        let diags := Diagnostics.AddError resp.Diagnostics "Parse Error"
          (utf8 ("Unable to parse response: " ++ e))
        (({ resp with Diagnostics := diags }, calls), s)
      | .ok result =>
        -- line 104
        let state := match result.lookup "name" with
          | some (.string v) => { state with Name := .known v }
          | _ => state
        -- line 105
        (({ resp with State := some state }, calls), s)

/-- Go `(*menuItemResource).Update` as a step on the client its receiver points to: `s` is
that client when the handler starts, and the result comes with the client when
the handler returns. The handler uses the client only as the receiver of its
`DoRequest` call. -/
def menuItemResource.UpdateOn (env : Env) (s : StarbucksClient)
    (req : UpdateRequest menuItemResourceModel) (resp : UpdateResponse menuItemResourceModel) :
    (UpdateResponse menuItemResourceModel × List Call) × StarbucksClient :=
  -- lines 109-111
  let plan := req.Plan
  let resp := { resp with Diagnostics := Diagnostics.Append resp.Diagnostics req.PlanGetDiags }
  if Diagnostics.HasError resp.Diagnostics then ((resp, []), s)
  else
    -- lines 113-115
    let body : Payload := [("name", .str plan.Name.ValueString)]
    let step := DoRequestOn env "PUT" ("/menu_items/" ++ plan.ID.ValueString) (some body) s
    let r := step.1
    let s := step.2
    match r.err with
    | some err =>
      let diags := Diagnostics.AddError resp.Diagnostics "Client Error"
        (utf8 "Unable to update menu item: " ++ err.Error)
      (({ resp with Diagnostics := diags }, r.calls), s)
    | none =>
      -- line 116
      (({ resp with State := some plan }, r.calls), s)

/-- Go `(*menuItemResource).Delete` as a step on the client its receiver points to: `s` is
that client when the handler starts, and the result comes with the client when
the handler returns. The handler uses the client only as the receiver of its
`DoRequest` call. -/
def menuItemResource.DeleteOn (env : Env) (s : StarbucksClient)
    (req : DeleteRequest menuItemResourceModel) (resp : DeleteResponse menuItemResourceModel) :
    (DeleteResponse menuItemResourceModel × List Call) × StarbucksClient :=
  -- lines 120-122
  let state := req.State
  let resp := { resp with Diagnostics := Diagnostics.Append resp.Diagnostics req.StateGetDiags }
  if Diagnostics.HasError resp.Diagnostics then ((resp, []), s)
  else
    -- lines 123-124
    let step := DoRequestOn env "DELETE" ("/menu_items/" ++ state.ID.ValueString) none s
    let r := step.1
    let s := step.2
    match r.err with
    | some err =>
      let diags := Diagnostics.AddError resp.Diagnostics "Client Error"
        (utf8 "Unable to delete menu item: " ++ err.Error)
      (({ resp with Diagnostics := diags }, r.calls), s)
    | none => ((resp, r.calls), s)

/-- Go `(*inventoryResource).Create` as a step on the client its receiver points to: `s` is
that client when the handler starts, and the result comes with the client when
the handler returns. The handler uses the client only as the receiver of its
`DoRequest` call. -/
def inventoryResource.CreateOn (env : Env) (s : StarbucksClient)
    (req : CreateRequest inventoryResourceModel) (resp : CreateResponse inventoryResourceModel) :
    (CreateResponse inventoryResourceModel × List Call) × StarbucksClient :=
  -- lines 50-52
  let plan := req.Plan
  let resp := { resp with Diagnostics := Diagnostics.Append resp.Diagnostics req.PlanGetDiags }
  if Diagnostics.HasError resp.Diagnostics then ((resp, []), s)
  else
    -- lines 54-56
    let step := DoRequestOn env "POST" "/inventory" (some (inventoryCreateBody plan)) s
    let r := step.1
    let s := step.2
    match r.err with
    | some err =>
      let diags := Diagnostics.AddError resp.Diagnostics "Client Error"
        (utf8 "Unable to create inventory item: " ++ err.Error)
      (({ resp with Diagnostics := diags }, r.calls), s)
    | none =>
      -- lines 57-58
      let respBody := r.body.getD []
      let calls := r.calls ++ [Call.Unmarshal respBody]
      match env.Unmarshal respBody with
      | .error e =>
        let diags := Diagnostics.AddError resp.Diagnostics "Parse Error"
          (utf8 ("Unable to parse response: " ++ e))
        (({ resp with Diagnostics := diags }, calls), s)
      | .ok result =>
        -- line 59
        let plan := match result.lookup "id" with
          | some (.string id) => { plan with ID := .known id }
          | _ => plan
        -- line 60
        (({ resp with State := some plan }, calls), s)

/-- Go `(*inventoryResource).Read` as a step on the client its receiver points to: `s` is
that client when the handler starts, and the result comes with the client when
the handler returns. The handler uses the client only as the receiver of its
`DoRequest` call. -/
def inventoryResource.ReadOn (env : Env) (s : StarbucksClient)
    (req : ReadRequest inventoryResourceModel) (resp : ReadResponse inventoryResourceModel) :
    (ReadResponse inventoryResourceModel × List Call) × StarbucksClient :=
  -- lines 64-66
  let state := req.State
  let resp := { resp with Diagnostics := Diagnostics.Append resp.Diagnostics req.StateGetDiags }
  if Diagnostics.HasError resp.Diagnostics then ((resp, []), s)
  else
    -- lines 67-68
    let step := DoRequestOn env "GET" ("/inventory/" ++ state.ID.ValueString) none s
    let r := step.1
    let s := step.2
    match r.err with
    | some err =>
      let diags := Diagnostics.AddError resp.Diagnostics "Client Error"
        (utf8 "Unable to read inventory item: " ++ err.Error)
      (({ resp with Diagnostics := diags }, r.calls), s)
    | none =>
      -- lines 69-70
      let respBody := r.body.getD []
      let calls := r.calls ++ [Call.Unmarshal respBody]
      match env.Unmarshal respBody with
      | .error e =>
        let diags := Diagnostics.AddError resp.Diagnostics "Parse Error"
          (utf8 ("Unable to parse response: " ++ e))
        (({ resp with Diagnostics := diags }, calls), s)
      | .ok result =>
        -- line 71
        let state := match result.lookup "quantity" with
          | some (.number q) => { state with Quantity := .known (int64OfFloat64 q) }
          | _ => state
        -- line 72
        (({ resp with State := some state }, calls), s)

/-- Go `(*inventoryResource).Update` as a step on the client its receiver points to: `s` is
that client when the handler starts, and the result comes with the client when
the handler returns. The handler uses the client only as the receiver of its
`DoRequest` call. -/
def inventoryResource.UpdateOn (env : Env) (s : StarbucksClient)
    (req : UpdateRequest inventoryResourceModel) (resp : UpdateResponse inventoryResourceModel) :
    (UpdateResponse inventoryResourceModel × List Call) × StarbucksClient :=
  -- lines 76-78
  let plan := req.Plan
  let resp := { resp with Diagnostics := Diagnostics.Append resp.Diagnostics req.PlanGetDiags }
  if Diagnostics.HasError resp.Diagnostics then ((resp, []), s)
  else
    -- lines 79-81
    let body : Payload := [("quantity", .int64 plan.Quantity.ValueInt64)]
    let step := DoRequestOn env "PUT" ("/inventory/" ++ plan.ID.ValueString) (some body) s
    let r := step.1
    let s := step.2
    match r.err with
    | some err =>
      let diags := Diagnostics.AddError resp.Diagnostics "Client Error"
        (utf8 "Unable to update inventory item: " ++ err.Error)
      (({ resp with Diagnostics := diags }, r.calls), s)
    | none =>
      -- line 82
      (({ resp with State := some plan }, r.calls), s)

/-- Go `(*inventoryResource).Delete` as a step on the client its receiver points to: `s` is
that client when the handler starts, and the result comes with the client when
the handler returns. The handler uses the client only as the receiver of its
`DoRequest` call. -/
def inventoryResource.DeleteOn (env : Env) (s : StarbucksClient)
    (req : DeleteRequest inventoryResourceModel) (resp : DeleteResponse inventoryResourceModel) :
    (DeleteResponse inventoryResourceModel × List Call) × StarbucksClient :=
  -- lines 86-88
  let state := req.State
  let resp := { resp with Diagnostics := Diagnostics.Append resp.Diagnostics req.StateGetDiags }
  if Diagnostics.HasError resp.Diagnostics then ((resp, []), s)
  else
    -- lines 89-90
    let step := DoRequestOn env "DELETE" ("/inventory/" ++ state.ID.ValueString) none s
    let r := step.1
    let s := step.2
    match r.err with
    | some err =>
      let diags := Diagnostics.AddError resp.Diagnostics "Client Error"
        (utf8 "Unable to delete inventory item: " ++ err.Error)
      (({ resp with Diagnostics := diags }, r.calls), s)
    | none => ((resp, r.calls), s)

/-- Go `(*promotionResource).Create` as a step on the client its receiver points to: `s` is
that client when the handler starts, and the result comes with the client when
the handler returns. The handler uses the client only as the receiver of its
`DoRequest` call. -/
def promotionResource.CreateOn (env : Env) (s : StarbucksClient)
    (req : CreateRequest promotionResourceModel) (resp : CreateResponse promotionResourceModel) :
    (CreateResponse promotionResourceModel × List Call) × StarbucksClient :=
  -- lines 52-54
  let plan := req.Plan
  let resp := { resp with Diagnostics := Diagnostics.Append resp.Diagnostics req.PlanGetDiags }
  if Diagnostics.HasError resp.Diagnostics then ((resp, []), s)
  else
    -- lines 55-57
    let step := DoRequestOn env "POST" "/promotions" (some (promotionCreateBody plan)) s
    let r := step.1
    let s := step.2
    match r.err with
    | some err =>
      let diags := Diagnostics.AddError resp.Diagnostics "Client Error"
        (utf8 "Unable to create promotion: " ++ err.Error)
      (({ resp with Diagnostics := diags }, r.calls), s)
    | none =>
      -- lines 58-59
      let respBody := r.body.getD []
      let calls := r.calls ++ [Call.Unmarshal respBody]
      match env.Unmarshal respBody with
      | .error e =>
        let diags := Diagnostics.AddError resp.Diagnostics "Parse Error"
          (utf8 ("Unable to parse response: " ++ e))
        (({ resp with Diagnostics := diags }, calls), s)
      | .ok result =>
        -- line 60
        let plan := match result.lookup "id" with
          | some (.string id) => { plan with ID := .known id }
          | _ => plan
        -- line 61
        (({ resp with State := some plan }, calls), s)

/-- Go `(*promotionResource).Read` as a step on the client its receiver points to: `s` is
that client when the handler starts, and the result comes with the client when
the handler returns. The handler uses the client only as the receiver of its
`DoRequest` call. -/
def promotionResource.ReadOn (env : Env) (s : StarbucksClient)
    (req : ReadRequest promotionResourceModel) (resp : ReadResponse promotionResourceModel) :
    (ReadResponse promotionResourceModel × List Call) × StarbucksClient :=
  -- lines 65-67
  let state := req.State
  let resp := { resp with Diagnostics := Diagnostics.Append resp.Diagnostics req.StateGetDiags }
  if Diagnostics.HasError resp.Diagnostics then ((resp, []), s)
  else
    -- lines 68-69
    let step := DoRequestOn env "GET" ("/promotions/" ++ state.ID.ValueString) none s
    let r := step.1
    let s := step.2
    match r.err with
    | some err =>
      let diags := Diagnostics.AddError resp.Diagnostics "Client Error"
        (utf8 "Unable to read promotion: " ++ err.Error)
      (({ resp with Diagnostics := diags }, r.calls), s)
    | none =>
      -- lines 70-71
      let respBody := r.body.getD []
      let calls := r.calls ++ [Call.Unmarshal respBody]
      match env.Unmarshal respBody with
      | .error e =>
        let diags := Diagnostics.AddError resp.Diagnostics "Parse Error"
          (utf8 ("Unable to parse response: " ++ e))
        (({ resp with Diagnostics := diags }, calls), s)
      | .ok result =>
        -- line 72
        let state := match result.lookup "active" with
          | some (.bool a) => { state with Active := .known a }
          | _ => state
        -- line 73
        (({ resp with State := some state }, calls), s)

/-- Go `(*promotionResource).Update` as a step on the client its receiver points to: `s` is
that client when the handler starts, and the result comes with the client when
the handler returns. The handler uses the client only as the receiver of its
`DoRequest` call. -/
def promotionResource.UpdateOn (env : Env) (s : StarbucksClient)
    (req : UpdateRequest promotionResourceModel) (resp : UpdateResponse promotionResourceModel) :
    (UpdateResponse promotionResourceModel × List Call) × StarbucksClient :=
  -- lines 77-79
  let plan := req.Plan
  let resp := { resp with Diagnostics := Diagnostics.Append resp.Diagnostics req.PlanGetDiags }
  if Diagnostics.HasError resp.Diagnostics then ((resp, []), s)
  else
    -- lines 80-82
    let body : Payload := [("name", .str plan.Name.ValueString)]
    let step := DoRequestOn env "PUT" ("/promotions/" ++ plan.ID.ValueString) (some body) s
    let r := step.1
    let s := step.2
    match r.err with
    | some err =>
      let diags := Diagnostics.AddError resp.Diagnostics "Client Error"
        (utf8 "Unable to update promotion: " ++ err.Error)
      (({ resp with Diagnostics := diags }, r.calls), s)
    | none =>
      -- line 83
      (({ resp with State := some plan }, r.calls), s)

/-- Go `(*promotionResource).Delete` as a step on the client its receiver points to: `s` is
that client when the handler starts, and the result comes with the client when
the handler returns. The handler uses the client only as the receiver of its
`DoRequest` call. -/
def promotionResource.DeleteOn (env : Env) (s : StarbucksClient)
    (req : DeleteRequest promotionResourceModel) (resp : DeleteResponse promotionResourceModel) :
    (DeleteResponse promotionResourceModel × List Call) × StarbucksClient :=
  -- lines 87-89
  let state := req.State
  let resp := { resp with Diagnostics := Diagnostics.Append resp.Diagnostics req.StateGetDiags }
  if Diagnostics.HasError resp.Diagnostics then ((resp, []), s)
  else
    -- lines 90-91
    let step := DoRequestOn env "DELETE" ("/promotions/" ++ state.ID.ValueString) none s
    let r := step.1
    let s := step.2
    match r.err with
    | some err =>
      let diags := Diagnostics.AddError resp.Diagnostics "Client Error"
        (utf8 "Unable to delete promotion: " ++ err.Error)
      (({ resp with Diagnostics := diags }, r.calls), s)
    | none => ((resp, r.calls), s)

/-- Go `(*storeDataSource).Read` as a step on the client its receiver points to: `s` is
that client when the handler starts, and the result comes with the client when
the handler returns. The handler uses the client only as the receiver of its
`DoRequest` call. -/
def storeDataSource.ReadOn (env : Env) (s : StarbucksClient)
    (req : DataSourceReadRequest storeDataSourceModel)
    (resp : DataSourceReadResponse storeDataSourceModel) :
    (DataSourceReadResponse storeDataSourceModel × List Call) × StarbucksClient :=
  -- lines 47-49
  let state := req.Config
  let resp := { resp with Diagnostics := Diagnostics.Append resp.Diagnostics req.ConfigGetDiags }
  if Diagnostics.HasError resp.Diagnostics then ((resp, []), s)
  else
    -- lines 51-52
    let step := DoRequestOn env "GET" ("/stores/" ++ state.ID.ValueString) none s
    let r := step.1
    let s := step.2
    match r.err with
    | some err =>
      let diags := Diagnostics.AddError resp.Diagnostics "Client Error"
        (utf8 "Unable to read store: " ++ err.Error)
      (({ resp with Diagnostics := diags }, r.calls), s)
    | none =>
      -- lines 53-54
      let respBody := r.body.getD []
      let calls := r.calls ++ [Call.Unmarshal respBody]
      match env.Unmarshal respBody with
      | .error e =>
        let diags := Diagnostics.AddError resp.Diagnostics "Parse Error"
          (utf8 ("Unable to parse response: " ++ e))
        (({ resp with Diagnostics := diags }, calls), s)
      | .ok result =>
        -- lines 55-57
        let state := match result.lookup "name" with
          | some (.string v) => { state with Name := .known v }
          | _ => state
        let state := match result.lookup "city" with
          | some (.string v) => { state with City := .known v }
          | _ => state
        let state := match result.lookup "state" with
          | some (.string v) => { state with State := .known v }
          | _ => state
        -- line 59
        (({ resp with State := some state }, calls), s)

/-- Go `(*storesDataSource).Read` as a step on the client its receiver points to: `s` is
that client when the handler starts, and the result comes with the client when
the handler returns. The handler uses the client only as the receiver of its
`DoRequest` call. -/
def storesDataSource.ReadOn (env : Env) (s : StarbucksClient)
    (resp : DataSourceReadResponse storesDataSourceModel) :
    (DataSourceReadResponse storesDataSourceModel × List Call) × StarbucksClient :=
  -- lines 50-51
  let step := DoRequestOn env "GET" "/stores" none s
  let r := step.1
  let s := step.2
  match r.err with
  | some err =>
    let diags := Diagnostics.AddError resp.Diagnostics "Client Error"
      (utf8 "Unable to list stores: " ++ err.Error)
    (({ resp with Diagnostics := diags }, r.calls), s)
  | none =>
    -- lines 52-53
    let respBody := r.body.getD []
    let calls := r.calls ++ [Call.Unmarshal respBody]
    match env.UnmarshalList respBody with
    | .error e =>
      let diags := Diagnostics.AddError resp.Diagnostics "Parse Error"
        (utf8 ("Unable to parse response: " ++ e))
      (({ resp with Diagnostics := diags }, calls), s)
    | .ok result =>
      -- lines 55-56: `State.Set` replaces the state unless its diagnostics hold an
      -- error, and the handler appends those diagnostics
      let model : storesDataSourceModel := { Stores := result }
      let setDiags := env.StateSetStores model.Stores
      let state := if Diagnostics.HasError setDiags then resp.State else some model
      ((⟨state, Diagnostics.Append resp.Diagnostics setDiags⟩, calls), s)

/-! ## The `Configure` methods of the resources and data sources -/

/-- Go `req.ProviderData`, an `interface{}` that is not nil: a pointer to a client,
or a value of another type, of which only the name `%T` prints matters. -/
inductive ProviderData where
  | Client (c : StarbucksClient)
  | Other (goType : String)
  deriving DecidableEq

/-- Framework `resource.ConfigureRequest` and `datasource.ConfigureRequest`:
`ProviderData` is `none` for the nil interface. -/
structure ConfigureRequest where
  ProviderData : Option ProviderData
  deriving DecidableEq

/-- Framework `resource.ConfigureResponse` and `datasource.ConfigureResponse`. -/
structure ConfigureResponse where
  Diagnostics : Diagnostics
  deriving DecidableEq

/-- Framework: the request the `Configure` of a resource receives after the
provider was configured carries the `ResourceData` the provider left. -/
def resourceConfigureRequest (p : ProviderConfigureResponse) : ConfigureRequest :=
  { ProviderData := p.ResourceData.map ProviderData.Client }

/-- Framework: the request the `Configure` of a data source receives after the
provider was configured carries the `DataSourceData` the provider left. -/
def dataSourceConfigureRequest (p : ProviderConfigureResponse) : ConfigureRequest :=
  { ProviderData := p.DataSourceData.map ProviderData.Client }

/-- Go `storeResource` (resource_store.go:20-22): the client pointer, `none` while it is nil. -/
structure storeResource where
  client : Option StarbucksClient
  deriving DecidableEq

/-- Go `(*storeResource).Configure` (resource_store.go:149-164): the receiver and the response
after the call. -/
def storeResource.Configure (r : storeResource) (req : ConfigureRequest) (resp : ConfigureResponse) :
    storeResource × ConfigureResponse :=
  match req.ProviderData with
  | none => (r, resp)
  | some (.Other goType) =>
    let diags := Diagnostics.AddError resp.Diagnostics "Unexpected Resource Configure Type"
      (utf8 ("Expected *StarbucksClient, got: " ++ goType))
    (r, { resp with Diagnostics := diags })
  | some (.Client client) => ({ r with client := some client }, resp)

/-- Go `employeeResource` (resource_employee.go:18-20): the client pointer, `none` while it is nil. -/
structure employeeResource where
  client : Option StarbucksClient
  deriving DecidableEq

/-- Go `(*employeeResource).Configure` (resource_employee.go:131-141): the receiver and the response
after the call. -/
def employeeResource.Configure (r : employeeResource) (req : ConfigureRequest) (resp : ConfigureResponse) :
    employeeResource × ConfigureResponse :=
  match req.ProviderData with
  | none => (r, resp)
  | some (.Other goType) =>
    let diags := Diagnostics.AddError resp.Diagnostics "Unexpected Resource Configure Type"
      (utf8 ("Expected *StarbucksClient, got: " ++ goType))
    (r, { resp with Diagnostics := diags })
  | some (.Client client) => ({ r with client := some client }, resp)

/-- Go `menuItemResource` (resource_menu_item.go:13-15): the client pointer, `none` while it is nil. -/
structure menuItemResource where
  client : Option StarbucksClient
  deriving DecidableEq

/-- Go `(*menuItemResource).Configure` (resource_menu_item.go:52-60): the receiver and the response
after the call. -/
def menuItemResource.Configure (r : menuItemResource) (req : ConfigureRequest) (resp : ConfigureResponse) :
    menuItemResource × ConfigureResponse :=
  match req.ProviderData with
  | none => (r, resp)
  | some (.Other goType) =>
    let diags := Diagnostics.AddError resp.Diagnostics "Unexpected Resource Configure Type"
      (utf8 ("Expected *StarbucksClient, got: " ++ goType))
    (r, { resp with Diagnostics := diags })
  | some (.Client client) => ({ r with client := some client }, resp)

/-- Go `inventoryResource` (resource_inventory.go:13): the client pointer, `none` while it is nil. -/
structure inventoryResource where
  client : Option StarbucksClient
  deriving DecidableEq

/-- Go `(*inventoryResource).Configure` (resource_inventory.go:42-47): the receiver and the response
after the call. -/
def inventoryResource.Configure (r : inventoryResource) (req : ConfigureRequest) (resp : ConfigureResponse) :
    inventoryResource × ConfigureResponse :=
  match req.ProviderData with
  | none => (r, resp)
  | some (.Other goType) =>
    let diags := Diagnostics.AddError resp.Diagnostics "Unexpected Resource Configure Type"
      (utf8 ("Expected *StarbucksClient, got: " ++ goType))
    (r, { resp with Diagnostics := diags })
  | some (.Client client) => ({ r with client := some client }, resp)

/-- Go `promotionResource` (resource_promotion.go:13): the client pointer, `none` while it is nil. -/
structure promotionResource where
  client : Option StarbucksClient
  deriving DecidableEq

/-- Go `(*promotionResource).Configure` (resource_promotion.go:44-49): the receiver and the response
after the call. -/
def promotionResource.Configure (r : promotionResource) (req : ConfigureRequest) (resp : ConfigureResponse) :
    promotionResource × ConfigureResponse :=
  match req.ProviderData with
  | none => (r, resp)
  | some (.Other goType) =>
    let diags := Diagnostics.AddError resp.Diagnostics "Unexpected Resource Configure Type"
      (utf8 ("Expected *StarbucksClient, got: " ++ goType))
    (r, { resp with Diagnostics := diags })
  | some (.Client client) => ({ r with client := some client }, resp)

/-- Go `storeDataSource` (datasource_store.go:13): the client pointer, `none` while it is nil. -/
structure storeDataSource where
  client : Option StarbucksClient
  deriving DecidableEq

/-- Go `(*storeDataSource).Configure` (datasource_store.go:39-44): the receiver and the response
after the call. -/
def storeDataSource.Configure (d : storeDataSource) (req : ConfigureRequest) (resp : ConfigureResponse) :
    storeDataSource × ConfigureResponse :=
  match req.ProviderData with
  | none => (d, resp)
  | some (.Other goType) =>
    let diags := Diagnostics.AddError resp.Diagnostics "Unexpected DataSource Configure Type"
      (utf8 ("Expected *StarbucksClient, got: " ++ goType))
    (d, { resp with Diagnostics := diags })
  | some (.Client client) => ({ d with client := some client }, resp)

/-- Go `storesDataSource` (datasource_stores.go:13): the client pointer, `none` while it is nil. -/
structure storesDataSource where
  client : Option StarbucksClient
  deriving DecidableEq

/-- Go `(*storesDataSource).Configure` (datasource_stores.go:42-47): the receiver and the response
after the call. -/
def storesDataSource.Configure (d : storesDataSource) (req : ConfigureRequest) (resp : ConfigureResponse) :
    storesDataSource × ConfigureResponse :=
  match req.ProviderData with
  | none => (d, resp)
  | some (.Other goType) =>
    let diags := Diagnostics.AddError resp.Diagnostics "Unexpected DataSource Configure Type"
      (utf8 ("Expected *StarbucksClient, got: " ++ goType))
    (d, { resp with Diagnostics := diags })
  | some (.Client client) => ({ d with client := some client }, resp)

/-! ## Test doubles -/

/-- Go `strconv.Quote` on text whose characters, apart from the ones escaped
here, are printable. -/
def goQuote (s : String) : String :=
  "\"" ++ String.join (s.data.map (fun ch =>
    if ch.toNat = 10 then "\\n"
    else if ch.toNat = 9 then "\\t"
    else if ch.toNat = 13 then "\\r"
    else if ch.toNat = 34 then "\\\""
    else if ch.toNat = 92 then "\\\\"
    else String.singleton ch)) ++ "\""

/-- The diagnostic `State.Set` returns for a list of decoded maps that is not
empty: a map of `interface{}` values is not a value the schema of a store can
be read from. The title is the one of the framework; the detail, which the
framework words after the Go type, is cut short here. -/
def valueConversionError : Diagnostic :=
  { Severity := .Error
    Summary := "Value Conversion Error"
    Detail := utf8 "cannot convert map[string]interface \x7b\x7d" }

/-- A test double: the encoder returns `encoded`, the server answers every
request with `answer`, the decoder returns `decoded`; every address without
control bytes parses. The bodies of the scenarios hold one object, so the
decoder of lists refuses them; `State.Set` refuses every list of stores that
is not empty. -/
def cannedEnv (encoded : Outcome Bytes) (answer : Outcome Response)
    (decoded : Outcome JsonMap) : Env :=
  { Marshal := fun _ => encoded
    Quote := goQuote
    ParseRest := fun _ => none
    Do := fun _ _ => answer
    Unmarshal := fun _ => decoded
    UnmarshalList := fun _ =>
      .error "json: cannot unmarshal object into Go value of type []map[string]interface \x7b\x7d"
    StateSetStores := fun stores => if stores.isEmpty then [] else [valueConversionError] }

/-- A client as the provider builds it from the defaults and the key `k`. -/
def sampleClient : StarbucksClient :=
  NewStarbucksClient "k" "https://api.starbucks.com/v1" "us-west-2" 30

/-- A client whose endpoint setting ends in a line feed. -/
def newlineClient : StarbucksClient :=
  NewStarbucksClient "k" "https://api.starbucks.com/v1\n" "us-west-2" 30

/-- The response of the first scenario: status 404 with an error body. -/
def notFound : Response :=
  { StatusCode := 404, Body := .ok (utf8 "\x7b\"error\":\"not found\"\x7d") }

/-- A test double for the first scenario: the server answers `notFound`. -/
def notFoundEnv : Env := cannedEnv (.error "unused") (.ok notFound) (.error "unused")

/-- A response with status 200 and a body holding one store. -/
def found : Response :=
  { StatusCode := 200, Body := .ok (utf8 "\x7b\"id\":\"42\",\"status\":\"active\"\x7d") }

/-- A test double whose server answers `found`. -/
def foundEnv : Env := cannedEnv (.error "unused") (.ok found) (.error "unused")

/-- The request `DoRequest` builds for `GET /stores/42` with `sampleClient`. -/
def sampleRequest : Request :=
  { Method := "GET", URL := ⟨"https://api.starbucks.com/v1/stores/42", ""⟩,
    Header := [("Authorization", "Bearer k"), ("Content-Type", "application/json"),
      ("X-Region", "us-west-2")],
    Body := none }

/-- A provider configuration with every attribute null. -/
def nullConfig : starbucksProviderModel :=
  { APIKey := .null, Endpoint := .null, Region := .null, Timeout := .null }

/-- A plan for one store, with the optional fields other than the country null. -/
def samplePlan : storeResourceModel :=
  { ID := .unknown, Name := .known "Pike Place", StoreNumber := .known "0001",
    Address := .known "1912 Pike Pl", City := .known "Seattle", State := .known "WA",
    ZipCode := .known "98101", Country := .known "US", PhoneNumber := .known "206-448-8762",
    Latitude := .null, Longitude := .null, OpeningHours := .null,
    HasDriveThru := .known false, HasWifi := .known true, HasMobileOrder := .known true,
    Capacity := .known 50, StoreType := .null, ManagerEmail := .null, Status := .unknown }

/-- The response of the second scenario: status 201 and a body holding the id. -/
def created : Response :=
  { StatusCode := 201, Body := .ok (utf8 "\x7b\"id\":\"s-1\"\x7d") }

/-- The encoding of the payload made of `samplePlan`, as `json.Marshal` writes
it: the keys in order, no blanks. -/
def samplePlanJSON : Bytes :=
  utf8 ("\x7b\"address\":\"1912 Pike Pl\",\"capacity\":50,\"city\":\"Seattle\"," ++
    "\"country\":\"US\",\"has_drive_thru\":false,\"has_mobile_order\":true," ++
    "\"has_wifi\":true,\"name\":\"Pike Place\",\"phone_number\":\"206-448-8762\"," ++
    "\"state\":\"WA\",\"store_number\":\"0001\",\"zip_code\":\"98101\"\x7d")

/-- A test double for the second scenario: the encoder returns the encoding of
the payload of `samplePlan`, the server answers `created`, and the decoder
returns the object the body of `created` holds. -/
def createdEnv : Env :=
  cannedEnv
    (.ok samplePlanJSON)
    (.ok created)
    (.ok [("id", .string "s-1")])

/-- The missing-key diagnostic of provider.go:99-102. -/
def missingAPIKey : Diagnostic :=
  { Severity := .Error
    Summary := "Missing API Key Configuration"
    Detail := utf8 "API key must be provided via api_key attribute or STARBUCKS_API_KEY environment variable" }

/-- A prior state: the store of `samplePlan` as created under the id `42`. -/
def sampleState : storeResourceModel :=
  { samplePlan with ID := .known "42", Status := .known "active" }

/-- The error `DoRequest` returns in the first scenario. -/
def notFoundError : DoRequestError :=
  .api 404 (utf8 "\x7b\"error\":\"not found\"\x7d")

/-- The list of one store the server of `listedEnv` sends, decoded. -/
def listedStores : List JsonMap :=
  [[("city", .string "Seattle"), ("id", .string "1"), ("name", .string "Pike Place")]]

/-- A response with status 200 and a body holding a list of one store. -/
def listed : Response :=
  { StatusCode := 200
    Body := .ok (utf8
      "[\x7b\"id\":\"1\",\"name\":\"Pike Place\",\"city\":\"Seattle\"\x7d]") }

/-- A test double whose server answers `listed`, which the decoder of lists
accepts and `State.Set` refuses. -/
def listedEnv : Env :=
  { Marshal := fun _ => .error "unused"
    Quote := goQuote
    ParseRest := fun _ => none
    Do := fun _ _ => .ok listed
    Unmarshal := fun _ => .error "json: cannot unmarshal array into Go value of type map[string]interface \x7b\x7d"
    UnmarshalList := fun _ => .ok listedStores
    StateSetStores := fun stores => if stores.isEmpty then [] else [valueConversionError] }

/-- A test double whose server answers with status 200 and a body that is not
JSON, which the decoder refuses. -/
def garbledEnv : Env :=
  cannedEnv (.error "unused") (.ok { StatusCode := 200, Body := .ok (utf8 "<html>") })
    (.error "invalid character \x27<\x27 looking for beginning of value")

/-- An inventory item of the store `42`, as planned and as held in state. -/
def sampleInventory : inventoryResourceModel :=
  { ID := .known "i-1", StoreID := .known "42", ItemSKU := .known "espresso-beans",
    Quantity := .known 7, Threshold := .null }

/-- A response with status 200 whose body holds another quantity than
`sampleInventory`. -/
def restocked : Response :=
  { StatusCode := 200, Body := .ok (utf8 "\x7b\"id\":\"i-1\",\"quantity\":12\x7d") }

/-- A test double for the update and the read of `sampleInventory`: the encoder
returns the encoding of a quantity of seven, the server answers `restocked`, and
the decoder returns the object the body of `restocked` holds. -/
def restockedEnv : Env :=
  cannedEnv (.ok (utf8 "\x7b\"quantity\":7\x7d")) (.ok restocked)
    (.ok [("id", .string "i-1"), ("quantity", .number (.finite 12))])

/-- A response with status 500 whose body cannot be read to the end. -/
def brokenBody : Response :=
  { StatusCode := 500, Body := .error "unexpected EOF" }

/-- A test double whose encoder refuses the payload and whose server answers
`brokenBody`. -/
def brokenEnv : Env :=
  cannedEnv (.error "json: unsupported value: NaN") (.ok brokenBody) (.error "unused")

/-- A test double for the read of `sampleInventory` from a server that reports a
quantity of three and a half. -/
def fractionalEnv : Env :=
  cannedEnv (.error "unused")
    (.ok { StatusCode := 200, Body := .ok (utf8 "\x7b\"id\":\"i-1\",\"quantity\":3.5\x7d") })
    (.ok [("id", .string "i-1"), ("quantity", .number (.finite (7 / 2)))])

/-- A test double for the creation of the store of `samplePlan` on a server that
answers with a numeric id and a status of its own. -/
def numericIdEnv : Env :=
  cannedEnv
    (.ok (utf8 ("\x7b\"address\":\"1912 Pike Pl\",\"capacity\":50,\"city\":\"Seattle\"," ++
      "\"country\":\"US\",\"has_drive_thru\":false,\"has_mobile_order\":true," ++
      "\"has_wifi\":true,\"name\":\"Pike Place\",\"phone_number\":\"206-448-8762\"," ++
      "\"state\":\"WA\",\"store_number\":\"0001\",\"zip_code\":\"98101\"\x7d")))
    (.ok { StatusCode := 201, Body := .ok (utf8 "\x7b\"id\":7,\"status\":\"closed\"\x7d") })
    (.ok [("id", .number (.finite 7)), ("status", .string "closed")])

/-- The warning of provider.go:73-76. -/
def unknownAPIKey : Diagnostic :=
  { Severity := .Warning
    Summary := "Unable to create client"
    Detail := utf8 "Cannot use unknown value as api_key" }

/-! ## Go `encoding/json`, by value -/

/-- The natural number nearest to `a` among those a `float64` holds, ties to the
even significand: `e` counts the bits of `a` beyond the 53 of a significand,
`q` is the significand before rounding and `r` the part cut off. -/
def roundNat (a : Nat) : Nat :=
  let e := Nat.log2 a + 1 - 53
  let q := a / 2 ^ e
  let r := a % 2 ^ e
  let m := if 2 ^ e < 2 * r ∨ (2 * r = 2 ^ e ∧ q % 2 = 1) then q + 1 else q
  m * 2 ^ e

/-- Go `strconv.ParseFloat(s, 64)` on the decimal digits of the integer `n`, as the
decoder applies it to a JSON number: the nearest `float64`, ties to the even
significand. -/
def float64OfInt (n : Int) : Float64 :=
  let z : Int := if n < 0 then -(roundNat n.natAbs : Int) else (roundNat n.natAbs : Int)
  .finite (z : ℚ)

/-- Go `json.Unmarshal(json.Marshal(v))` into an `interface{}`, by value: the value
the decoder stores for the text the encoder writes for `v`. `nil` is written as
`null`; a string and a boolean come back as they are; an integer is written in
decimal and comes back as a `float64`, as every JSON number does; a finite
`float64` is written with the digits that identify it and comes back as it is;
the encoder refuses a `float64` that is not finite. -/
def jsonEcho : GoValue → Outcome JsonValue
  | .nil => .ok .null
  | .str s => .ok (.string s)
  | .bool b => .ok (.bool b)
  | .int64 n => .ok (.number (float64OfInt n))
  | .float64 (.finite q) => .ok (.number (.finite q))
  | .float64 .negZero => .ok (.number .negZero)
  | .float64 .posInf => .error "json: unsupported value: +Inf"
  | .float64 .negInf => .error "json: unsupported value: -Inf"
  | .float64 .nan => .error "json: unsupported value: NaN"

/-- Go `json.Unmarshal(json.Marshal(p))` into a `map[string]interface{}`, by value,
for a payload `p`: the decoded map holds the keys of `p`, each with the echo of
its value; the encoder fails when it refuses one of the values. -/
def jsonEchoPayload : Payload → Outcome JsonMap
  | [] => .ok []
  | (k, v) :: rest =>
    match jsonEcho v with
    | .error e => .error e
    | .ok j =>
      match jsonEchoPayload rest with
      | .error e => .error e
      | .ok m => .ok ((k, j) :: m)

/-- A decoded value equals the payload value: the same kind of value and the same
value, where an integer and a `float64` are both numbers and are equal when
the `float64` is exactly the integer. -/
def GoValue.sameAs : GoValue → JsonValue → Prop
  | .nil, .null => True
  | .str s, .string t => s = t
  | .bool a, .bool b => a = b
  | .int64 n, .number f => f = .finite (n : ℚ)
  | .float64 f, .number g => f = g
  | _, _ => False

/-- A decoded map equals the payload: the same keys, and under each key a value
equal to that of the payload. -/
def Payload.sameAs (p : Payload) (m : JsonMap) : Prop :=
  List.Forall₂ (fun a b => a.1 = b.1 ∧ a.2.sameAs b.2) p m

/-- A decoded value is the echo of the payload value: the `float64` nearest to it
when it is an integer, and a value equal to it otherwise. -/
def GoValue.echoedAs : GoValue → JsonValue → Prop
  | .int64 n, j => j = .number (float64OfInt n)
  | v, j => v.sameAs j

/-- A decoded map is the echo of the payload: the same keys, and under each key
the echo of the value of the payload. -/
def Payload.echoedAs (p : Payload) (m : JsonMap) : Prop :=
  List.Forall₂ (fun a b => a.1 = b.1 ∧ a.2.echoedAs b.2) p m

/-- Whether the encoder accepts the value: every value but a `float64` that is
not finite. -/
def GoValue.encodable : GoValue → Bool
  | .float64 .posInf => false
  | .float64 .negInf => false
  | .float64 .nan => false
  | _ => true

/-- Whether the value, when it is an integer, has a magnitude of at most 2^53. -/
def GoValue.exactInt : GoValue → Bool
  | .int64 n => decide (n.natAbs ≤ 2 ^ 53)
  | _ => true

/-- An inventory item whose quantity is 2^53 + 1. -/
def hugeInventory : inventoryResourceModel :=
  { sampleInventory with Quantity := .known 9007199254740993 }

/-! ## Shape of a run of `DoRequest` -/

/-- Lines 31-38 of `DoRequest` when encoding does not fail: the request body
`rb` handed to `http.NewRequest` and the calls `t1` made so far. -/
def Encoded (env : Env) (body : Option Payload) (rb : Option Bytes) (t1 : List Call) : Prop :=
  (body = none ∧ rb = none ∧ t1 = []) ∨
  ∃ p jb, body = some p ∧ env.Marshal p = .ok jb ∧ rb = some jb ∧ t1 = [Call.Marshal p]

/-- The paths through `DoRequest` after a successful round trip, each with the
complete result: the body cannot be read; the status is at least 400; success. -/
def Received (r : DoResult) (t : List Call) (resp : Response) : Prop :=
  (∃ e, resp.Body = .error e ∧ r = ⟨none, some (.reading e), t ++ [Call.ReadAll resp]⟩) ∨
  (∃ b, resp.Body = .ok b ∧ 400 ≤ resp.StatusCode ∧
    r = ⟨none, some (.api resp.StatusCode b), t ++ [Call.ReadAll resp]⟩) ∨
  (∃ b, resp.Body = .ok b ∧ resp.StatusCode < 400 ∧
    r = ⟨some b, none, t ++ [Call.ReadAll resp]⟩)

/-- The paths through `DoRequest` once the request body is fixed, each with the
complete result: request construction fails; the round trip fails; a response
is received. -/
def Sent (env : Env) (c : StarbucksClient) (method path : String) (r : DoResult)
    (rb : Option Bytes) (t1 : List Call) : Prop :=
  (∃ e, NewRequest env method (c.Endpoint ++ path) rb = .error e ∧
    r = ⟨none, some (.creating e), t1 ++ [Call.NewRequest method (c.Endpoint ++ path) rb]⟩) ∨
  ∃ req0, NewRequest env method (c.Endpoint ++ path) rb = .ok req0 ∧
    ((∃ e, env.Do c.HTTPClient (setHeaders c req0) = .error e ∧
      r = ⟨none, some (.making e), t1 ++ [Call.NewRequest method (c.Endpoint ++ path) rb,
        Call.Do c.HTTPClient (setHeaders c req0)]⟩) ∨
    ∃ resp, env.Do c.HTTPClient (setHeaders c req0) = .ok resp ∧
      Received r (t1 ++ [Call.NewRequest method (c.Endpoint ++ path) rb,
        Call.Do c.HTTPClient (setHeaders c req0)]) resp)

/-! ## Shape of a run of a handler -/

/-- Go `err != nil` on the outcome of a library call: the error text, if any. -/
def Outcome.err? {α : Type} : Outcome α → Option String
  | .ok _ => none
  | .error e => some e

/-- The plan, state or configuration decoded without an error diagnostic: the
check `resp.Diagnostics.HasError()` that opens a handler lets it go on. -/
def Decoded (ds : Diagnostics) (more : List Diagnostic) : Prop :=
  Diagnostics.HasError (Diagnostics.Append ds more) = false

/-- The paths through a handler, each with the complete result but for the state
written on success. `r` is the result of the `DoRequest` call of the handler,
`words` the text its `Client Error` begins with, `decodeErr` the error of the
decoding of the body (`none` when it decodes, and when the handler does not
decode), `pre` the diagnostics after the opening check, `hasError` whether that
check stops the handler. -/
def Outcomes {M : Type} (r : DoResult) (words : String) (decodeErr : Option String)
    (hasError : Bool) (pre : Diagnostics) (before : CreateResponse M)
    (after : CreateResponse M × List Call) : Prop :=
  (hasError = true ∧ after = (⟨before.State, pre⟩, [])) ∨
  (hasError = false ∧ ∃ e, r.err = some e ∧
    after = (⟨before.State,
      Diagnostics.AddError pre "Client Error" (utf8 words ++ e.Error)⟩, r.calls)) ∨
  (hasError = false ∧ r.err = none ∧ ∃ e, decodeErr = some e ∧
    after = (⟨before.State,
      Diagnostics.AddError pre "Parse Error" (utf8 ("Unable to parse response: " ++ e))⟩,
      r.calls ++ [Call.Unmarshal (r.body.getD [])])) ∨
  (hasError = false ∧ r.err = none ∧ decodeErr = none ∧ after.1.Diagnostics = pre ∧
    (after.2 = r.calls ∨ after.2 = r.calls ++ [Call.Unmarshal (r.body.getD [])]))

/-- The requests in the calls of a handler: every request built is built from the
given method and the address of the endpoint followed by the given path, every
request sent has that method and the URL parsed from that address, and neither
has a body when there is no payload; at most one request is sent; and unless
the opening check stops the handler, the calls begin with those of `DoRequest`
on that method, path and payload. -/
def Issues (env : Env) (c : StarbucksClient) (method path : String) (body : Option Payload)
    (hasError : Bool) (calls : List Call) : Prop :=
  (∀ hc req, Call.Do hc req ∈ calls →
    req.Method = method ∧ req.URL = cutFragment (c.Endpoint ++ path) ∧
    (body = none → req.Body = none)) ∧
  (∀ m u b, Call.NewRequest m u b ∈ calls →
    m = method ∧ u = c.Endpoint ++ path ∧ (body = none → b = none)) ∧
  calls.countP Call.isDo ≤ 1 ∧
  (hasError = false → (DoRequest env c method path body).calls <+: calls)

/-- What a handler leaves when its `DoRequest` call `r` returned the error `e`: an
error diagnostic titled `Client Error` whose detail is `words` followed by the
text of `e`, the state as the host supplied it, and no call other than those of
`r`, of which at most one is a request sent. -/
def ClientErrorRecorded {M : Type} (words : String) (e : DoRequestError) (r : DoResult)
    (before : CreateResponse M) (after : CreateResponse M × List Call) : Prop :=
  (∃ d ∈ after.1.Diagnostics, d.Severity = .Error ∧ d.Summary = "Client Error" ∧
    d.Detail = utf8 words ++ e.Error ∧ e.Error <:+ d.Detail) ∧
  Diagnostics.HasError after.1.Diagnostics = true ∧
  after.1.State = before.State ∧
  after.2 = r.calls ∧ after.2.countP Call.isDo ≤ 1

/-- What a handler leaves when its `DoRequest` call `r` succeeded and the body did
not decode, with the decoder error `e`: an error diagnostic titled `Parse Error`
whose detail carries `e`, the state as the host supplied it, and after the calls
of `r` the one call to the decoder. -/
def ParseErrorRecorded {M : Type} (e : String) (r : DoResult)
    (before : CreateResponse M) (after : CreateResponse M × List Call) : Prop :=
  (∃ d ∈ after.1.Diagnostics, d.Severity = .Error ∧ d.Summary = "Parse Error" ∧
    d.Detail = utf8 ("Unable to parse response: " ++ e)) ∧
  Diagnostics.HasError after.1.Diagnostics = true ∧
  after.1.State = before.State ∧
  after.2 = r.calls ++ [Call.Unmarshal (r.body.getD [])]

/-- The diagnostics a handler adds to `pre`, the diagnostics after its opening
check: at most one; one titled `Parse Error` only when the `DoRequest` call `r`
returned no error and the decoding failed; one titled `Client Error` only when
`r` returned an error. -/
def AddsAtMostOne {M : Type} (r : DoResult) (decodeErr : Option String) (pre : Diagnostics)
    (after : CreateResponse M × List Call) : Prop :=
  ∀ d ∈ after.1.Diagnostics, d ∉ pre →
    (d.Summary = "Parse Error" → r.err = none ∧ ∃ e, decodeErr = some e) ∧
    (d.Summary = "Client Error" → ∃ e, r.err = some e) ∧
    (d.Summary = "Parse Error" ∨ d.Summary = "Client Error") ∧
    ∀ d2 ∈ after.1.Diagnostics, d2 ∉ pre → d2 = d

/-- The payload in the calls of a handler: the encoder is called on `payload`
only, and every request sent carries the encoding of `payload` as its body. -/
def Sends (env : Env) (payload : Payload) (calls : List Call) : Prop :=
  (∀ p, Call.Marshal p ∈ calls → p = payload) ∧
  (∀ hc req, Call.Do hc req ∈ calls →
    ∃ jsonBody, env.Marshal payload = .ok jsonBody ∧ req.Body = some jsonBody)

/-- What an `Update` handler leaves when its `DoRequest` call `r` returned no
error: the state written is the plan, no diagnostic is added to `pre`, and the
calls are those of `r`, so the body is never handed to the decoder. -/
def PlanWritten {M : Type} (plan : M) (r : DoResult) (pre : Diagnostics)
    (after : CreateResponse M × List Call) : Prop :=
  after.1.State = some plan ∧ after.1.Diagnostics = pre ∧ after.2 = r.calls ∧
  ∀ b, Call.Unmarshal b ∉ after.2

/-! ## Theorems -/

/-- Every run of `DoRequest` follows one of the six paths: encoding fails, or the
request body is fixed and one of the paths of `Sent` is taken. -/
theorem DoRequest_cases (env : Env) (c : StarbucksClient) (method path : String)
    (body : Option Payload) :
    (∃ p e, body = some p ∧ env.Marshal p = .error e ∧
      DoRequest env c method path body = ⟨none, some (.marshaling e), [Call.Marshal p]⟩) ∨
    ∃ rb t1, Encoded env body rb t1 ∧
      Sent env c method path (DoRequest env c method path body) rb t1 := by
  cases body with
  | none =>
    right
    refine ⟨none, [], Or.inl ⟨rfl, rfl, rfl⟩, ?_⟩
    cases hn : NewRequest env method (c.Endpoint ++ path) none with
    | error e => left; exact ⟨e, (by first | rfl | assumption), by simp [DoRequest, hn]⟩
    | ok req0 =>
      right; refine ⟨req0, (by first | rfl | assumption), ?_⟩
      cases hd : env.Do c.HTTPClient (setHeaders c req0) with
      | error e => left; exact ⟨e, (by first | rfl | assumption), by simp [DoRequest, hn, hd]⟩
      | ok resp =>
        right; refine ⟨resp, (by first | rfl | assumption), ?_⟩
        cases hb : resp.Body with
        | error e => left; exact ⟨e, (by first | rfl | assumption), by simp [DoRequest, hn, hd, hb]⟩
        | ok b =>
          right
          by_cases hs : 400 ≤ resp.StatusCode
          · left; exact ⟨b, (by first | rfl | assumption), hs, by simp [DoRequest, hn, hd, hb, hs]⟩
          · right; exact ⟨b, (by first | rfl | assumption), lt_of_not_ge hs, by simp [DoRequest, hn, hd, hb, hs]⟩
  | some p =>
    cases hm : env.Marshal p with
    | error e => left; exact ⟨p, e, rfl, (by first | rfl | assumption), by simp [DoRequest, hm]⟩
    | ok jb =>
      right
      refine ⟨some jb, [Call.Marshal p], Or.inr ⟨p, jb, rfl, hm, rfl, rfl⟩, ?_⟩
      cases hn : NewRequest env method (c.Endpoint ++ path) (some jb) with
      | error e => left; exact ⟨e, (by first | rfl | assumption), by simp [DoRequest, hm, hn]⟩
      | ok req0 =>
        right; refine ⟨req0, (by first | rfl | assumption), ?_⟩
        cases hd : env.Do c.HTTPClient (setHeaders c req0) with
        | error e => left; exact ⟨e, (by first | rfl | assumption), by simp [DoRequest, hm, hn, hd]⟩
        | ok resp =>
          right; refine ⟨resp, (by first | rfl | assumption), ?_⟩
          cases hb : resp.Body with
          | error e => left; exact ⟨e, (by first | rfl | assumption), by simp [DoRequest, hm, hn, hd, hb]⟩
          | ok b =>
            right
            by_cases hs : 400 ≤ resp.StatusCode
            · left; exact ⟨b, (by first | rfl | assumption), hs, by simp [DoRequest, hm, hn, hd, hb, hs]⟩
            · right
              exact ⟨b, (by first | rfl | assumption), lt_of_not_ge hs, by simp [DoRequest, hm, hn, hd, hb, hs]⟩

/-- A response is read only after the request was built from the encoded body,
sent, and answered with that response; the result is then one of `Received`. -/
theorem DoRequest_readAll (env : Env) (c : StarbucksClient) (method path : String)
    (body : Option Payload) (resp : Response)
    (h : Call.ReadAll resp ∈ (DoRequest env c method path body).calls) :
    ∃ rb t1 req0, Encoded env body rb t1 ∧
      NewRequest env method (c.Endpoint ++ path) rb = .ok req0 ∧
      env.Do c.HTTPClient (setHeaders c req0) = .ok resp ∧
      Received (DoRequest env c method path body)
        (t1 ++ [Call.NewRequest method (c.Endpoint ++ path) rb,
          Call.Do c.HTTPClient (setHeaders c req0)]) resp := by
  rcases DoRequest_cases env c method path body with ⟨p, e, -, -, hr⟩ | ⟨rb, t1, henc, hsent⟩
  · rw [hr] at h; simp at h
  · have ht1 : Call.ReadAll resp ∉ t1 := by
      rcases henc with ⟨-, -, rfl⟩ | ⟨p, jb, -, -, -, rfl⟩ <;> simp
    rcases hsent with ⟨e, -, hr⟩ | ⟨req0, hn, ⟨e, -, hr⟩ | ⟨resp1, hd, hrec⟩⟩
    · rw [hr] at h; simp [ht1] at h
    · rw [hr] at h; simp [ht1] at h
    · have hcalls : (DoRequest env c method path body).calls =
          (t1 ++ [Call.NewRequest method (c.Endpoint ++ path) rb,
            Call.Do c.HTTPClient (setHeaders c req0)]) ++ [Call.ReadAll resp1] := by
        rcases hrec with ⟨e, -, hr⟩ | ⟨b, -, -, hr⟩ | ⟨b, -, -, hr⟩ <;> rw [hr]
      rw [hcalls] at h
      simp [ht1] at h
      subst h
      exact ⟨rb, t1, req0, henc, hn, hd, hrec⟩

/-- A request is sent only after it was built from the encoded body and given
the three headers, and it is sent through the client of the receiver. -/
theorem DoRequest_do (env : Env) (c : StarbucksClient) (method path : String)
    (body : Option Payload) (hc : HTTPClient) (req : Request)
    (h : Call.Do hc req ∈ (DoRequest env c method path body).calls) :
    hc = c.HTTPClient ∧ ∃ rb t1 req0, Encoded env body rb t1 ∧
      NewRequest env method (c.Endpoint ++ path) rb = .ok req0 ∧ req = setHeaders c req0 ∧
      Call.NewRequest method (c.Endpoint ++ path) rb ∈
        (DoRequest env c method path body).calls := by
  rcases DoRequest_cases env c method path body with ⟨p, e, -, -, hr⟩ | ⟨rb, t1, henc, hsent⟩
  · rw [hr] at h; simp at h
  · have ht1 : Call.Do hc req ∉ t1 := by
      rcases henc with ⟨-, -, rfl⟩ | ⟨p, jb, -, -, -, rfl⟩ <;> simp
    rcases hsent with ⟨e, -, hr⟩ | ⟨req0, hn, ⟨e, -, hr⟩ | ⟨resp1, hd, hrec⟩⟩
    · rw [hr] at h; simp [ht1] at h
    · rw [hr] at h ⊢; simp [ht1] at h
      exact ⟨h.1, rb, t1, req0, henc, hn, h.2, by simp⟩
    · have hcalls : (DoRequest env c method path body).calls =
          (t1 ++ [Call.NewRequest method (c.Endpoint ++ path) rb,
            Call.Do c.HTTPClient (setHeaders c req0)]) ++ [Call.ReadAll resp1] := by
        rcases hrec with ⟨e, -, hr⟩ | ⟨b, -, -, hr⟩ | ⟨b, -, -, hr⟩ <;> rw [hr]
      rw [hcalls] at h ⊢
      simp [ht1] at h
      exact ⟨h.1, rb, t1, req0, henc, hn, h.2, by simp⟩

/-- What `http.NewRequest` returns when it succeeds. -/
theorem NewRequest_ok (env : Env) (method url : String) (body : Option Bytes) (req : Request)
    (h : NewRequest env method url body = .ok req) :
    req = { Method := if method = "" then "GET" else method, URL := cutFragment url,
            Header := [], Body := body } := by
  unfold NewRequest at h
  by_cases hv : (!validMethod (if method = "" then "GET" else method)) = true
  · simp [hv] at h
  · unfold urlParse at h
    by_cases hc : stringContainsCTLByte (cutFragment url).Address = true
    · simp [hv, hc] at h
    · cases hu : env.ParseRest url with
      | some e => simp [hv, hc, hu] at h
      | none =>
        simp [hv, hc, hu] at h
        rw [← h]

/-- The encoding of a payload is decided by the payload and the encoder. -/
theorem Encoded_unique (env : Env) (body : Option Payload) (rb rb2 : Option Bytes)
    (t1 t2 : List Call) (h1 : Encoded env body rb t1) (h2 : Encoded env body rb2 t2) :
    rb = rb2 ∧ t1 = t2 := by
  rcases h1 with ⟨hb, rfl, rfl⟩ | ⟨p, jb, hb, hm, rfl, rfl⟩ <;>
    rcases h2 with ⟨hb2, rfl, rfl⟩ | ⟨p2, jb2, hb2, hm2, rfl, rfl⟩
  · exact ⟨rfl, rfl⟩
  · rw [hb] at hb2; cases hb2
  · rw [hb] at hb2; cases hb2
  · rw [hb] at hb2; cases hb2; rw [hm] at hm2; cases hm2; exact ⟨rfl, rfl⟩

/-- When the payload, if there is one, encodes and the request can be built,
`DoRequest` sends the request with the three headers through the client, and
ends with the transport error or with one of the paths of `Received`. -/
theorem DoRequest_built (env : Env) (c : StarbucksClient) (method path : String)
    (body : Option Payload) (rb : Option Bytes) (t1 : List Call) (req0 : Request)
    (henc : Encoded env body rb t1)
    (hnew : NewRequest env method (c.Endpoint ++ path) rb = .ok req0) :
    (∃ e, env.Do c.HTTPClient (setHeaders c req0) = .error e ∧
      DoRequest env c method path body =
        ⟨none, some (.making e), t1 ++ [Call.NewRequest method (c.Endpoint ++ path) rb,
          Call.Do c.HTTPClient (setHeaders c req0)]⟩) ∨
    ∃ resp, env.Do c.HTTPClient (setHeaders c req0) = .ok resp ∧
      Received (DoRequest env c method path body)
        (t1 ++ [Call.NewRequest method (c.Endpoint ++ path) rb,
          Call.Do c.HTTPClient (setHeaders c req0)]) resp := by
  rcases DoRequest_cases env c method path body with ⟨p, e, hb, hm, -⟩ | ⟨rb2, t2, henc2, hsent⟩
  · rcases henc with ⟨hb1, -, -⟩ | ⟨p1, jb, hb1, hm1, -, -⟩
    · rw [hb] at hb1; cases hb1
    · rw [hb] at hb1; cases hb1; rw [hm] at hm1; cases hm1
  · obtain ⟨rfl, rfl⟩ := Encoded_unique env body rb rb2 t1 t2 henc henc2
    rcases hsent with ⟨e, hn, -⟩ | ⟨req1, hn, hrest⟩
    · rw [hnew] at hn; cases hn
    · rw [hnew] at hn
      cases hn
      exact hrest

/-- When the payload, if there is one, encodes, the request can be built and the
server answers it with `resp`, `DoRequest` reads that response and ends with one
of the paths of `Received`. -/
theorem DoRequest_answered (env : Env) (c : StarbucksClient) (method path : String)
    (body : Option Payload) (rb : Option Bytes) (t1 : List Call) (req0 : Request)
    (resp : Response) (henc : Encoded env body rb t1)
    (hnew : NewRequest env method (c.Endpoint ++ path) rb = .ok req0)
    (hdo : env.Do c.HTTPClient (setHeaders c req0) = .ok resp) :
    Received (DoRequest env c method path body)
      (t1 ++ [Call.NewRequest method (c.Endpoint ++ path) rb,
        Call.Do c.HTTPClient (setHeaders c req0)]) resp := by
  rcases DoRequest_built env c method path body rb t1 req0 henc hnew with
    ⟨e, hd, -⟩ | ⟨resp1, hd, hrec⟩
  · rw [hdo] at hd; cases hd
  · rw [hdo] at hd; cases hd; exact hrec

/-- C1: for every client, method, path and payload, when the payload, if there is
one, encodes, the request can be built, and the server answers the request sent
with a response whose body is read in full and whose status is at least 400,
`DoRequest` returns no bytes and the API error that carries that status and that
body; its text is the fixed words, the status in decimal and then the body bytes
unchanged, so the body is recovered by dropping the words. -/
theorem DoRequest_status_ge_400 (env : Env) (c : StarbucksClient) (method path : String)
    (body : Option Payload) (rb : Option Bytes) (t1 : List Call) (req0 : Request)
    (resp : Response) (respBody : Bytes)
    (henc : Encoded env body rb t1)
    (hnew : NewRequest env method (c.Endpoint ++ path) rb = .ok req0)
    (hdo : env.Do c.HTTPClient (setHeaders c req0) = .ok resp)
    (hbody : resp.Body = .ok respBody) (hstatus : 400 ≤ resp.StatusCode) :
    (DoRequest env c method path body).body = none ∧
    (DoRequest env c method path body).err = some (.api resp.StatusCode respBody) ∧
    (DoRequestError.api resp.StatusCode respBody).Error =
      utf8 ("API error (status " ++ toString resp.StatusCode ++ "): ") ++ respBody ∧
    (DoRequestError.api resp.StatusCode respBody).Error.drop
      (utf8 ("API error (status " ++ toString resp.StatusCode ++ "): ")).length = respBody := by
  have hrec := DoRequest_answered env c method path body rb t1 req0 resp henc hnew hdo
  refine ⟨?_, ?_, rfl, by simp [DoRequestError.Error]⟩
  · rcases hrec with ⟨e, he, hr⟩ | ⟨b, hb, hs, hr⟩ | ⟨b, hb, hs, hr⟩
    · rw [hr]
    · rw [hr]
    · omega
  · rcases hrec with ⟨e, he, hr⟩ | ⟨b, hb, hs, hr⟩ | ⟨b, hb, hs, hr⟩
    · rw [he] at hbody; cases hbody
    · rw [hb] at hbody; cases hbody; rw [hr]
    · omega

/-- C1 witness: `GET /stores/42` to a server that answers the request with 404 and
an error body yields the API error that carries 404 and exactly that body. -/
theorem DoRequest_status_ge_400_witness :
    Encoded notFoundEnv none none [] ∧
    NewRequest notFoundEnv "GET" (sampleClient.Endpoint ++ "/stores/42") none =
      .ok ⟨"GET", ⟨"https://api.starbucks.com/v1/stores/42", ""⟩, [], none⟩ ∧
    notFoundEnv.Do sampleClient.HTTPClient
      (setHeaders sampleClient ⟨"GET", ⟨"https://api.starbucks.com/v1/stores/42", ""⟩, [], none⟩)
      = .ok notFound ∧
    notFound.Body = .ok (utf8 "\x7b\"error\":\"not found\"\x7d") ∧
    400 ≤ notFound.StatusCode ∧
    (DoRequest notFoundEnv sampleClient "GET" "/stores/42" none).body = none ∧
    (DoRequest notFoundEnv sampleClient "GET" "/stores/42" none).err =
      some (.api 404 (utf8 "\x7b\"error\":\"not found\"\x7d")) ∧
    (DoRequestError.api 404 (utf8 "\x7b\"error\":\"not found\"\x7d")).Error =
      utf8 "API error (status 404): \x7b\"error\":\"not found\"\x7d" :=
  ⟨Or.inl ⟨rfl, rfl, rfl⟩, by decide, rfl, rfl, by decide,
   (DoRequest_status_ge_400 notFoundEnv sampleClient "GET" "/stores/42" none none []
     ⟨"GET", ⟨"https://api.starbucks.com/v1/stores/42", ""⟩, [], none⟩ notFound
     (utf8 "\x7b\"error\":\"not found\"\x7d") (Or.inl ⟨rfl, rfl, rfl⟩) (by decide) rfl rfl
     (by decide)).1,
   (DoRequest_status_ge_400 notFoundEnv sampleClient "GET" "/stores/42" none none []
     ⟨"GET", ⟨"https://api.starbucks.com/v1/stores/42", ""⟩, [], none⟩ notFound
     (utf8 "\x7b\"error\":\"not found\"\x7d") (Or.inl ⟨rfl, rfl, rfl⟩) (by decide) rfl rfl
     (by decide)).2.1,
   by decide⟩

/-- C2: for every client, method, path and payload, when the payload, if there is
one, encodes, the request can be built, and the server answers the request sent
with a response whose body is read in full and whose status is below 400,
`DoRequest` returns the body bytes of that response unchanged and a nil error. -/
theorem DoRequest_status_lt_400 (env : Env) (c : StarbucksClient) (method path : String)
    (body : Option Payload) (rb : Option Bytes) (t1 : List Call) (req0 : Request)
    (resp : Response) (respBody : Bytes)
    (henc : Encoded env body rb t1)
    (hnew : NewRequest env method (c.Endpoint ++ path) rb = .ok req0)
    (hdo : env.Do c.HTTPClient (setHeaders c req0) = .ok resp)
    (hbody : resp.Body = .ok respBody) (hstatus : resp.StatusCode < 400) :
    (DoRequest env c method path body).body = some respBody ∧
    (DoRequest env c method path body).err = none := by
  have hrec := DoRequest_answered env c method path body rb t1 req0 resp henc hnew hdo
  rcases hrec with ⟨e, he, hr⟩ | ⟨b, hb, hs, hr⟩ | ⟨b, hb, hs, hr⟩
  · rw [he] at hbody; cases hbody
  · omega
  · rw [hb] at hbody; cases hbody; rw [hr]; exact ⟨rfl, rfl⟩

/-- C2 witness: `GET /stores/42` to a server that answers the request with 200
returns the body as it came. -/
theorem DoRequest_status_lt_400_witness :
    Encoded foundEnv none none [] ∧
    NewRequest foundEnv "GET" (sampleClient.Endpoint ++ "/stores/42") none =
      .ok ⟨"GET", ⟨"https://api.starbucks.com/v1/stores/42", ""⟩, [], none⟩ ∧
    foundEnv.Do sampleClient.HTTPClient
      (setHeaders sampleClient ⟨"GET", ⟨"https://api.starbucks.com/v1/stores/42", ""⟩, [], none⟩)
      = .ok found ∧
    found.Body = .ok (utf8 "\x7b\"id\":\"42\",\"status\":\"active\"\x7d") ∧
    found.StatusCode < 400 ∧
    (DoRequest foundEnv sampleClient "GET" "/stores/42" none).body =
      some (utf8 "\x7b\"id\":\"42\",\"status\":\"active\"\x7d") ∧
    (DoRequest foundEnv sampleClient "GET" "/stores/42" none).err = none :=
  ⟨Or.inl ⟨rfl, rfl, rfl⟩, by decide, rfl, rfl, by decide,
   DoRequest_status_lt_400 foundEnv sampleClient "GET" "/stores/42" none none []
     ⟨"GET", ⟨"https://api.starbucks.com/v1/stores/42", ""⟩, [], none⟩ found
     (utf8 "\x7b\"id\":\"42\",\"status\":\"active\"\x7d") (Or.inl ⟨rfl, rfl, rfl⟩) (by decide)
     rfl rfl (by decide)⟩

/-- The three headers of a request that left `setHeaders`, when it entered
without headers. -/
theorem setHeaders_header (c : StarbucksClient) (req : Request) (h : req.Header = []) :
    (setHeaders c req).Header =
      [("Authorization", "Bearer " ++ c.APIKey), ("Content-Type", "application/json"),
       ("X-Region", c.Region)] := by
  simp [setHeaders, Header.Set, mapSet, h]

/-- C3 counterexample: with an endpoint that ends in a line feed the request
cannot be built, and `DoRequest` ends in none of the five outcomes of the claim:
it returns an error that is none of the four kinds. -/
theorem DoRequest_fifth_error_kind :
    ¬ ((∃ b, (DoRequest notFoundEnv newlineClient "GET" "/stores/42" none).body = some b ∧
          (DoRequest notFoundEnv newlineClient "GET" "/stores/42" none).err = none) ∨
       ((DoRequest notFoundEnv newlineClient "GET" "/stores/42" none).body = none ∧
         ∃ e, (DoRequest notFoundEnv newlineClient "GET" "/stores/42" none).err = some e ∧
           (e.kind = .Serialization ∨ e.kind = .Transport ∨ e.kind = .Read ∨
             e.kind = .API))) := by
  have h : (DoRequest notFoundEnv newlineClient "GET" "/stores/42" none).err =
      some (.creating
        "parse \"https://api.starbucks.com/v1\\n/stores/42\": net/url: invalid control character in URL") := by
    decide
  rintro (⟨b, -, he⟩ | ⟨-, e, he, hk⟩)
  · rw [h] at he; cases he
  · rw [h] at he; cases he
    simp [DoRequestError.kind] at hk

/-- C3, amended: every run of `DoRequest` ends either with a body and a nil error
or with nil bytes and one error, never both and never neither; the error is of
one of five kinds, each with its own cause: the payload could not be encoded,
the request could not be built, the round trip failed, the body could not be
read, or the status is at least 400. -/
theorem DoRequest_outcomes (env : Env) (c : StarbucksClient) (method path : String)
    (body : Option Payload) :
    ((∃ b, (DoRequest env c method path body).body = some b) ∧
      (DoRequest env c method path body).err = none) ∨
    ((DoRequest env c method path body).body = none ∧
      ∃ e, (DoRequest env c method path body).err = some e ∧
        match e with
        | .marshaling inner => ∃ p, body = some p ∧ env.Marshal p = .error inner
        | .creating inner =>
            ∃ rb, NewRequest env method (c.Endpoint ++ path) rb = .error inner
        | .making inner =>
            ∃ req, Call.Do c.HTTPClient req ∈ (DoRequest env c method path body).calls ∧
              env.Do c.HTTPClient req = .error inner
        | .reading inner =>
            ∃ resp, Call.ReadAll resp ∈ (DoRequest env c method path body).calls ∧
              resp.Body = .error inner
        | .api status b =>
            ∃ resp, Call.ReadAll resp ∈ (DoRequest env c method path body).calls ∧
              resp.Body = .ok b ∧ resp.StatusCode = status ∧ 400 ≤ status) := by
  rcases DoRequest_cases env c method path body with ⟨p, e, hb, hm, hr⟩ | ⟨rb, t1, henc, hsent⟩
  · right; rw [hr]; exact ⟨rfl, _, rfl, p, hb, hm⟩
  · rcases hsent with ⟨e, hn, hr⟩ | ⟨req0, hn, ⟨e, hd, hr⟩ | ⟨resp, hd, hrec⟩⟩
    · right; rw [hr]; exact ⟨rfl, _, rfl, rb, hn⟩
    · right; rw [hr]; exact ⟨rfl, _, rfl, setHeaders c req0, by simp, hd⟩
    · rcases hrec with ⟨e, hb, hr⟩ | ⟨b, hb, hs, hr⟩ | ⟨b, hb, hs, hr⟩
      · right; rw [hr]; exact ⟨rfl, _, rfl, resp, by simp, hb⟩
      · right; rw [hr]; exact ⟨rfl, _, rfl, resp, by simp, hb, rfl, hs⟩
      · left; rw [hr]; exact ⟨⟨b, rfl⟩, rfl⟩

/-- C4: every request `DoRequest` sends carries exactly three headers, the bearer
authorization built from the key of the client, the JSON content type and the
region of the client, whatever the method, the path and the payload. -/
theorem DoRequest_headers (env : Env) (c : StarbucksClient) (method path : String)
    (body : Option Payload) (hc : HTTPClient) (req : Request)
    (hsent : Call.Do hc req ∈ (DoRequest env c method path body).calls) :
    req.Header =
      [("Authorization", "Bearer " ++ c.APIKey), ("Content-Type", "application/json"),
       ("X-Region", c.Region)] := by
  obtain ⟨-, rb, t1, req0, -, hn, rfl, -⟩ :=
    DoRequest_do env c method path body hc req hsent
  have h0 := NewRequest_ok env method (c.Endpoint ++ path) rb req0 hn
  exact setHeaders_header c req0 (by rw [h0])


/-- C4 witness: the request sent for `GET /stores/42` carries the three headers. -/
theorem DoRequest_headers_witness :
    Call.Do sampleClient.HTTPClient sampleRequest ∈
      (DoRequest foundEnv sampleClient "GET" "/stores/42" none).calls ∧
    sampleRequest.Header =
      [("Authorization", "Bearer " ++ sampleClient.APIKey),
       ("Content-Type", "application/json"), ("X-Region", sampleClient.Region)] :=
  ⟨by decide,
   DoRequest_headers foundEnv sampleClient "GET" "/stores/42" none sampleClient.HTTPClient
     sampleRequest (by decide)⟩

/-- A request is built only with the method and the address `DoRequest` was
given, and with the encoded payload. -/
theorem DoRequest_newRequest (env : Env) (c : StarbucksClient) (method path : String)
    (body : Option Payload) (m u : String) (b : Option Bytes)
    (h : Call.NewRequest m u b ∈ (DoRequest env c method path body).calls) :
    m = method ∧ u = c.Endpoint ++ path ∧ ∃ t1, Encoded env body b t1 := by
  rcases DoRequest_cases env c method path body with ⟨p, e, -, -, hr⟩ | ⟨rb, t1, henc, hsent⟩
  · rw [hr] at h; simp at h
  · have ht1 : Call.NewRequest m u b ∉ t1 := by
      rcases henc with ⟨-, -, rfl⟩ | ⟨p, jb, -, -, -, rfl⟩ <;> simp
    have hcalls : ∃ tail, (DoRequest env c method path body).calls =
        t1 ++ Call.NewRequest method (c.Endpoint ++ path) rb :: tail ∧
        Call.NewRequest m u b ∉ tail := by
      rcases hsent with ⟨e, -, hr⟩ | ⟨req0, hn, ⟨e, -, hr⟩ | ⟨resp1, hd, hrec⟩⟩
      · exact ⟨[], by rw [hr], by simp⟩
      · exact ⟨[Call.Do c.HTTPClient (setHeaders c req0)], by rw [hr], by simp⟩
      · rcases hrec with ⟨e, -, hr⟩ | ⟨b, -, -, hr⟩ | ⟨b, -, -, hr⟩ <;>
          exact ⟨[Call.Do c.HTTPClient (setHeaders c req0), Call.ReadAll resp1],
            by rw [hr]; simp, by simp⟩
    obtain ⟨tail, hc, htail⟩ := hcalls
    rw [hc] at h
    simp [ht1, htail] at h
    obtain ⟨rfl, rfl, rfl⟩ := h
    exact ⟨rfl, rfl, t1, henc⟩

/-- The encoder is called only on the payload `DoRequest` was given. -/
theorem DoRequest_marshal (env : Env) (c : StarbucksClient) (method path : String)
    (body : Option Payload) (p : Payload)
    (h : Call.Marshal p ∈ (DoRequest env c method path body).calls) : body = some p := by
  rcases DoRequest_cases env c method path body with ⟨p1, e, hb, -, hr⟩ | ⟨rb, t1, henc, hsent⟩
  · rw [hr] at h; simp at h; rw [hb, h]
  · have hcalls : ∃ tail, (DoRequest env c method path body).calls = t1 ++ tail ∧
        Call.Marshal p ∉ tail := by
      rcases hsent with ⟨e, -, hr⟩ | ⟨req0, hn, ⟨e, -, hr⟩ | ⟨resp1, hd, hrec⟩⟩
      · exact ⟨_, by rw [hr], by simp⟩
      · exact ⟨_, by rw [hr], by simp⟩
      · rcases hrec with ⟨e, -, hr⟩ | ⟨b, -, -, hr⟩ | ⟨b, -, -, hr⟩ <;>
          exact ⟨[Call.NewRequest method (c.Endpoint ++ path) rb,
            Call.Do c.HTTPClient (setHeaders c req0), Call.ReadAll resp1],
            by rw [hr]; simp, by simp⟩
    obtain ⟨tail, hc, htail⟩ := hcalls
    rw [hc] at h
    simp [htail] at h
    rcases henc with ⟨-, -, rfl⟩ | ⟨p1, jb, hb, -, -, rfl⟩
    · simp at h
    · simp at h; rw [hb, h]

/-- When the payload, if there is one, encodes, `DoRequest` goes on to build the
request: the run is one of the paths of `Sent`. -/
theorem DoRequest_encoded (env : Env) (c : StarbucksClient) (method path : String)
    (body : Option Payload) (rb : Option Bytes) (t1 : List Call)
    (henc : Encoded env body rb t1) :
    Sent env c method path (DoRequest env c method path body) rb t1 := by
  rcases DoRequest_cases env c method path body with ⟨p, e, hb, hm, -⟩ | ⟨rb2, t2, henc2, hsent⟩
  · rcases henc with ⟨hb1, -, -⟩ | ⟨p1, jb, hb1, hm1, -, -⟩
    · rw [hb] at hb1; cases hb1
    · rw [hb] at hb1; cases hb1; rw [hm] at hm1; cases hm1
  · obtain ⟨rfl, rfl⟩ := Encoded_unique env body rb rb2 t1 t2 henc henc2
    exact hsent

/-- When the payload, if there is one, encodes, the calls of `DoRequest` are those
of the encoding, then the building of the request from the method, the endpoint
followed by the path, and the encoded body, then what follows. -/
theorem DoRequest_calls_of_encoded (env : Env) (c : StarbucksClient) (method path : String)
    (body : Option Payload) (rb : Option Bytes) (t1 : List Call)
    (henc : Encoded env body rb t1) :
    ∃ rest, (DoRequest env c method path body).calls =
      t1 ++ Call.NewRequest method (c.Endpoint ++ path) rb :: rest := by
  rcases DoRequest_encoded env c method path body rb t1 henc with
    ⟨e, -, hr⟩ | ⟨req0, -, ⟨e, -, hr⟩ | ⟨resp, -, hrec⟩⟩
  · exact ⟨[], by rw [hr]⟩
  · exact ⟨[Call.Do c.HTTPClient (setHeaders c req0)], by rw [hr]⟩
  · rcases hrec with ⟨e, -, hr⟩ | ⟨b, -, -, hr⟩ | ⟨b, -, -, hr⟩ <;>
      exact ⟨[Call.Do c.HTTPClient (setHeaders c req0), Call.ReadAll resp], by rw [hr]; simp⟩

/-- When the payload, if there is one, encodes and the request can be built, the
request with the three headers is sent through the client. -/
theorem DoRequest_do_of_built (env : Env) (c : StarbucksClient) (method path : String)
    (body : Option Payload) (rb : Option Bytes) (t1 : List Call) (req0 : Request)
    (henc : Encoded env body rb t1)
    (hnew : NewRequest env method (c.Endpoint ++ path) rb = .ok req0) :
    Call.Do c.HTTPClient (setHeaders c req0) ∈ (DoRequest env c method path body).calls := by
  rcases DoRequest_built env c method path body rb t1 req0 henc hnew with
    ⟨e, -, hr⟩ | ⟨resp, -, hrec⟩
  · rw [hr]; simp
  · rcases hrec with ⟨e, -, hr⟩ | ⟨b, -, -, hr⟩ | ⟨b, -, -, hr⟩ <;> (rw [hr]; simp)

/-- An address without a `#` is parsed whole, and has no fragment. -/
theorem cutFragment_of_no_hash (rawURL : String)
    (h : ∀ ch ∈ rawURL.data, ch.toNat ≠ 35) : cutFragment rawURL = ⟨rawURL, ""⟩ := by
  have hall : ∀ ch ∈ rawURL.data, (ch.toNat != 35) = true := by
    intro ch hch; simpa using h ch hch
  have h1 : rawURL.data.takeWhile (fun ch => ch.toNat != 35) = rawURL.data :=
    List.takeWhile_eq_self_iff.2 hall
  have h2 : rawURL.data.dropWhile (fun ch => ch.toNat != 35) = [] :=
    List.dropWhile_eq_nil_iff.2 hall
  unfold cutFragment
  rw [h1, h2]
  rfl

/-- The address of a URL is the text up to the first `#`: a part of the text it
was cut from that begins where the text begins and holds no `#`. -/
theorem cutFragment_address (rawURL : String) :
    (cutFragment rawURL).Address.data <+: rawURL.data ∧
    ∀ ch ∈ (cutFragment rawURL).Address.data, ch.toNat ≠ 35 := by
  unfold cutFragment
  refine ⟨List.takeWhile_prefix _, ?_⟩
  intro ch hch
  simpa using List.mem_takeWhile_imp hch

/-- C5 counterexample: for the path `/stores/42#top` the request sent does not ask
for the endpoint followed by the path: the URL parsed from that text asks for
`/stores/42`, and `top` is its fragment, which is not sent. -/
theorem DoRequest_address_drops_fragment :
    ¬ (∀ hc req, Call.Do hc req ∈
        (DoRequest foundEnv sampleClient "GET" "/stores/42#top" none).calls →
      req.URL.Address = sampleClient.Endpoint ++ "/stores/42#top") := by
  intro h
  have hmem : Call.Do sampleClient.HTTPClient
      { sampleRequest with URL := ⟨"https://api.starbucks.com/v1/stores/42", "top"⟩ } ∈
      (DoRequest foundEnv sampleClient "GET" "/stores/42#top" none).calls := by decide
  have := h _ _ hmem
  revert this
  decide

/-- C5, amended: the address `DoRequest` hands to `http.NewRequest` is the endpoint
of the client followed by the path, as written: whenever the payload, if there
is one, encodes, the request is built from exactly that text, and no request is
built from another. The request sent holds the URL parsed from that text: the
address it asks for is the text up to the first `#`, and what follows the `#`
is the fragment; a text without a `#` is the address whole. -/
theorem DoRequest_address (env : Env) (c : StarbucksClient) (method path : String)
    (body : Option Payload) :
    (∀ rb t1, Encoded env body rb t1 →
      Call.NewRequest method (c.Endpoint ++ path) rb ∈
        (DoRequest env c method path body).calls) ∧
    (∀ m u b, Call.NewRequest m u b ∈ (DoRequest env c method path body).calls →
      u = c.Endpoint ++ path) ∧
    (∀ rb t1 req0, Encoded env body rb t1 →
      NewRequest env method (c.Endpoint ++ path) rb = .ok req0 →
      Call.Do c.HTTPClient (setHeaders c req0) ∈ (DoRequest env c method path body).calls ∧
      (setHeaders c req0).URL = cutFragment (c.Endpoint ++ path)) ∧
    (∀ hc req, Call.Do hc req ∈ (DoRequest env c method path body).calls →
      req.URL = cutFragment (c.Endpoint ++ path)) ∧
    ((∀ ch ∈ (c.Endpoint ++ path).data, ch.toNat ≠ 35) →
      cutFragment (c.Endpoint ++ path) = ⟨c.Endpoint ++ path, ""⟩) ∧
    ((cutFragment (c.Endpoint ++ path)).Address.data <+: (c.Endpoint ++ path).data ∧
      ∀ ch ∈ (cutFragment (c.Endpoint ++ path)).Address.data, ch.toNat ≠ 35) := by
  refine ⟨?_, ?_, ?_, ?_, cutFragment_of_no_hash _, cutFragment_address _⟩
  · intro rb t1 henc
    obtain ⟨rest, hr⟩ := DoRequest_calls_of_encoded env c method path body rb t1 henc
    rw [hr]; simp
  · intro m u b hmem
    exact (DoRequest_newRequest env c method path body m u b hmem).2.1
  · intro rb t1 req0 henc hnew
    refine ⟨DoRequest_do_of_built env c method path body rb t1 req0 henc hnew, ?_⟩
    rw [NewRequest_ok env method (c.Endpoint ++ path) rb req0 hnew]
    rfl
  · intro hc req hmem
    obtain ⟨-, rb, t1, req0, -, hn, rfl, -⟩ := DoRequest_do env c method path body hc req hmem
    rw [NewRequest_ok env method (c.Endpoint ++ path) rb req0 hn]
    rfl

/-- C5 witness: `GET /stores/42` builds the request from the endpoint followed by
the path and sends it with the URL parsed from that text, which has no `#`. -/
theorem DoRequest_address_witness :
    Encoded foundEnv none none [] ∧
    NewRequest foundEnv "GET" (sampleClient.Endpoint ++ "/stores/42") none =
      .ok ⟨"GET", ⟨"https://api.starbucks.com/v1/stores/42", ""⟩, [], none⟩ ∧
    Call.NewRequest "GET" ("https://api.starbucks.com/v1" ++ "/stores/42") none ∈
      (DoRequest foundEnv sampleClient "GET" "/stores/42" none).calls ∧
    Call.Do sampleClient.HTTPClient sampleRequest ∈
      (DoRequest foundEnv sampleClient "GET" "/stores/42" none).calls ∧
    sampleRequest.URL = cutFragment (sampleClient.Endpoint ++ "/stores/42") ∧
    cutFragment (sampleClient.Endpoint ++ "/stores/42") =
      ⟨"https://api.starbucks.com/v1/stores/42", ""⟩ :=
  ⟨Or.inl ⟨rfl, rfl, rfl⟩, by decide,
   (DoRequest_address foundEnv sampleClient "GET" "/stores/42" none).1 none []
     (Or.inl ⟨rfl, rfl, rfl⟩),
   ((DoRequest_address foundEnv sampleClient "GET" "/stores/42" none).2.2.1 none []
     ⟨"GET", ⟨"https://api.starbucks.com/v1/stores/42", ""⟩, [], none⟩
     (Or.inl ⟨rfl, rfl, rfl⟩) (by decide)).1,
   (DoRequest_address foundEnv sampleClient "GET" "/stores/42" none).2.2.2.1
     sampleClient.HTTPClient sampleRequest (by decide),
   by decide⟩

/-- C6: a payload that encodes is handed to the encoder first, the request is built
from the encoding, and when it can be built the request sent carries the
encoding as its body, as every request sent does. A payload that does not
encode gives nil bytes and the marshaling error after the one call to the
encoder: no request is built or sent. Without a payload the encoder is never
called, the error is never a marshaling error, the request is built without a
body, and every request sent has no body. -/
theorem DoRequest_payload (env : Env) (c : StarbucksClient) (method path : String) :
    (∀ p jsonBody, env.Marshal p = .ok jsonBody →
      (∃ rest, (DoRequest env c method path (some p)).calls =
        Call.Marshal p :: Call.NewRequest method (c.Endpoint ++ path) (some jsonBody) :: rest) ∧
      (∀ req0, NewRequest env method (c.Endpoint ++ path) (some jsonBody) = .ok req0 →
        Call.Do c.HTTPClient (setHeaders c req0) ∈
          (DoRequest env c method path (some p)).calls ∧
        (setHeaders c req0).Body = some jsonBody) ∧
      (∀ hc req, Call.Do hc req ∈ (DoRequest env c method path (some p)).calls →
        req.Body = some jsonBody) ∧
      (∀ inner, (DoRequest env c method path (some p)).err ≠ some (.marshaling inner))) ∧
    (∀ p e, env.Marshal p = .error e →
      (DoRequest env c method path (some p)).body = none ∧
      (DoRequest env c method path (some p)).err = some (.marshaling e) ∧
      (DoRequestError.marshaling e).Error = utf8 ("error marshaling request: " ++ e) ∧
      (DoRequest env c method path (some p)).calls = [Call.Marshal p]) ∧
    ((∀ p, Call.Marshal p ∉ (DoRequest env c method path none).calls) ∧
      (∀ inner, (DoRequest env c method path none).err ≠ some (.marshaling inner)) ∧
      (∃ rest, (DoRequest env c method path none).calls =
        Call.NewRequest method (c.Endpoint ++ path) none :: rest) ∧
      (∀ req0, NewRequest env method (c.Endpoint ++ path) none = .ok req0 →
        Call.Do c.HTTPClient (setHeaders c req0) ∈ (DoRequest env c method path none).calls ∧
        (setHeaders c req0).Body = none) ∧
      (∀ hc req, Call.Do hc req ∈ (DoRequest env c method path none).calls →
        req.Body = none)) := by
  have hbody : ∀ (b : Option Payload) (rb : Option Bytes) (t1 : List Call),
      Encoded env b rb t1 → ∀ hc req, Call.Do hc req ∈ (DoRequest env c method path b).calls →
      req.Body = rb := by
    intro b rb t1 henc hc req h
    obtain ⟨-, rb2, t2, req0, henc2, hn, rfl, -⟩ := DoRequest_do env c method path b hc req h
    obtain ⟨rfl, -⟩ := Encoded_unique env b rb rb2 t1 t2 henc henc2
    rw [NewRequest_ok env method (c.Endpoint ++ path) rb req0 hn]
    rfl
  have hnomarshal : ∀ (b : Option Payload) (rb : Option Bytes) (t1 : List Call),
      Encoded env b rb t1 → ∀ inner,
      (DoRequest env c method path b).err ≠ some (.marshaling inner) := by
    intro b rb t1 henc inner hi
    rcases DoRequest_encoded env c method path b rb t1 henc with
      ⟨e, -, hr⟩ | ⟨req0, -, ⟨e, -, hr⟩ | ⟨resp, -, hrec⟩⟩
    · rw [hr] at hi; cases hi
    · rw [hr] at hi; cases hi
    · rcases hrec with ⟨e, -, hr⟩ | ⟨b, -, -, hr⟩ | ⟨b, -, -, hr⟩ <;>
        (rw [hr] at hi; cases hi)
  refine ⟨?_, ?_, ?_⟩
  · intro p jsonBody hm
    have henc : Encoded env (some p) (some jsonBody) [Call.Marshal p] :=
      Or.inr ⟨p, jsonBody, rfl, hm, rfl, rfl⟩
    refine ⟨?_, ?_, hbody _ _ _ henc, hnomarshal _ _ _ henc⟩
    · obtain ⟨rest, hr⟩ := DoRequest_calls_of_encoded env c method path _ _ _ henc
      exact ⟨rest, by rw [hr]; rfl⟩
    · intro req0 hnew
      refine ⟨DoRequest_do_of_built env c method path _ _ _ req0 henc hnew, ?_⟩
      rw [NewRequest_ok env method (c.Endpoint ++ path) _ req0 hnew]
      rfl
  · intro p e hm
    have hr : DoRequest env c method path (some p) =
        ⟨none, some (.marshaling e), [Call.Marshal p]⟩ := by
      simp [DoRequest, hm]
    rw [hr]
    exact ⟨rfl, rfl, rfl, rfl⟩
  · have henc : Encoded env none none [] := Or.inl ⟨rfl, rfl, rfl⟩
    obtain ⟨rest, hr⟩ := DoRequest_calls_of_encoded env c method path _ _ _ henc
    refine ⟨?_, hnomarshal _ _ _ henc, ⟨rest, by rw [hr]; rfl⟩, ?_, hbody _ _ _ henc⟩
    · intro p hp
      have := DoRequest_marshal env c method path none p hp
      cases this
    · intro req0 hnew
      refine ⟨DoRequest_do_of_built env c method path _ _ _ req0 henc hnew, ?_⟩
      rw [NewRequest_ok env method (c.Endpoint ++ path) _ req0 hnew]
      rfl

/-- C6 witness: creating the store of `samplePlan` hands the payload to the
encoder, builds the request from the encoding and sends it with the encoding as
its body. -/
theorem DoRequest_payload_witness :
    createdEnv.Marshal (storeCreateBody samplePlan) = .ok samplePlanJSON ∧
    NewRequest createdEnv "POST" (sampleClient.Endpoint ++ "/stores") (some samplePlanJSON) =
      .ok ⟨"POST", ⟨"https://api.starbucks.com/v1/stores", ""⟩, [], some samplePlanJSON⟩ ∧
    (∃ rest, (DoRequest createdEnv sampleClient "POST" "/stores"
        (some (storeCreateBody samplePlan))).calls =
      Call.Marshal (storeCreateBody samplePlan) ::
        Call.NewRequest "POST" (sampleClient.Endpoint ++ "/stores") (some samplePlanJSON) ::
          rest) ∧
    (Call.Do sampleClient.HTTPClient (setHeaders sampleClient
        ⟨"POST", ⟨"https://api.starbucks.com/v1/stores", ""⟩, [], some samplePlanJSON⟩) ∈
      (DoRequest createdEnv sampleClient "POST" "/stores"
        (some (storeCreateBody samplePlan))).calls ∧
      (setHeaders sampleClient
        ⟨"POST", ⟨"https://api.starbucks.com/v1/stores", ""⟩, [], some samplePlanJSON⟩).Body =
        some samplePlanJSON) :=
  ⟨rfl, rfl,
   ((DoRequest_payload createdEnv sampleClient "POST" "/stores").1
     (storeCreateBody samplePlan) samplePlanJSON rfl).1,
   ((DoRequest_payload createdEnv sampleClient "POST" "/stores").1
     (storeCreateBody samplePlan) samplePlanJSON rfl).2.1
       ⟨"POST", ⟨"https://api.starbucks.com/v1/stores", ""⟩, [], some samplePlanJSON⟩
       rfl⟩

/-- C7 counterexample: a payload that holds a not-a-number cannot be encoded, and
`DoRequest` returns without any network call. -/
theorem DoRequest_no_call_on_marshal_error :
    ¬ ((DoRequest (cannedEnv (.error "json: unsupported value: NaN") (.ok notFound)
          (.error "unused")) sampleClient "POST" "/stores"
          (some [("latitude", .float64 .nan)])).calls.countP Call.isDo = 1) := by
  decide

/-- C7, amended: every run of `DoRequest` makes at most one network call, and
exactly one unless it ends with a marshaling error or a request construction
error, in which case it makes none. -/
theorem DoRequest_at_most_one_call (env : Env) (c : StarbucksClient) (method path : String)
    (body : Option Payload) :
    (DoRequest env c method path body).calls.countP Call.isDo ≤ 1 ∧
    ((DoRequest env c method path body).calls.countP Call.isDo = 1 ↔
      (∀ inner, (DoRequest env c method path body).err ≠ some (.marshaling inner)) ∧
      (∀ inner, (DoRequest env c method path body).err ≠ some (.creating inner))) ∧
    ((DoRequest env c method path body).calls.countP Call.isDo = 0 ↔
      ((∃ inner, (DoRequest env c method path body).err = some (.marshaling inner)) ∨
       (∃ inner, (DoRequest env c method path body).err = some (.creating inner)))) := by
  rcases DoRequest_cases env c method path body with ⟨p, e, -, -, hr⟩ | ⟨rb, t1, henc, hs⟩
  · rw [hr]; simp [Call.isDo]
  · have ht1 : t1.countP Call.isDo = 0 := by
      rcases henc with ⟨-, -, rfl⟩ | ⟨p, jb, -, -, -, rfl⟩ <;> simp [Call.isDo]
    rcases hs with ⟨e, -, hr⟩ | ⟨req0, -, ⟨e, -, hr⟩ | ⟨resp, -, hrec⟩⟩
    · rw [hr]; simp [Call.isDo, List.countP_append, ht1, List.countP_cons]
    · rw [hr]; simp [Call.isDo, List.countP_append, ht1, List.countP_cons]
    · rcases hrec with ⟨e, -, hr⟩ | ⟨b, -, -, hr⟩ | ⟨b, -, -, hr⟩ <;>
        (rw [hr]; simp [Call.isDo, List.countP_append, ht1, List.countP_cons])

/-- A diagnostic handed to `Append` is in the result. -/
theorem mem_Append_singleton (ds : Diagnostics) (d : Diagnostic) :
    d ∈ Diagnostics.Append ds [d] := by
  unfold Diagnostics.Append
  by_cases h : ds.contains d = true
  · simp only [List.foldl, h, if_true]
    simpa using h
  · simp only [List.foldl, h]
    simp

/-- After `AddError` the diagnostics hold an error. -/
theorem HasError_AddError (ds : Diagnostics) (summary : String) (detail : Bytes) :
    Diagnostics.HasError (Diagnostics.AddError ds summary detail) = true := by
  unfold Diagnostics.HasError
  rw [List.any_eq_true]
  exact ⟨_, mem_Append_singleton ds _, by simp⟩

/-- C8: with a null `api_key` and the environment variable unset or empty,
`Configure` records the missing-key error, leaves both data fields as they were,
and makes no call other than reading the environment variable. -/
theorem Configure_missing_api_key (environ : List (String × String))
    (req : ProviderConfigureRequest) (resp : ProviderConfigureResponse)
    (hnull : req.Config.APIKey = .null)
    (henv : environ.lookup "STARBUCKS_API_KEY" = none ∨
      environ.lookup "STARBUCKS_API_KEY" = some "")
    (hpre : Diagnostics.HasError (Diagnostics.Append resp.Diagnostics req.ConfigGetDiags)
      = false) :
    missingAPIKey ∈ (starbucksProvider.Configure environ req resp).1.Diagnostics ∧
    Diagnostics.HasError (starbucksProvider.Configure environ req resp).1.Diagnostics = true ∧
    (starbucksProvider.Configure environ req resp).1.ResourceData = resp.ResourceData ∧
    (starbucksProvider.Configure environ req resp).1.DataSourceData = resp.DataSourceData ∧
    (starbucksProvider.Configure environ req resp).2 = [Call.Getenv "STARBUCKS_API_KEY"] := by
  have hget : Getenv environ "STARBUCKS_API_KEY" = "" := by
    rcases henv with h | h <;> simp [Getenv, h]
  simp only [starbucksProvider.Configure, hpre, hnull, TfValue.IsUnknown, TfValue.IsNull, hget]
  simp only [Bool.false_eq_true, if_false, Bool.not_true, if_true]
  exact ⟨mem_Append_singleton _ _, HasError_AddError _ _ _, trivial, trivial, trivial⟩


/-- C8 witness: a configuration with every attribute null and an empty
environment is refused with the missing-key error and no client. -/
theorem Configure_missing_api_key_witness :
    nullConfig.APIKey = .null ∧
    (([] : List (String × String)).lookup "STARBUCKS_API_KEY" = none ∨
      ([] : List (String × String)).lookup "STARBUCKS_API_KEY" = some "") ∧
    missingAPIKey ∈ (starbucksProvider.Configure [] ⟨nullConfig, []⟩ ⟨[], none, none⟩).1.Diagnostics ∧
    (starbucksProvider.Configure [] ⟨nullConfig, []⟩ ⟨[], none, none⟩).1.ResourceData = none ∧
    (starbucksProvider.Configure [] ⟨nullConfig, []⟩ ⟨[], none, none⟩).1.DataSourceData = none :=
  ⟨rfl, Or.inl rfl,
   (Configure_missing_api_key [] ⟨nullConfig, []⟩ ⟨[], none, none⟩ rfl (Or.inl rfl) rfl).1,
   (Configure_missing_api_key [] ⟨nullConfig, []⟩ ⟨[], none, none⟩ rfl (Or.inl rfl) rfl).2.2.1,
   (Configure_missing_api_key [] ⟨nullConfig, []⟩ ⟨[], none, none⟩ rfl (Or.inl rfl) rfl).2.2.2.1⟩

/-- C9: when `Configure` builds a client, the client is `NewStarbucksClient` of
the four settings, each resolved on its own: the configured value when it is not
null, and otherwise the environment variable for the key and the default for the
endpoint, the region and the timeout; the same client is handed to data sources
and to resources. -/
theorem Configure_resolves_settings (environ : List (String × String))
    (req : ProviderConfigureRequest) (resp : ProviderConfigureResponse) (c : StarbucksClient)
    (hfresh : resp.ResourceData = none)
    (hbuilt : (starbucksProvider.Configure environ req resp).1.ResourceData = some c) :
    c = NewStarbucksClient
      (if req.Config.APIKey.IsNull then Getenv environ "STARBUCKS_API_KEY"
        else req.Config.APIKey.ValueString)
      (if req.Config.Endpoint.IsNull then "https://api.starbucks.com/v1"
        else req.Config.Endpoint.ValueString)
      (if req.Config.Region.IsNull then "us-west-2" else req.Config.Region.ValueString)
      (if req.Config.Timeout.IsNull then 30 else req.Config.Timeout.ValueInt64) ∧
    (starbucksProvider.Configure environ req resp).1.DataSourceData = some c ∧
    (∀ v, req.Config.APIKey = .known v → c.APIKey = v) ∧
    (req.Config.APIKey = .null → c.APIKey = Getenv environ "STARBUCKS_API_KEY") ∧
    (∀ v, req.Config.Endpoint = .known v → c.Endpoint = v) ∧
    (req.Config.Endpoint = .null → c.Endpoint = "https://api.starbucks.com/v1") ∧
    (∀ v, req.Config.Region = .known v → c.Region = v) ∧
    (req.Config.Region = .null → c.Region = "us-west-2") ∧
    (∀ v, req.Config.Timeout = .known v → c.HTTPClient.Timeout = wrapInt64 (v * 1000000000)) ∧
    (req.Config.Timeout = .null → c.HTTPClient.Timeout = 30 * 1000000000) := by
  have hc : c = NewStarbucksClient
      (if req.Config.APIKey.IsNull then Getenv environ "STARBUCKS_API_KEY"
        else req.Config.APIKey.ValueString)
      (if req.Config.Endpoint.IsNull then "https://api.starbucks.com/v1"
        else req.Config.Endpoint.ValueString)
      (if req.Config.Region.IsNull then "us-west-2" else req.Config.Region.ValueString)
      (if req.Config.Timeout.IsNull then 30 else req.Config.Timeout.ValueInt64) ∧
      (starbucksProvider.Configure environ req resp).1.DataSourceData = some c := by
    cases hA : req.Config.APIKey.IsNull <;> cases hE : req.Config.Endpoint.IsNull <;>
      cases hR : req.Config.Region.IsNull <;> cases hT : req.Config.Timeout.IsNull <;>
      simp only [starbucksProvider.Configure, hA, hE, hR, hT, Bool.not_true, Bool.not_false, if_true, if_false,
        Bool.false_eq_true] at hbuilt ⊢ <;>
      split_ifs at hbuilt ⊢ <;> simp_all
  refine ⟨hc.1, hc.2, ?_, ?_, ?_, ?_, ?_, ?_, ?_, ?_⟩ <;> intros <;>
    (rw [hc.1]; simp_all [NewStarbucksClient, TfValue.IsNull, TfValue.ValueString,
      TfValue.ValueInt64])
  decide


/-- C9 witness: the key comes from the environment, the endpoint and the timeout
from the configuration, the region from the default. -/
theorem Configure_resolves_settings_witness :
    (starbucksProvider.Configure [("STARBUCKS_API_KEY", "k")]
      ⟨{ nullConfig with Endpoint := .known "http://localhost:8080", Timeout := .known 5 }, []⟩
      ⟨[], none, none⟩).1.ResourceData =
      some (NewStarbucksClient "k" "http://localhost:8080" "us-west-2" 5) ∧
    NewStarbucksClient "k" "http://localhost:8080" "us-west-2" 5 =
      NewStarbucksClient
        (if (TfValue.null : TfValue String).IsNull then
          Getenv [("STARBUCKS_API_KEY", "k")] "STARBUCKS_API_KEY"
          else (TfValue.null : TfValue String).ValueString)
        (if (TfValue.known "http://localhost:8080").IsNull then "https://api.starbucks.com/v1"
          else (TfValue.known "http://localhost:8080").ValueString)
        (if (TfValue.null : TfValue String).IsNull then "us-west-2"
          else (TfValue.null : TfValue String).ValueString)
        (if (TfValue.known (5 : Int)).IsNull then 30 else (TfValue.known (5 : Int)).ValueInt64) :=
  ⟨by decide,
   (Configure_resolves_settings [("STARBUCKS_API_KEY", "k")]
      ⟨{ nullConfig with Endpoint := .known "http://localhost:8080", Timeout := .known 5 }, []⟩
      ⟨[], none, none⟩ (NewStarbucksClient "k" "http://localhost:8080" "us-west-2" 5)
      rfl (by decide)).1⟩

/-- A configured `api_key` that is the empty string is not replaced by the
environment variable: `Configure` records the missing-key error and builds no
client, whatever the environment holds. -/
theorem Configure_empty_configured_key (environ : List (String × String))
    (req : ProviderConfigureRequest) (resp : ProviderConfigureResponse)
    (hkey : req.Config.APIKey = .known "")
    (hpre : Diagnostics.HasError (Diagnostics.Append resp.Diagnostics req.ConfigGetDiags)
      = false) :
    missingAPIKey ∈ (starbucksProvider.Configure environ req resp).1.Diagnostics ∧
    (starbucksProvider.Configure environ req resp).1.ResourceData = resp.ResourceData ∧
    (starbucksProvider.Configure environ req resp).1.DataSourceData = resp.DataSourceData := by
  simp only [starbucksProvider.Configure, hpre, hkey, TfValue.IsUnknown, TfValue.IsNull,
    TfValue.ValueString]
  simp only [Bool.false_eq_true, if_false, Bool.not_false, if_true]
  exact ⟨mem_Append_singleton _ _, trivial, trivial⟩

/-- The calls of `Create` are those of its one `DoRequest`, followed by the
decoding of the body when the request succeeded. -/
theorem storeCreate_readAll (env : Env) (c : StarbucksClient)
    (req : CreateRequest storeResourceModel) (resp : CreateResponse storeResourceModel)
    (r : Response) (h : Call.ReadAll r ∈ (storeResource.Create env c req resp).2) :
    Diagnostics.HasError (Diagnostics.Append resp.Diagnostics req.PlanGetDiags) = false ∧
    Call.ReadAll r ∈ (DoRequest env c "POST" "/stores" (some (storeCreateBody req.Plan))).calls := by
  unfold storeResource.Create at h
  simp only at h
  split at h
  · simp at h
  · rename_i hpre
    refine ⟨by simpa using hpre, ?_⟩
    split at h
    · exact h
    · split at h <;> simpa using h

/-- C10: when the response to the request of `Create` was read in full, has a
status below 400 and decodes to an object whose `id` is the string `v`, `Create`
writes the plan with `ID` set to `v` and `Status` set to `active`, and the
diagnostics are those the plan decoding gave. -/
theorem storeCreate_sets_id_and_status (env : Env) (c : StarbucksClient)
    (req : CreateRequest storeResourceModel) (resp : CreateResponse storeResourceModel)
    (r : Response) (respBody : Bytes) (result : JsonMap) (v : String)
    (hread : Call.ReadAll r ∈ (storeResource.Create env c req resp).2)
    (hbody : r.Body = .ok respBody) (hstatus : r.StatusCode < 400)
    (hdecoded : env.Unmarshal respBody = .ok result)
    (hid : result.lookup "id" = some (.string v)) :
    (storeResource.Create env c req resp).1.State =
      some { req.Plan with ID := .known v, Status := .known "active" } ∧
    (storeResource.Create env c req resp).1.Diagnostics =
      Diagnostics.Append resp.Diagnostics req.PlanGetDiags := by
  obtain ⟨hpre, hcalls⟩ := storeCreate_readAll env c req resp r hread
  obtain ⟨rb, t1, req0, -, -, -, hrec⟩ := DoRequest_readAll env c "POST" "/stores" _ r hcalls
  have hres : (DoRequest env c "POST" "/stores" (some (storeCreateBody req.Plan))).err = none ∧
      (DoRequest env c "POST" "/stores" (some (storeCreateBody req.Plan))).body
        = some respBody := by
    rcases hrec with ⟨e, he, hr⟩ | ⟨b, hb, hs, hr⟩ | ⟨b, hb, hs, hr⟩
    · rw [he] at hbody; cases hbody
    · omega
    · rw [hb] at hbody; cases hbody; rw [hr]; exact ⟨rfl, rfl⟩
  simp [storeResource.Create, hpre, hres.1, hres.2, hdecoded, hid]

/-- C10 witness: status 201 and a body holding the id `s-1` give a state with
that id and the status `active`. -/
theorem storeCreate_sets_id_and_status_witness :
    Call.ReadAll created ∈
      (storeResource.Create createdEnv sampleClient ⟨samplePlan, []⟩ ⟨none, []⟩).2 ∧
    (storeResource.Create createdEnv sampleClient ⟨samplePlan, []⟩ ⟨none, []⟩).1.State =
      some { samplePlan with ID := .known "s-1", Status := .known "active" } ∧
    (storeResource.Create createdEnv sampleClient ⟨samplePlan, []⟩ ⟨none, []⟩).1.Diagnostics =
      [] :=
  ⟨by decide,
   storeCreate_sets_id_and_status createdEnv sampleClient ⟨samplePlan, []⟩ ⟨none, []⟩ created
     (utf8 "\x7b\"id\":\"s-1\"\x7d") [("id", .string "s-1")] "s-1" (by decide) rfl (by decide)
     rfl rfl⟩

/-- A diagnostic is in the result of `Append` of one diagnostic exactly when it
was there before or is the one appended. -/
theorem mem_Append_singleton_iff (ds : Diagnostics) (d x : Diagnostic) :
    x ∈ Diagnostics.Append ds [d] ↔ x ∈ ds ∨ x = d := by
  unfold Diagnostics.Append
  by_cases h : ds.contains d = true
  · simp only [List.foldl, h, if_true]
    constructor
    · intro hx; exact Or.inl hx
    · rintro (hx | rfl)
      · exact hx
      · simpa using h
  · simp only [List.foldl, h]
    simp

/-- At most one request is sent in a run of `DoRequest`. -/
theorem DoRequest_countP_isDo (env : Env) (c : StarbucksClient) (method path : String)
    (body : Option Payload) :
    (DoRequest env c method path body).calls.countP Call.isDo ≤ 1 := by
  rcases DoRequest_cases env c method path body with ⟨p, e, -, -, hr⟩ | ⟨rb, t1, henc, hs⟩
  · rw [hr]; simp [Call.isDo]
  · have ht1 : t1.countP Call.isDo = 0 := by
      rcases henc with ⟨-, -, rfl⟩ | ⟨p, jb, -, -, -, rfl⟩ <;> simp [Call.isDo]
    rcases hs with ⟨e, -, hr⟩ | ⟨req0, -, ⟨e, -, hr⟩ | ⟨resp, -, hrec⟩⟩
    · rw [hr]; simp [Call.isDo, List.countP_append, ht1, List.countP_cons]
    · rw [hr]; simp [Call.isDo, List.countP_append, ht1, List.countP_cons]
    · rcases hrec with ⟨e, -, hr⟩ | ⟨b, -, -, hr⟩ | ⟨b, -, -, hr⟩ <;>
        (rw [hr]; simp [Call.isDo, List.countP_append, ht1, List.countP_cons])

/-- The requests in the calls of `DoRequest`, followed or not by one call to the
decoder, are those `Issues` describes. -/
theorem Issues_of_calls (env : Env) (c : StarbucksClient) (method path : String)
    (body : Option Payload) (hasError : Bool) (calls : List Call) (hm : method ≠ "")
    (h : (hasError = true ∧ calls = []) ∨ (hasError = false ∧
      (calls = (DoRequest env c method path body).calls ∨
        ∃ b, calls = (DoRequest env c method path body).calls ++ [Call.Unmarshal b]))) :
    Issues env c method path body hasError calls := by
  have hdo : ∀ hc req, Call.Do hc req ∈ (DoRequest env c method path body).calls →
      req.Method = method ∧ req.URL = cutFragment (c.Endpoint ++ path) ∧
      (body = none → req.Body = none) := by
    intro hc req hmem
    obtain ⟨-, rb, t1, req0, henc, hn, rfl, -⟩ := DoRequest_do env c method path body hc req hmem
    have h0 := NewRequest_ok env method (c.Endpoint ++ path) rb req0 hn
    refine ⟨by rw [h0]; simp [setHeaders, hm], by rw [h0]; rfl, ?_⟩
    intro hb
    rcases henc with ⟨-, rfl, -⟩ | ⟨p, jb, hp, -, -, -⟩
    · rw [h0]; rfl
    · rw [hb] at hp; cases hp
  have hnew : ∀ m u b, Call.NewRequest m u b ∈ (DoRequest env c method path body).calls →
      m = method ∧ u = c.Endpoint ++ path ∧ (body = none → b = none) := by
    intro m u b hmem
    obtain ⟨h1, h2, t1, henc⟩ := DoRequest_newRequest env c method path body m u b hmem
    refine ⟨h1, h2, ?_⟩
    intro hb
    rcases henc with ⟨-, rfl, -⟩ | ⟨p, jb, hp, -, -, -⟩
    · rfl
    · rw [hb] at hp; cases hp
  have hcount := DoRequest_countP_isDo env c method path body
  rcases h with ⟨h1, rfl⟩ | ⟨h1, rfl | ⟨b, rfl⟩⟩
  · exact ⟨by simp, by simp, by simp, by simp [h1]⟩
  · exact ⟨hdo, hnew, hcount, fun _ => List.prefix_refl _⟩
  · refine ⟨?_, ?_, ?_, fun _ => List.prefix_append _ _⟩
    · intro hc req hmem; exact hdo hc req (by simpa using hmem)
    · intro m u b2 hmem; exact hnew m u b2 (by simpa using hmem)
    · simpa [List.countP_append, List.countP_cons, Call.isDo] using hcount

/-- The calls of a handler that follows one of the paths of `Outcomes`. -/
theorem Issues_of_Outcomes {M : Type} (env : Env) (c : StarbucksClient) (method path : String)
    (body : Option Payload) (words : String) (decodeErr : Option String) (hasError : Bool)
    (pre : Diagnostics) (before : CreateResponse M) (after : CreateResponse M × List Call)
    (hm : method ≠ "")
    (h : Outcomes (DoRequest env c method path body) words decodeErr hasError pre before after) :
    Issues env c method path body hasError after.2 := by
  apply Issues_of_calls env c method path body hasError after.2 hm
  rcases h with ⟨h1, h2⟩ | ⟨h1, e, -, h2⟩ | ⟨h1, -, e, -, h2⟩ | ⟨h1, -, -, -, h2 | h2⟩
  · left; exact ⟨h1, by rw [h2]⟩
  · right; exact ⟨h1, Or.inl (by rw [h2])⟩
  · right; exact ⟨h1, Or.inr ⟨_, by rw [h2]⟩⟩
  · right; exact ⟨h1, Or.inl h2⟩
  · right; exact ⟨h1, Or.inr ⟨_, h2⟩⟩

/-- The paths through `storeResource.Create`. -/
theorem storeCreate_outcomes (env : Env) (c : StarbucksClient)
    (req : CreateRequest storeResourceModel) (resp : CreateResponse storeResourceModel) :
    Outcomes (DoRequest env c "POST" "/stores" (some (storeCreateBody req.Plan)))
      "Unable to create store: "
      (env.Unmarshal
        ((DoRequest env c "POST" "/stores" (some (storeCreateBody req.Plan))).body.getD [])).err?
      (Diagnostics.HasError (Diagnostics.Append resp.Diagnostics req.PlanGetDiags))
      (Diagnostics.Append resp.Diagnostics req.PlanGetDiags) resp
      (storeResource.Create env c req resp) := by
  unfold Outcomes storeResource.Create
  cases hpre : Diagnostics.HasError (Diagnostics.Append resp.Diagnostics req.PlanGetDiags)
  · cases herr : (DoRequest env c "POST" "/stores" (some (storeCreateBody req.Plan))).err
    · cases hdec : env.Unmarshal
          ((DoRequest env c "POST" "/stores" (some (storeCreateBody req.Plan))).body.getD []) <;>
        simp [hpre, herr, hdec, Outcome.err?]
    · simp [hpre, herr]
  · simp [hpre]

/-- The paths through `storeResource.Read`. -/
theorem storeRead_outcomes (env : Env) (c : StarbucksClient)
    (req : ReadRequest storeResourceModel) (resp : CreateResponse storeResourceModel) :
    Outcomes (DoRequest env c "GET" ("/stores/" ++ req.State.ID.ValueString) none)
      "Unable to read store: "
      (env.Unmarshal
        ((DoRequest env c "GET" ("/stores/" ++ req.State.ID.ValueString) none).body.getD [])).err?
      (Diagnostics.HasError (Diagnostics.Append resp.Diagnostics req.StateGetDiags))
      (Diagnostics.Append resp.Diagnostics req.StateGetDiags) resp
      (storeResource.Read env c req resp) := by
  unfold Outcomes storeResource.Read
  cases hpre : Diagnostics.HasError (Diagnostics.Append resp.Diagnostics req.StateGetDiags)
  · cases herr : (DoRequest env c "GET" ("/stores/" ++ req.State.ID.ValueString) none).err
    · cases hdec : env.Unmarshal
          ((DoRequest env c "GET" ("/stores/" ++ req.State.ID.ValueString) none).body.getD []) <;>
        simp [hpre, herr, hdec, Outcome.err?]
    · simp [hpre, herr]
  · simp [hpre]

/-- The paths through `storeResource.Update`. -/
theorem storeUpdate_outcomes (env : Env) (c : StarbucksClient)
    (req : UpdateRequest storeResourceModel) (resp : CreateResponse storeResourceModel) :
    Outcomes (DoRequest env c "PUT" ("/stores/" ++ req.Plan.ID.ValueString) (some (storeUpdateBody req.Plan)))
      "Unable to update store: "
      none
      (Diagnostics.HasError (Diagnostics.Append resp.Diagnostics req.PlanGetDiags))
      (Diagnostics.Append resp.Diagnostics req.PlanGetDiags) resp
      (storeResource.Update env c req resp) := by
  unfold Outcomes storeResource.Update
  cases hpre : Diagnostics.HasError (Diagnostics.Append resp.Diagnostics req.PlanGetDiags)
  · cases herr : (DoRequest env c "PUT" ("/stores/" ++ req.Plan.ID.ValueString) (some (storeUpdateBody req.Plan))).err
    · simp [hpre, herr]
    · simp [hpre, herr]
  · simp [hpre]

/-- The paths through `storeResource.Delete`. -/
theorem storeDelete_outcomes (env : Env) (c : StarbucksClient)
    (req : DeleteRequest storeResourceModel) (resp : CreateResponse storeResourceModel) :
    Outcomes (DoRequest env c "DELETE" ("/stores/" ++ req.State.ID.ValueString) none)
      "Unable to delete store: "
      none
      (Diagnostics.HasError (Diagnostics.Append resp.Diagnostics req.StateGetDiags))
      (Diagnostics.Append resp.Diagnostics req.StateGetDiags) resp
      (storeResource.Delete env c req resp) := by
  unfold Outcomes storeResource.Delete
  cases hpre : Diagnostics.HasError (Diagnostics.Append resp.Diagnostics req.StateGetDiags)
  · cases herr : (DoRequest env c "DELETE" ("/stores/" ++ req.State.ID.ValueString) none).err
    · simp [hpre, herr]
    · simp [hpre, herr]
  · simp [hpre]

/-- The paths through `employeeResource.Create`. -/
theorem employeeCreate_outcomes (env : Env) (c : StarbucksClient)
    (req : CreateRequest employeeResourceModel) (resp : CreateResponse employeeResourceModel) :
    Outcomes (DoRequest env c "POST" "/employees" (some (employeeCreateBody req.Plan)))
      "Unable to create employee: "
      (env.Unmarshal
        ((DoRequest env c "POST" "/employees" (some (employeeCreateBody req.Plan))).body.getD [])).err?
      (Diagnostics.HasError (Diagnostics.Append resp.Diagnostics req.PlanGetDiags))
      (Diagnostics.Append resp.Diagnostics req.PlanGetDiags) resp
      (employeeResource.Create env c req resp) := by
  unfold Outcomes employeeResource.Create
  cases hpre : Diagnostics.HasError (Diagnostics.Append resp.Diagnostics req.PlanGetDiags)
  · cases herr : (DoRequest env c "POST" "/employees" (some (employeeCreateBody req.Plan))).err
    · cases hdec : env.Unmarshal
          ((DoRequest env c "POST" "/employees" (some (employeeCreateBody req.Plan))).body.getD []) <;>
        simp [hpre, herr, hdec, Outcome.err?]
    · simp [hpre, herr]
  · simp [hpre]

/-- The paths through `employeeResource.Read`. -/
theorem employeeRead_outcomes (env : Env) (c : StarbucksClient)
    (req : ReadRequest employeeResourceModel) (resp : CreateResponse employeeResourceModel) :
    Outcomes (DoRequest env c "GET" ("/employees/" ++ req.State.ID.ValueString) none)
      "Unable to read employee: "
      (env.Unmarshal
        ((DoRequest env c "GET" ("/employees/" ++ req.State.ID.ValueString) none).body.getD [])).err?
      (Diagnostics.HasError (Diagnostics.Append resp.Diagnostics req.StateGetDiags))
      (Diagnostics.Append resp.Diagnostics req.StateGetDiags) resp
      (employeeResource.Read env c req resp) := by
  unfold Outcomes employeeResource.Read
  cases hpre : Diagnostics.HasError (Diagnostics.Append resp.Diagnostics req.StateGetDiags)
  · cases herr : (DoRequest env c "GET" ("/employees/" ++ req.State.ID.ValueString) none).err
    · cases hdec : env.Unmarshal
          ((DoRequest env c "GET" ("/employees/" ++ req.State.ID.ValueString) none).body.getD []) <;>
        simp [hpre, herr, hdec, Outcome.err?]
    · simp [hpre, herr]
  · simp [hpre]

/-- The paths through `employeeResource.Update`. -/
theorem employeeUpdate_outcomes (env : Env) (c : StarbucksClient)
    (req : UpdateRequest employeeResourceModel) (resp : CreateResponse employeeResourceModel) :
    Outcomes (DoRequest env c "PUT" ("/employees/" ++ req.Plan.ID.ValueString) (some (employeeUpdateBody req.Plan)))
      "Unable to update employee: "
      none
      (Diagnostics.HasError (Diagnostics.Append resp.Diagnostics req.PlanGetDiags))
      (Diagnostics.Append resp.Diagnostics req.PlanGetDiags) resp
      (employeeResource.Update env c req resp) := by
  unfold Outcomes employeeResource.Update
  cases hpre : Diagnostics.HasError (Diagnostics.Append resp.Diagnostics req.PlanGetDiags)
  · cases herr : (DoRequest env c "PUT" ("/employees/" ++ req.Plan.ID.ValueString) (some (employeeUpdateBody req.Plan))).err
    · simp [hpre, herr]
    · simp [hpre, herr]
  · simp [hpre]

/-- The paths through `employeeResource.Delete`. -/
theorem employeeDelete_outcomes (env : Env) (c : StarbucksClient)
    (req : DeleteRequest employeeResourceModel) (resp : CreateResponse employeeResourceModel) :
    Outcomes (DoRequest env c "DELETE" ("/employees/" ++ req.State.ID.ValueString) none)
      "Unable to delete employee: "
      none
      (Diagnostics.HasError (Diagnostics.Append resp.Diagnostics req.StateGetDiags))
      (Diagnostics.Append resp.Diagnostics req.StateGetDiags) resp
      (employeeResource.Delete env c req resp) := by
  unfold Outcomes employeeResource.Delete
  cases hpre : Diagnostics.HasError (Diagnostics.Append resp.Diagnostics req.StateGetDiags)
  · cases herr : (DoRequest env c "DELETE" ("/employees/" ++ req.State.ID.ValueString) none).err
    · simp [hpre, herr]
    · simp [hpre, herr]
  · simp [hpre]

/-- The paths through `menuItemResource.Create`. -/
theorem menuItemCreate_outcomes (env : Env) (c : StarbucksClient)
    (req : CreateRequest menuItemResourceModel) (resp : CreateResponse menuItemResourceModel) :
    Outcomes (DoRequest env c "POST" "/menu_items" (some (menuItemCreateBody req.Plan)))
      "Unable to create menu item: "
      (env.Unmarshal
        ((DoRequest env c "POST" "/menu_items" (some (menuItemCreateBody req.Plan))).body.getD [])).err?
      (Diagnostics.HasError (Diagnostics.Append resp.Diagnostics req.PlanGetDiags))
      (Diagnostics.Append resp.Diagnostics req.PlanGetDiags) resp
      (menuItemResource.Create env c req resp) := by
  unfold Outcomes menuItemResource.Create
  cases hpre : Diagnostics.HasError (Diagnostics.Append resp.Diagnostics req.PlanGetDiags)
  · cases herr : (DoRequest env c "POST" "/menu_items" (some (menuItemCreateBody req.Plan))).err
    · cases hdec : env.Unmarshal
          ((DoRequest env c "POST" "/menu_items" (some (menuItemCreateBody req.Plan))).body.getD []) <;>
        simp [hpre, herr, hdec, Outcome.err?]
    · simp [hpre, herr]
  · simp [hpre]

/-- The paths through `menuItemResource.Read`. -/
theorem menuItemRead_outcomes (env : Env) (c : StarbucksClient)
    (req : ReadRequest menuItemResourceModel) (resp : CreateResponse menuItemResourceModel) :
    Outcomes (DoRequest env c "GET" ("/menu_items/" ++ req.State.ID.ValueString) none)
      "Unable to read menu item: "
      (env.Unmarshal
        ((DoRequest env c "GET" ("/menu_items/" ++ req.State.ID.ValueString) none).body.getD [])).err?
      (Diagnostics.HasError (Diagnostics.Append resp.Diagnostics req.StateGetDiags))
      (Diagnostics.Append resp.Diagnostics req.StateGetDiags) resp
      (menuItemResource.Read env c req resp) := by
  unfold Outcomes menuItemResource.Read
  cases hpre : Diagnostics.HasError (Diagnostics.Append resp.Diagnostics req.StateGetDiags)
  · cases herr : (DoRequest env c "GET" ("/menu_items/" ++ req.State.ID.ValueString) none).err
    · cases hdec : env.Unmarshal
          ((DoRequest env c "GET" ("/menu_items/" ++ req.State.ID.ValueString) none).body.getD []) <;>
        simp [hpre, herr, hdec, Outcome.err?]
    · simp [hpre, herr]
  · simp [hpre]

/-- The paths through `menuItemResource.Update`. -/
theorem menuItemUpdate_outcomes (env : Env) (c : StarbucksClient)
    (req : UpdateRequest menuItemResourceModel) (resp : CreateResponse menuItemResourceModel) :
    Outcomes (DoRequest env c "PUT" ("/menu_items/" ++ req.Plan.ID.ValueString) (some ([("name", .str req.Plan.Name.ValueString)])))
      "Unable to update menu item: "
      none
      (Diagnostics.HasError (Diagnostics.Append resp.Diagnostics req.PlanGetDiags))
      (Diagnostics.Append resp.Diagnostics req.PlanGetDiags) resp
      (menuItemResource.Update env c req resp) := by
  unfold Outcomes menuItemResource.Update
  cases hpre : Diagnostics.HasError (Diagnostics.Append resp.Diagnostics req.PlanGetDiags)
  · cases herr : (DoRequest env c "PUT" ("/menu_items/" ++ req.Plan.ID.ValueString) (some ([("name", .str req.Plan.Name.ValueString)]))).err
    · simp [hpre, herr]
    · simp [hpre, herr]
  · simp [hpre]

/-- The paths through `menuItemResource.Delete`. -/
theorem menuItemDelete_outcomes (env : Env) (c : StarbucksClient)
    (req : DeleteRequest menuItemResourceModel) (resp : CreateResponse menuItemResourceModel) :
    Outcomes (DoRequest env c "DELETE" ("/menu_items/" ++ req.State.ID.ValueString) none)
      "Unable to delete menu item: "
      none
      (Diagnostics.HasError (Diagnostics.Append resp.Diagnostics req.StateGetDiags))
      (Diagnostics.Append resp.Diagnostics req.StateGetDiags) resp
      (menuItemResource.Delete env c req resp) := by
  unfold Outcomes menuItemResource.Delete
  cases hpre : Diagnostics.HasError (Diagnostics.Append resp.Diagnostics req.StateGetDiags)
  · cases herr : (DoRequest env c "DELETE" ("/menu_items/" ++ req.State.ID.ValueString) none).err
    · simp [hpre, herr]
    · simp [hpre, herr]
  · simp [hpre]

/-- The paths through `inventoryResource.Create`. -/
theorem inventoryCreate_outcomes (env : Env) (c : StarbucksClient)
    (req : CreateRequest inventoryResourceModel) (resp : CreateResponse inventoryResourceModel) :
    Outcomes (DoRequest env c "POST" "/inventory" (some (inventoryCreateBody req.Plan)))
      "Unable to create inventory item: "
      (env.Unmarshal
        ((DoRequest env c "POST" "/inventory" (some (inventoryCreateBody req.Plan))).body.getD [])).err?
      (Diagnostics.HasError (Diagnostics.Append resp.Diagnostics req.PlanGetDiags))
      (Diagnostics.Append resp.Diagnostics req.PlanGetDiags) resp
      (inventoryResource.Create env c req resp) := by
  unfold Outcomes inventoryResource.Create
  cases hpre : Diagnostics.HasError (Diagnostics.Append resp.Diagnostics req.PlanGetDiags)
  · cases herr : (DoRequest env c "POST" "/inventory" (some (inventoryCreateBody req.Plan))).err
    · cases hdec : env.Unmarshal
          ((DoRequest env c "POST" "/inventory" (some (inventoryCreateBody req.Plan))).body.getD []) <;>
        simp [hpre, herr, hdec, Outcome.err?]
    · simp [hpre, herr]
  · simp [hpre]

/-- The paths through `inventoryResource.Read`. -/
theorem inventoryRead_outcomes (env : Env) (c : StarbucksClient)
    (req : ReadRequest inventoryResourceModel) (resp : CreateResponse inventoryResourceModel) :
    Outcomes (DoRequest env c "GET" ("/inventory/" ++ req.State.ID.ValueString) none)
      "Unable to read inventory item: "
      (env.Unmarshal
        ((DoRequest env c "GET" ("/inventory/" ++ req.State.ID.ValueString) none).body.getD [])).err?
      (Diagnostics.HasError (Diagnostics.Append resp.Diagnostics req.StateGetDiags))
      (Diagnostics.Append resp.Diagnostics req.StateGetDiags) resp
      (inventoryResource.Read env c req resp) := by
  unfold Outcomes inventoryResource.Read
  cases hpre : Diagnostics.HasError (Diagnostics.Append resp.Diagnostics req.StateGetDiags)
  · cases herr : (DoRequest env c "GET" ("/inventory/" ++ req.State.ID.ValueString) none).err
    · cases hdec : env.Unmarshal
          ((DoRequest env c "GET" ("/inventory/" ++ req.State.ID.ValueString) none).body.getD []) <;>
        simp [hpre, herr, hdec, Outcome.err?]
    · simp [hpre, herr]
  · simp [hpre]

/-- The paths through `inventoryResource.Update`. -/
theorem inventoryUpdate_outcomes (env : Env) (c : StarbucksClient)
    (req : UpdateRequest inventoryResourceModel) (resp : CreateResponse inventoryResourceModel) :
    Outcomes (DoRequest env c "PUT" ("/inventory/" ++ req.Plan.ID.ValueString) (some ([("quantity", .int64 req.Plan.Quantity.ValueInt64)])))
      "Unable to update inventory item: "
      none
      (Diagnostics.HasError (Diagnostics.Append resp.Diagnostics req.PlanGetDiags))
      (Diagnostics.Append resp.Diagnostics req.PlanGetDiags) resp
      (inventoryResource.Update env c req resp) := by
  unfold Outcomes inventoryResource.Update
  cases hpre : Diagnostics.HasError (Diagnostics.Append resp.Diagnostics req.PlanGetDiags)
  · cases herr : (DoRequest env c "PUT" ("/inventory/" ++ req.Plan.ID.ValueString) (some ([("quantity", .int64 req.Plan.Quantity.ValueInt64)]))).err
    · simp [hpre, herr]
    · simp [hpre, herr]
  · simp [hpre]

/-- The paths through `inventoryResource.Delete`. -/
theorem inventoryDelete_outcomes (env : Env) (c : StarbucksClient)
    (req : DeleteRequest inventoryResourceModel) (resp : CreateResponse inventoryResourceModel) :
    Outcomes (DoRequest env c "DELETE" ("/inventory/" ++ req.State.ID.ValueString) none)
      "Unable to delete inventory item: "
      none
      (Diagnostics.HasError (Diagnostics.Append resp.Diagnostics req.StateGetDiags))
      (Diagnostics.Append resp.Diagnostics req.StateGetDiags) resp
      (inventoryResource.Delete env c req resp) := by
  unfold Outcomes inventoryResource.Delete
  cases hpre : Diagnostics.HasError (Diagnostics.Append resp.Diagnostics req.StateGetDiags)
  · cases herr : (DoRequest env c "DELETE" ("/inventory/" ++ req.State.ID.ValueString) none).err
    · simp [hpre, herr]
    · simp [hpre, herr]
  · simp [hpre]

/-- The paths through `promotionResource.Create`. -/
theorem promotionCreate_outcomes (env : Env) (c : StarbucksClient)
    (req : CreateRequest promotionResourceModel) (resp : CreateResponse promotionResourceModel) :
    Outcomes (DoRequest env c "POST" "/promotions" (some (promotionCreateBody req.Plan)))
      "Unable to create promotion: "
      (env.Unmarshal
        ((DoRequest env c "POST" "/promotions" (some (promotionCreateBody req.Plan))).body.getD [])).err?
      (Diagnostics.HasError (Diagnostics.Append resp.Diagnostics req.PlanGetDiags))
      (Diagnostics.Append resp.Diagnostics req.PlanGetDiags) resp
      (promotionResource.Create env c req resp) := by
  unfold Outcomes promotionResource.Create
  cases hpre : Diagnostics.HasError (Diagnostics.Append resp.Diagnostics req.PlanGetDiags)
  · cases herr : (DoRequest env c "POST" "/promotions" (some (promotionCreateBody req.Plan))).err
    · cases hdec : env.Unmarshal
          ((DoRequest env c "POST" "/promotions" (some (promotionCreateBody req.Plan))).body.getD []) <;>
        simp [hpre, herr, hdec, Outcome.err?]
    · simp [hpre, herr]
  · simp [hpre]

/-- The paths through `promotionResource.Read`. -/
theorem promotionRead_outcomes (env : Env) (c : StarbucksClient)
    (req : ReadRequest promotionResourceModel) (resp : CreateResponse promotionResourceModel) :
    Outcomes (DoRequest env c "GET" ("/promotions/" ++ req.State.ID.ValueString) none)
      "Unable to read promotion: "
      (env.Unmarshal
        ((DoRequest env c "GET" ("/promotions/" ++ req.State.ID.ValueString) none).body.getD [])).err?
      (Diagnostics.HasError (Diagnostics.Append resp.Diagnostics req.StateGetDiags))
      (Diagnostics.Append resp.Diagnostics req.StateGetDiags) resp
      (promotionResource.Read env c req resp) := by
  unfold Outcomes promotionResource.Read
  cases hpre : Diagnostics.HasError (Diagnostics.Append resp.Diagnostics req.StateGetDiags)
  · cases herr : (DoRequest env c "GET" ("/promotions/" ++ req.State.ID.ValueString) none).err
    · cases hdec : env.Unmarshal
          ((DoRequest env c "GET" ("/promotions/" ++ req.State.ID.ValueString) none).body.getD []) <;>
        simp [hpre, herr, hdec, Outcome.err?]
    · simp [hpre, herr]
  · simp [hpre]

/-- The paths through `promotionResource.Update`. -/
theorem promotionUpdate_outcomes (env : Env) (c : StarbucksClient)
    (req : UpdateRequest promotionResourceModel) (resp : CreateResponse promotionResourceModel) :
    Outcomes (DoRequest env c "PUT" ("/promotions/" ++ req.Plan.ID.ValueString) (some ([("name", .str req.Plan.Name.ValueString)])))
      "Unable to update promotion: "
      none
      (Diagnostics.HasError (Diagnostics.Append resp.Diagnostics req.PlanGetDiags))
      (Diagnostics.Append resp.Diagnostics req.PlanGetDiags) resp
      (promotionResource.Update env c req resp) := by
  unfold Outcomes promotionResource.Update
  cases hpre : Diagnostics.HasError (Diagnostics.Append resp.Diagnostics req.PlanGetDiags)
  · cases herr : (DoRequest env c "PUT" ("/promotions/" ++ req.Plan.ID.ValueString) (some ([("name", .str req.Plan.Name.ValueString)]))).err
    · simp [hpre, herr]
    · simp [hpre, herr]
  · simp [hpre]

/-- The paths through `promotionResource.Delete`. -/
theorem promotionDelete_outcomes (env : Env) (c : StarbucksClient)
    (req : DeleteRequest promotionResourceModel) (resp : CreateResponse promotionResourceModel) :
    Outcomes (DoRequest env c "DELETE" ("/promotions/" ++ req.State.ID.ValueString) none)
      "Unable to delete promotion: "
      none
      (Diagnostics.HasError (Diagnostics.Append resp.Diagnostics req.StateGetDiags))
      (Diagnostics.Append resp.Diagnostics req.StateGetDiags) resp
      (promotionResource.Delete env c req resp) := by
  unfold Outcomes promotionResource.Delete
  cases hpre : Diagnostics.HasError (Diagnostics.Append resp.Diagnostics req.StateGetDiags)
  · cases herr : (DoRequest env c "DELETE" ("/promotions/" ++ req.State.ID.ValueString) none).err
    · simp [hpre, herr]
    · simp [hpre, herr]
  · simp [hpre]

/-- The paths through `storeDataSource.Read`. -/
theorem storeDataSourceRead_outcomes (env : Env) (c : StarbucksClient)
    (req : DataSourceReadRequest storeDataSourceModel) (resp : CreateResponse storeDataSourceModel) :
    Outcomes (DoRequest env c "GET" ("/stores/" ++ req.Config.ID.ValueString) none)
      "Unable to read store: "
      (env.Unmarshal
        ((DoRequest env c "GET" ("/stores/" ++ req.Config.ID.ValueString) none).body.getD [])).err?
      (Diagnostics.HasError (Diagnostics.Append resp.Diagnostics req.ConfigGetDiags))
      (Diagnostics.Append resp.Diagnostics req.ConfigGetDiags) resp
      (storeDataSource.Read env c req resp) := by
  unfold Outcomes storeDataSource.Read
  cases hpre : Diagnostics.HasError (Diagnostics.Append resp.Diagnostics req.ConfigGetDiags)
  · cases herr : (DoRequest env c "GET" ("/stores/" ++ req.Config.ID.ValueString) none).err
    · cases hdec : env.Unmarshal
          ((DoRequest env c "GET" ("/stores/" ++ req.Config.ID.ValueString) none).body.getD []) <;>
        simp [hpre, herr, hdec, Outcome.err?]
    · simp [hpre, herr]
  · simp [hpre]

/-- A diagnostic is in the result of `Append` exactly when it was there before
or is one of those appended. -/
theorem mem_Append_iff (more : List Diagnostic) (ds : Diagnostics) (x : Diagnostic) :
    x ∈ Diagnostics.Append ds more ↔ x ∈ ds ∨ x ∈ more := by
  unfold Diagnostics.Append
  induction more generalizing ds with
  | nil => simp
  | cons d rest ih =>
    rw [List.foldl_cons, ih]
    by_cases h : ds.contains d = true
    · have hd : d ∈ ds := by simpa using h
      simp only [h, if_true, List.mem_cons]
      constructor
      · rintro (hx | hx)
        · exact Or.inl hx
        · exact Or.inr (Or.inr hx)
      · rintro (hx | rfl | hx)
        · exact Or.inl hx
        · exact Or.inl hd
        · exact Or.inr hx
    · simp only [h, List.mem_append, List.mem_singleton, List.mem_cons]
      simp only [Bool.false_eq_true, if_false, List.mem_append, List.mem_singleton]
      tauto

/-- The paths through `storesDataSource.Read`, which has no opening check, when
the body is not decoded into a list of stores. -/
theorem storesDataSourceRead_outcomes (env : Env) (c : StarbucksClient)
    (resp : CreateResponse storesDataSourceModel)
    (h : (DoRequest env c "GET" "/stores" none).err = none → ∀ result,
      env.UnmarshalList ((DoRequest env c "GET" "/stores" none).body.getD []) ≠ .ok result) :
    Outcomes (DoRequest env c "GET" "/stores" none)
      "Unable to list stores: "
      (env.UnmarshalList ((DoRequest env c "GET" "/stores" none).body.getD [])).err?
      false resp.Diagnostics resp
      (storesDataSource.Read env c resp) := by
  unfold Outcomes storesDataSource.Read
  cases herr : (DoRequest env c "GET" "/stores" none).err
  · cases hdec : env.UnmarshalList ((DoRequest env c "GET" "/stores" none).body.getD [])
    · exact absurd hdec (h herr _)
    · simp [herr, hdec, Outcome.err?]
  · simp [herr]

/-- The diagnostics and the state `storesDataSource.Read` leaves when the body
decodes into a list of stores: those of handing the list to `State.Set`. -/
theorem storesDataSourceRead_listed (env : Env) (c : StarbucksClient)
    (resp : CreateResponse storesDataSourceModel) (result : List JsonMap)
    (herr : (DoRequest env c "GET" "/stores" none).err = none)
    (hdec : env.UnmarshalList ((DoRequest env c "GET" "/stores" none).body.getD []) =
      .ok result) :
    storesDataSource.Read env c resp =
      (⟨if Diagnostics.HasError (env.StateSetStores result) then resp.State
          else some ⟨result⟩,
        Diagnostics.Append resp.Diagnostics (env.StateSetStores result)⟩,
       (DoRequest env c "GET" "/stores" none).calls ++
         [Call.Unmarshal ((DoRequest env c "GET" "/stores" none).body.getD [])]) := by
  unfold storesDataSource.Read
  simp [herr, hdec]

/-- C11: for each of the five resources with collection path P (`/stores`,
`/employees`, `/menu_items`, `/inventory`, `/promotions`), every request that
Create builds or sends is `POST P`, every request of Read is `GET P/id` with the
id of the prior state and no body, every request of Update is `PUT P/id` with the
id of the plan, and every request of Delete is `DELETE P/id` with the id of the
prior state and no body; a handler sends at most one request, and unless its
opening check stops it, it performs `DoRequest` on exactly that method, path and
payload. -/
theorem handlers_issue (env : Env) (c : StarbucksClient) :
    ((∀ (req : CreateRequest storeResourceModel) (resp : CreateResponse storeResourceModel),
        Issues env c "POST" "/stores"
          (some (storeCreateBody req.Plan))
          (Diagnostics.HasError (Diagnostics.Append resp.Diagnostics req.PlanGetDiags))
          (storeResource.Create env c req resp).2) ∧
      (∀ (req : ReadRequest storeResourceModel) (resp : CreateResponse storeResourceModel),
        Issues env c "GET" ("/stores/" ++ req.State.ID.ValueString)
          none
          (Diagnostics.HasError (Diagnostics.Append resp.Diagnostics req.StateGetDiags))
          (storeResource.Read env c req resp).2) ∧
      (∀ (req : UpdateRequest storeResourceModel) (resp : CreateResponse storeResourceModel),
        Issues env c "PUT" ("/stores/" ++ req.Plan.ID.ValueString)
          (some (storeUpdateBody req.Plan))
          (Diagnostics.HasError (Diagnostics.Append resp.Diagnostics req.PlanGetDiags))
          (storeResource.Update env c req resp).2) ∧
      (∀ (req : DeleteRequest storeResourceModel) (resp : CreateResponse storeResourceModel),
        Issues env c "DELETE" ("/stores/" ++ req.State.ID.ValueString)
          none
          (Diagnostics.HasError (Diagnostics.Append resp.Diagnostics req.StateGetDiags))
          (storeResource.Delete env c req resp).2)) ∧
    ((∀ (req : CreateRequest employeeResourceModel) (resp : CreateResponse employeeResourceModel),
        Issues env c "POST" "/employees"
          (some (employeeCreateBody req.Plan))
          (Diagnostics.HasError (Diagnostics.Append resp.Diagnostics req.PlanGetDiags))
          (employeeResource.Create env c req resp).2) ∧
      (∀ (req : ReadRequest employeeResourceModel) (resp : CreateResponse employeeResourceModel),
        Issues env c "GET" ("/employees/" ++ req.State.ID.ValueString)
          none
          (Diagnostics.HasError (Diagnostics.Append resp.Diagnostics req.StateGetDiags))
          (employeeResource.Read env c req resp).2) ∧
      (∀ (req : UpdateRequest employeeResourceModel) (resp : CreateResponse employeeResourceModel),
        Issues env c "PUT" ("/employees/" ++ req.Plan.ID.ValueString)
          (some (employeeUpdateBody req.Plan))
          (Diagnostics.HasError (Diagnostics.Append resp.Diagnostics req.PlanGetDiags))
          (employeeResource.Update env c req resp).2) ∧
      (∀ (req : DeleteRequest employeeResourceModel) (resp : CreateResponse employeeResourceModel),
        Issues env c "DELETE" ("/employees/" ++ req.State.ID.ValueString)
          none
          (Diagnostics.HasError (Diagnostics.Append resp.Diagnostics req.StateGetDiags))
          (employeeResource.Delete env c req resp).2)) ∧
    ((∀ (req : CreateRequest menuItemResourceModel) (resp : CreateResponse menuItemResourceModel),
        Issues env c "POST" "/menu_items"
          (some (menuItemCreateBody req.Plan))
          (Diagnostics.HasError (Diagnostics.Append resp.Diagnostics req.PlanGetDiags))
          (menuItemResource.Create env c req resp).2) ∧
      (∀ (req : ReadRequest menuItemResourceModel) (resp : CreateResponse menuItemResourceModel),
        Issues env c "GET" ("/menu_items/" ++ req.State.ID.ValueString)
          none
          (Diagnostics.HasError (Diagnostics.Append resp.Diagnostics req.StateGetDiags))
          (menuItemResource.Read env c req resp).2) ∧
      (∀ (req : UpdateRequest menuItemResourceModel) (resp : CreateResponse menuItemResourceModel),
        Issues env c "PUT" ("/menu_items/" ++ req.Plan.ID.ValueString)
          (some ([("name", .str req.Plan.Name.ValueString)]))
          (Diagnostics.HasError (Diagnostics.Append resp.Diagnostics req.PlanGetDiags))
          (menuItemResource.Update env c req resp).2) ∧
      (∀ (req : DeleteRequest menuItemResourceModel) (resp : CreateResponse menuItemResourceModel),
        Issues env c "DELETE" ("/menu_items/" ++ req.State.ID.ValueString)
          none
          (Diagnostics.HasError (Diagnostics.Append resp.Diagnostics req.StateGetDiags))
          (menuItemResource.Delete env c req resp).2)) ∧
    ((∀ (req : CreateRequest inventoryResourceModel) (resp : CreateResponse inventoryResourceModel),
        Issues env c "POST" "/inventory"
          (some (inventoryCreateBody req.Plan))
          (Diagnostics.HasError (Diagnostics.Append resp.Diagnostics req.PlanGetDiags))
          (inventoryResource.Create env c req resp).2) ∧
      (∀ (req : ReadRequest inventoryResourceModel) (resp : CreateResponse inventoryResourceModel),
        Issues env c "GET" ("/inventory/" ++ req.State.ID.ValueString)
          none
          (Diagnostics.HasError (Diagnostics.Append resp.Diagnostics req.StateGetDiags))
          (inventoryResource.Read env c req resp).2) ∧
      (∀ (req : UpdateRequest inventoryResourceModel) (resp : CreateResponse inventoryResourceModel),
        Issues env c "PUT" ("/inventory/" ++ req.Plan.ID.ValueString)
          (some ([("quantity", .int64 req.Plan.Quantity.ValueInt64)]))
          (Diagnostics.HasError (Diagnostics.Append resp.Diagnostics req.PlanGetDiags))
          (inventoryResource.Update env c req resp).2) ∧
      (∀ (req : DeleteRequest inventoryResourceModel) (resp : CreateResponse inventoryResourceModel),
        Issues env c "DELETE" ("/inventory/" ++ req.State.ID.ValueString)
          none
          (Diagnostics.HasError (Diagnostics.Append resp.Diagnostics req.StateGetDiags))
          (inventoryResource.Delete env c req resp).2)) ∧
    ((∀ (req : CreateRequest promotionResourceModel) (resp : CreateResponse promotionResourceModel),
        Issues env c "POST" "/promotions"
          (some (promotionCreateBody req.Plan))
          (Diagnostics.HasError (Diagnostics.Append resp.Diagnostics req.PlanGetDiags))
          (promotionResource.Create env c req resp).2) ∧
      (∀ (req : ReadRequest promotionResourceModel) (resp : CreateResponse promotionResourceModel),
        Issues env c "GET" ("/promotions/" ++ req.State.ID.ValueString)
          none
          (Diagnostics.HasError (Diagnostics.Append resp.Diagnostics req.StateGetDiags))
          (promotionResource.Read env c req resp).2) ∧
      (∀ (req : UpdateRequest promotionResourceModel) (resp : CreateResponse promotionResourceModel),
        Issues env c "PUT" ("/promotions/" ++ req.Plan.ID.ValueString)
          (some ([("name", .str req.Plan.Name.ValueString)]))
          (Diagnostics.HasError (Diagnostics.Append resp.Diagnostics req.PlanGetDiags))
          (promotionResource.Update env c req resp).2) ∧
      (∀ (req : DeleteRequest promotionResourceModel) (resp : CreateResponse promotionResourceModel),
        Issues env c "DELETE" ("/promotions/" ++ req.State.ID.ValueString)
          none
          (Diagnostics.HasError (Diagnostics.Append resp.Diagnostics req.StateGetDiags))
          (promotionResource.Delete env c req resp).2)) := by
  refine ⟨⟨?_, ?_, ?_, ?_⟩, ⟨?_, ?_, ?_, ?_⟩, ⟨?_, ?_, ?_, ?_⟩, ⟨?_, ?_, ?_, ?_⟩, ⟨?_, ?_, ?_, ?_⟩⟩
  · intro req resp
    exact Issues_of_Outcomes env c _ _ _ _ _ _ _ _ _ (by decide)
      (storeCreate_outcomes env c req resp)
  · intro req resp
    exact Issues_of_Outcomes env c _ _ _ _ _ _ _ _ _ (by decide)
      (storeRead_outcomes env c req resp)
  · intro req resp
    exact Issues_of_Outcomes env c _ _ _ _ _ _ _ _ _ (by decide)
      (storeUpdate_outcomes env c req resp)
  · intro req resp
    exact Issues_of_Outcomes env c _ _ _ _ _ _ _ _ _ (by decide)
      (storeDelete_outcomes env c req resp)
  · intro req resp
    exact Issues_of_Outcomes env c _ _ _ _ _ _ _ _ _ (by decide)
      (employeeCreate_outcomes env c req resp)
  · intro req resp
    exact Issues_of_Outcomes env c _ _ _ _ _ _ _ _ _ (by decide)
      (employeeRead_outcomes env c req resp)
  · intro req resp
    exact Issues_of_Outcomes env c _ _ _ _ _ _ _ _ _ (by decide)
      (employeeUpdate_outcomes env c req resp)
  · intro req resp
    exact Issues_of_Outcomes env c _ _ _ _ _ _ _ _ _ (by decide)
      (employeeDelete_outcomes env c req resp)
  · intro req resp
    exact Issues_of_Outcomes env c _ _ _ _ _ _ _ _ _ (by decide)
      (menuItemCreate_outcomes env c req resp)
  · intro req resp
    exact Issues_of_Outcomes env c _ _ _ _ _ _ _ _ _ (by decide)
      (menuItemRead_outcomes env c req resp)
  · intro req resp
    exact Issues_of_Outcomes env c _ _ _ _ _ _ _ _ _ (by decide)
      (menuItemUpdate_outcomes env c req resp)
  · intro req resp
    exact Issues_of_Outcomes env c _ _ _ _ _ _ _ _ _ (by decide)
      (menuItemDelete_outcomes env c req resp)
  · intro req resp
    exact Issues_of_Outcomes env c _ _ _ _ _ _ _ _ _ (by decide)
      (inventoryCreate_outcomes env c req resp)
  · intro req resp
    exact Issues_of_Outcomes env c _ _ _ _ _ _ _ _ _ (by decide)
      (inventoryRead_outcomes env c req resp)
  · intro req resp
    exact Issues_of_Outcomes env c _ _ _ _ _ _ _ _ _ (by decide)
      (inventoryUpdate_outcomes env c req resp)
  · intro req resp
    exact Issues_of_Outcomes env c _ _ _ _ _ _ _ _ _ (by decide)
      (inventoryDelete_outcomes env c req resp)
  · intro req resp
    exact Issues_of_Outcomes env c _ _ _ _ _ _ _ _ _ (by decide)
      (promotionCreate_outcomes env c req resp)
  · intro req resp
    exact Issues_of_Outcomes env c _ _ _ _ _ _ _ _ _ (by decide)
      (promotionRead_outcomes env c req resp)
  · intro req resp
    exact Issues_of_Outcomes env c _ _ _ _ _ _ _ _ _ (by decide)
      (promotionUpdate_outcomes env c req resp)
  · intro req resp
    exact Issues_of_Outcomes env c _ _ _ _ _ _ _ _ _ (by decide)
      (promotionDelete_outcomes env c req resp)

/-- C11 witness: deleting the store `42` sends one request, `DELETE /stores/42`
without a body. -/
theorem handlers_issue_witness :
    Call.Do sampleClient.HTTPClient { sampleRequest with Method := "DELETE" } ∈
      (storeResource.Delete foundEnv sampleClient ⟨{ samplePlan with ID := .known "42" }, []⟩
        ⟨none, []⟩).2 ∧
    ({ sampleRequest with Method := "DELETE" } : Request).Method = "DELETE" ∧
    ({ sampleRequest with Method := "DELETE" } : Request).URL =
      cutFragment (sampleClient.Endpoint ++ ("/stores/" ++ "42")) ∧
    ({ sampleRequest with Method := "DELETE" } : Request).Body = none :=
  ⟨by decide,
   (((handlers_issue foundEnv sampleClient).1.2.2.2
      ⟨{ samplePlan with ID := .known "42" }, []⟩ ⟨none, []⟩).1
      sampleClient.HTTPClient { sampleRequest with Method := "DELETE" } (by decide)).1,
   (((handlers_issue foundEnv sampleClient).1.2.2.2
      ⟨{ samplePlan with ID := .known "42" }, []⟩ ⟨none, []⟩).1
      sampleClient.HTTPClient { sampleRequest with Method := "DELETE" } (by decide)).2.1,
   (((handlers_issue foundEnv sampleClient).1.2.2.2
      ⟨{ samplePlan with ID := .known "42" }, []⟩ ⟨none, []⟩).1
      sampleClient.HTTPClient { sampleRequest with Method := "DELETE" } (by decide)).2.2 rfl⟩

/-- A handler whose opening check let it go on and whose `DoRequest` call
returned the error `e` leaves what `ClientErrorRecorded` describes. -/
theorem ClientErrorRecorded_of_Outcomes {M : Type} (r : DoResult) (words : String)
    (decodeErr : Option String) (pre : Diagnostics) (before : CreateResponse M)
    (after : CreateResponse M × List Call) (e : DoRequestError)
    (h : Outcomes r words decodeErr false pre before after) (herr : r.err = some e)
    (hcount : r.calls.countP Call.isDo ≤ 1) :
    ClientErrorRecorded words e r before after := by
  rcases h with ⟨h1, -⟩ | ⟨-, e1, he1, h2⟩ | ⟨-, hn, -⟩ | ⟨-, hn, -⟩
  · cases h1
  · rw [herr] at he1
    cases he1
    rw [h2]
    refine ⟨⟨_, mem_Append_singleton pre _, rfl, rfl, rfl, ?_⟩, HasError_AddError _ _ _, rfl,
      rfl, hcount⟩
    exact List.suffix_append _ _
  · rw [herr] at hn; cases hn
  · rw [herr] at hn; cases hn

/-- A handler whose opening check let it go on, whose `DoRequest` call returned
no error and whose decoding failed with `e` leaves what `ParseErrorRecorded`
describes. -/
theorem ParseErrorRecorded_of_Outcomes {M : Type} (r : DoResult) (words : String)
    (decodeErr : Option String) (pre : Diagnostics) (before : CreateResponse M)
    (after : CreateResponse M × List Call) (e : String)
    (h : Outcomes r words decodeErr false pre before after) (herr : r.err = none)
    (hdec : decodeErr = some e) :
    ParseErrorRecorded e r before after := by
  rcases h with ⟨h1, -⟩ | ⟨-, e1, he1, -⟩ | ⟨-, -, e1, hd, h2⟩ | ⟨-, -, hd, -⟩
  · cases h1
  · rw [herr] at he1; cases he1
  · rw [hdec] at hd
    cases hd
    rw [h2]
    exact ⟨⟨_, mem_Append_singleton pre _, rfl, rfl, rfl⟩, HasError_AddError _ _ _, rfl, rfl⟩
  · rw [hdec] at hd; cases hd

/-- A handler that follows one of the paths of `Outcomes` adds at most one
diagnostic, and which one is decided by the result of `DoRequest`. -/
theorem AddsAtMostOne_of_Outcomes {M : Type} (r : DoResult) (words : String)
    (decodeErr : Option String) (hasError : Bool) (pre : Diagnostics)
    (before : CreateResponse M) (after : CreateResponse M × List Call)
    (h : Outcomes r words decodeErr hasError pre before after) :
    AddsAtMostOne r decodeErr pre after := by
  intro d hd hnew
  rcases h with ⟨-, h2⟩ | ⟨-, e1, he1, h2⟩ | ⟨-, hn, e1, hdec, h2⟩ | ⟨-, -, -, h2, -⟩
  · rw [h2] at hd; exact absurd hd hnew
  · rw [h2] at hd ⊢
    have hd1 := (mem_Append_singleton_iff pre _ d).1 hd
    rcases hd1 with hd1 | rfl
    · exact absurd hd1 hnew
    · refine ⟨fun hs => by simp at hs, fun _ => ⟨e1, he1⟩, Or.inr rfl, ?_⟩
      intro d2 hd2 hnew2
      rcases (mem_Append_singleton_iff pre _ d2).1 hd2 with h3 | h3
      · exact absurd h3 hnew2
      · exact h3
  · rw [h2] at hd ⊢
    have hd1 := (mem_Append_singleton_iff pre _ d).1 hd
    rcases hd1 with hd1 | rfl
    · exact absurd hd1 hnew
    · refine ⟨fun _ => ⟨hn, e1, hdec⟩, fun hs => by simp at hs, Or.inl rfl, ?_⟩
      intro d2 hd2 hnew2
      rcases (mem_Append_singleton_iff pre _ d2).1 hd2 with h3 | h3
      · exact absurd h3 hnew2
      · exact h3
  · rw [h2] at hd; exact absurd hd hnew

/-- C12: in every Create, Read, Update and Delete handler of the five resources
and in both data-source Reads, when the `DoRequest` call of the handler returns
an error the handler records an error diagnostic titled `Client Error` whose
detail ends with the text of that error, leaves the state as the host supplied
it, and makes no call other than those of that one `DoRequest`, which sends at
most one request. -/
theorem handlers_client_error (env : Env) (c : StarbucksClient) (e : DoRequestError) :
    ((∀ (req : CreateRequest storeResourceModel) (resp : CreateResponse storeResourceModel),
        Decoded resp.Diagnostics req.PlanGetDiags →
        (DoRequest env c "POST" "/stores" (some (storeCreateBody req.Plan))).err = some e →
        ClientErrorRecorded "Unable to create store: " e
          (DoRequest env c "POST" "/stores" (some (storeCreateBody req.Plan)))
          resp (storeResource.Create env c req resp)) ∧
      (∀ (req : ReadRequest storeResourceModel) (resp : CreateResponse storeResourceModel),
        Decoded resp.Diagnostics req.StateGetDiags →
        (DoRequest env c "GET" ("/stores/" ++ req.State.ID.ValueString) none).err = some e →
        ClientErrorRecorded "Unable to read store: " e
          (DoRequest env c "GET" ("/stores/" ++ req.State.ID.ValueString) none)
          resp (storeResource.Read env c req resp)) ∧
      (∀ (req : UpdateRequest storeResourceModel) (resp : CreateResponse storeResourceModel),
        Decoded resp.Diagnostics req.PlanGetDiags →
        (DoRequest env c "PUT" ("/stores/" ++ req.Plan.ID.ValueString) (some (storeUpdateBody req.Plan))).err = some e →
        ClientErrorRecorded "Unable to update store: " e
          (DoRequest env c "PUT" ("/stores/" ++ req.Plan.ID.ValueString) (some (storeUpdateBody req.Plan)))
          resp (storeResource.Update env c req resp)) ∧
      (∀ (req : DeleteRequest storeResourceModel) (resp : CreateResponse storeResourceModel),
        Decoded resp.Diagnostics req.StateGetDiags →
        (DoRequest env c "DELETE" ("/stores/" ++ req.State.ID.ValueString) none).err = some e →
        ClientErrorRecorded "Unable to delete store: " e
          (DoRequest env c "DELETE" ("/stores/" ++ req.State.ID.ValueString) none)
          resp (storeResource.Delete env c req resp))) ∧
    ((∀ (req : CreateRequest employeeResourceModel) (resp : CreateResponse employeeResourceModel),
        Decoded resp.Diagnostics req.PlanGetDiags →
        (DoRequest env c "POST" "/employees" (some (employeeCreateBody req.Plan))).err = some e →
        ClientErrorRecorded "Unable to create employee: " e
          (DoRequest env c "POST" "/employees" (some (employeeCreateBody req.Plan)))
          resp (employeeResource.Create env c req resp)) ∧
      (∀ (req : ReadRequest employeeResourceModel) (resp : CreateResponse employeeResourceModel),
        Decoded resp.Diagnostics req.StateGetDiags →
        (DoRequest env c "GET" ("/employees/" ++ req.State.ID.ValueString) none).err = some e →
        ClientErrorRecorded "Unable to read employee: " e
          (DoRequest env c "GET" ("/employees/" ++ req.State.ID.ValueString) none)
          resp (employeeResource.Read env c req resp)) ∧
      (∀ (req : UpdateRequest employeeResourceModel) (resp : CreateResponse employeeResourceModel),
        Decoded resp.Diagnostics req.PlanGetDiags →
        (DoRequest env c "PUT" ("/employees/" ++ req.Plan.ID.ValueString) (some (employeeUpdateBody req.Plan))).err = some e →
        ClientErrorRecorded "Unable to update employee: " e
          (DoRequest env c "PUT" ("/employees/" ++ req.Plan.ID.ValueString) (some (employeeUpdateBody req.Plan)))
          resp (employeeResource.Update env c req resp)) ∧
      (∀ (req : DeleteRequest employeeResourceModel) (resp : CreateResponse employeeResourceModel),
        Decoded resp.Diagnostics req.StateGetDiags →
        (DoRequest env c "DELETE" ("/employees/" ++ req.State.ID.ValueString) none).err = some e →
        ClientErrorRecorded "Unable to delete employee: " e
          (DoRequest env c "DELETE" ("/employees/" ++ req.State.ID.ValueString) none)
          resp (employeeResource.Delete env c req resp))) ∧
    ((∀ (req : CreateRequest menuItemResourceModel) (resp : CreateResponse menuItemResourceModel),
        Decoded resp.Diagnostics req.PlanGetDiags →
        (DoRequest env c "POST" "/menu_items" (some (menuItemCreateBody req.Plan))).err = some e →
        ClientErrorRecorded "Unable to create menu item: " e
          (DoRequest env c "POST" "/menu_items" (some (menuItemCreateBody req.Plan)))
          resp (menuItemResource.Create env c req resp)) ∧
      (∀ (req : ReadRequest menuItemResourceModel) (resp : CreateResponse menuItemResourceModel),
        Decoded resp.Diagnostics req.StateGetDiags →
        (DoRequest env c "GET" ("/menu_items/" ++ req.State.ID.ValueString) none).err = some e →
        ClientErrorRecorded "Unable to read menu item: " e
          (DoRequest env c "GET" ("/menu_items/" ++ req.State.ID.ValueString) none)
          resp (menuItemResource.Read env c req resp)) ∧
      (∀ (req : UpdateRequest menuItemResourceModel) (resp : CreateResponse menuItemResourceModel),
        Decoded resp.Diagnostics req.PlanGetDiags →
        (DoRequest env c "PUT" ("/menu_items/" ++ req.Plan.ID.ValueString) (some ([("name", .str req.Plan.Name.ValueString)]))).err = some e →
        ClientErrorRecorded "Unable to update menu item: " e
          (DoRequest env c "PUT" ("/menu_items/" ++ req.Plan.ID.ValueString) (some ([("name", .str req.Plan.Name.ValueString)])))
          resp (menuItemResource.Update env c req resp)) ∧
      (∀ (req : DeleteRequest menuItemResourceModel) (resp : CreateResponse menuItemResourceModel),
        Decoded resp.Diagnostics req.StateGetDiags →
        (DoRequest env c "DELETE" ("/menu_items/" ++ req.State.ID.ValueString) none).err = some e →
        ClientErrorRecorded "Unable to delete menu item: " e
          (DoRequest env c "DELETE" ("/menu_items/" ++ req.State.ID.ValueString) none)
          resp (menuItemResource.Delete env c req resp))) ∧
    ((∀ (req : CreateRequest inventoryResourceModel) (resp : CreateResponse inventoryResourceModel),
        Decoded resp.Diagnostics req.PlanGetDiags →
        (DoRequest env c "POST" "/inventory" (some (inventoryCreateBody req.Plan))).err = some e →
        ClientErrorRecorded "Unable to create inventory item: " e
          (DoRequest env c "POST" "/inventory" (some (inventoryCreateBody req.Plan)))
          resp (inventoryResource.Create env c req resp)) ∧
      (∀ (req : ReadRequest inventoryResourceModel) (resp : CreateResponse inventoryResourceModel),
        Decoded resp.Diagnostics req.StateGetDiags →
        (DoRequest env c "GET" ("/inventory/" ++ req.State.ID.ValueString) none).err = some e →
        ClientErrorRecorded "Unable to read inventory item: " e
          (DoRequest env c "GET" ("/inventory/" ++ req.State.ID.ValueString) none)
          resp (inventoryResource.Read env c req resp)) ∧
      (∀ (req : UpdateRequest inventoryResourceModel) (resp : CreateResponse inventoryResourceModel),
        Decoded resp.Diagnostics req.PlanGetDiags →
        (DoRequest env c "PUT" ("/inventory/" ++ req.Plan.ID.ValueString) (some ([("quantity", .int64 req.Plan.Quantity.ValueInt64)]))).err = some e →
        ClientErrorRecorded "Unable to update inventory item: " e
          (DoRequest env c "PUT" ("/inventory/" ++ req.Plan.ID.ValueString) (some ([("quantity", .int64 req.Plan.Quantity.ValueInt64)])))
          resp (inventoryResource.Update env c req resp)) ∧
      (∀ (req : DeleteRequest inventoryResourceModel) (resp : CreateResponse inventoryResourceModel),
        Decoded resp.Diagnostics req.StateGetDiags →
        (DoRequest env c "DELETE" ("/inventory/" ++ req.State.ID.ValueString) none).err = some e →
        ClientErrorRecorded "Unable to delete inventory item: " e
          (DoRequest env c "DELETE" ("/inventory/" ++ req.State.ID.ValueString) none)
          resp (inventoryResource.Delete env c req resp))) ∧
    ((∀ (req : CreateRequest promotionResourceModel) (resp : CreateResponse promotionResourceModel),
        Decoded resp.Diagnostics req.PlanGetDiags →
        (DoRequest env c "POST" "/promotions" (some (promotionCreateBody req.Plan))).err = some e →
        ClientErrorRecorded "Unable to create promotion: " e
          (DoRequest env c "POST" "/promotions" (some (promotionCreateBody req.Plan)))
          resp (promotionResource.Create env c req resp)) ∧
      (∀ (req : ReadRequest promotionResourceModel) (resp : CreateResponse promotionResourceModel),
        Decoded resp.Diagnostics req.StateGetDiags →
        (DoRequest env c "GET" ("/promotions/" ++ req.State.ID.ValueString) none).err = some e →
        ClientErrorRecorded "Unable to read promotion: " e
          (DoRequest env c "GET" ("/promotions/" ++ req.State.ID.ValueString) none)
          resp (promotionResource.Read env c req resp)) ∧
      (∀ (req : UpdateRequest promotionResourceModel) (resp : CreateResponse promotionResourceModel),
        Decoded resp.Diagnostics req.PlanGetDiags →
        (DoRequest env c "PUT" ("/promotions/" ++ req.Plan.ID.ValueString) (some ([("name", .str req.Plan.Name.ValueString)]))).err = some e →
        ClientErrorRecorded "Unable to update promotion: " e
          (DoRequest env c "PUT" ("/promotions/" ++ req.Plan.ID.ValueString) (some ([("name", .str req.Plan.Name.ValueString)])))
          resp (promotionResource.Update env c req resp)) ∧
      (∀ (req : DeleteRequest promotionResourceModel) (resp : CreateResponse promotionResourceModel),
        Decoded resp.Diagnostics req.StateGetDiags →
        (DoRequest env c "DELETE" ("/promotions/" ++ req.State.ID.ValueString) none).err = some e →
        ClientErrorRecorded "Unable to delete promotion: " e
          (DoRequest env c "DELETE" ("/promotions/" ++ req.State.ID.ValueString) none)
          resp (promotionResource.Delete env c req resp))) ∧
    ((∀ (req : DataSourceReadRequest storeDataSourceModel) (resp : CreateResponse storeDataSourceModel),
        Decoded resp.Diagnostics req.ConfigGetDiags →
        (DoRequest env c "GET" ("/stores/" ++ req.Config.ID.ValueString) none).err = some e →
        ClientErrorRecorded "Unable to read store: " e
          (DoRequest env c "GET" ("/stores/" ++ req.Config.ID.ValueString) none)
          resp (storeDataSource.Read env c req resp)) ∧
      (∀ (resp : CreateResponse storesDataSourceModel),
        (DoRequest env c "GET" "/stores" none).err = some e →
        ClientErrorRecorded "Unable to list stores: " e
          (DoRequest env c "GET" "/stores" none)
          resp (storesDataSource.Read env c resp))) := by
  refine ⟨⟨?_, ?_, ?_, ?_⟩, ⟨?_, ?_, ?_, ?_⟩, ⟨?_, ?_, ?_, ?_⟩, ⟨?_, ?_, ?_, ?_⟩, ⟨?_, ?_, ?_, ?_⟩, ⟨?_, ?_⟩⟩
  · intro req resp hpre herr
    have h := storeCreate_outcomes env c req resp
    unfold Decoded at hpre
    rw [hpre] at h
    exact ClientErrorRecorded_of_Outcomes _ _ _ _ _ _ _ h herr (DoRequest_countP_isDo _ _ _ _ _)
  · intro req resp hpre herr
    have h := storeRead_outcomes env c req resp
    unfold Decoded at hpre
    rw [hpre] at h
    exact ClientErrorRecorded_of_Outcomes _ _ _ _ _ _ _ h herr (DoRequest_countP_isDo _ _ _ _ _)
  · intro req resp hpre herr
    have h := storeUpdate_outcomes env c req resp
    unfold Decoded at hpre
    rw [hpre] at h
    exact ClientErrorRecorded_of_Outcomes _ _ _ _ _ _ _ h herr (DoRequest_countP_isDo _ _ _ _ _)
  · intro req resp hpre herr
    have h := storeDelete_outcomes env c req resp
    unfold Decoded at hpre
    rw [hpre] at h
    exact ClientErrorRecorded_of_Outcomes _ _ _ _ _ _ _ h herr (DoRequest_countP_isDo _ _ _ _ _)
  · intro req resp hpre herr
    have h := employeeCreate_outcomes env c req resp
    unfold Decoded at hpre
    rw [hpre] at h
    exact ClientErrorRecorded_of_Outcomes _ _ _ _ _ _ _ h herr (DoRequest_countP_isDo _ _ _ _ _)
  · intro req resp hpre herr
    have h := employeeRead_outcomes env c req resp
    unfold Decoded at hpre
    rw [hpre] at h
    exact ClientErrorRecorded_of_Outcomes _ _ _ _ _ _ _ h herr (DoRequest_countP_isDo _ _ _ _ _)
  · intro req resp hpre herr
    have h := employeeUpdate_outcomes env c req resp
    unfold Decoded at hpre
    rw [hpre] at h
    exact ClientErrorRecorded_of_Outcomes _ _ _ _ _ _ _ h herr (DoRequest_countP_isDo _ _ _ _ _)
  · intro req resp hpre herr
    have h := employeeDelete_outcomes env c req resp
    unfold Decoded at hpre
    rw [hpre] at h
    exact ClientErrorRecorded_of_Outcomes _ _ _ _ _ _ _ h herr (DoRequest_countP_isDo _ _ _ _ _)
  · intro req resp hpre herr
    have h := menuItemCreate_outcomes env c req resp
    unfold Decoded at hpre
    rw [hpre] at h
    exact ClientErrorRecorded_of_Outcomes _ _ _ _ _ _ _ h herr (DoRequest_countP_isDo _ _ _ _ _)
  · intro req resp hpre herr
    have h := menuItemRead_outcomes env c req resp
    unfold Decoded at hpre
    rw [hpre] at h
    exact ClientErrorRecorded_of_Outcomes _ _ _ _ _ _ _ h herr (DoRequest_countP_isDo _ _ _ _ _)
  · intro req resp hpre herr
    have h := menuItemUpdate_outcomes env c req resp
    unfold Decoded at hpre
    rw [hpre] at h
    exact ClientErrorRecorded_of_Outcomes _ _ _ _ _ _ _ h herr (DoRequest_countP_isDo _ _ _ _ _)
  · intro req resp hpre herr
    have h := menuItemDelete_outcomes env c req resp
    unfold Decoded at hpre
    rw [hpre] at h
    exact ClientErrorRecorded_of_Outcomes _ _ _ _ _ _ _ h herr (DoRequest_countP_isDo _ _ _ _ _)
  · intro req resp hpre herr
    have h := inventoryCreate_outcomes env c req resp
    unfold Decoded at hpre
    rw [hpre] at h
    exact ClientErrorRecorded_of_Outcomes _ _ _ _ _ _ _ h herr (DoRequest_countP_isDo _ _ _ _ _)
  · intro req resp hpre herr
    have h := inventoryRead_outcomes env c req resp
    unfold Decoded at hpre
    rw [hpre] at h
    exact ClientErrorRecorded_of_Outcomes _ _ _ _ _ _ _ h herr (DoRequest_countP_isDo _ _ _ _ _)
  · intro req resp hpre herr
    have h := inventoryUpdate_outcomes env c req resp
    unfold Decoded at hpre
    rw [hpre] at h
    exact ClientErrorRecorded_of_Outcomes _ _ _ _ _ _ _ h herr (DoRequest_countP_isDo _ _ _ _ _)
  · intro req resp hpre herr
    have h := inventoryDelete_outcomes env c req resp
    unfold Decoded at hpre
    rw [hpre] at h
    exact ClientErrorRecorded_of_Outcomes _ _ _ _ _ _ _ h herr (DoRequest_countP_isDo _ _ _ _ _)
  · intro req resp hpre herr
    have h := promotionCreate_outcomes env c req resp
    unfold Decoded at hpre
    rw [hpre] at h
    exact ClientErrorRecorded_of_Outcomes _ _ _ _ _ _ _ h herr (DoRequest_countP_isDo _ _ _ _ _)
  · intro req resp hpre herr
    have h := promotionRead_outcomes env c req resp
    unfold Decoded at hpre
    rw [hpre] at h
    exact ClientErrorRecorded_of_Outcomes _ _ _ _ _ _ _ h herr (DoRequest_countP_isDo _ _ _ _ _)
  · intro req resp hpre herr
    have h := promotionUpdate_outcomes env c req resp
    unfold Decoded at hpre
    rw [hpre] at h
    exact ClientErrorRecorded_of_Outcomes _ _ _ _ _ _ _ h herr (DoRequest_countP_isDo _ _ _ _ _)
  · intro req resp hpre herr
    have h := promotionDelete_outcomes env c req resp
    unfold Decoded at hpre
    rw [hpre] at h
    exact ClientErrorRecorded_of_Outcomes _ _ _ _ _ _ _ h herr (DoRequest_countP_isDo _ _ _ _ _)
  · intro req resp hpre herr
    have h := storeDataSourceRead_outcomes env c req resp
    unfold Decoded at hpre
    rw [hpre] at h
    exact ClientErrorRecorded_of_Outcomes _ _ _ _ _ _ _ h herr (DoRequest_countP_isDo _ _ _ _ _)
  · intro resp herr
    exact ClientErrorRecorded_of_Outcomes _ _ _ _ _ _ _
      (storesDataSourceRead_outcomes env c resp (fun hn => by rw [herr] at hn; cases hn))
      herr (DoRequest_countP_isDo _ _ _ _ _)

/-- C12 witness: reading the store `42` from a server that answers 404 records the
client error that carries the status and the body, and leaves the state. -/
theorem handlers_client_error_witness :
    Decoded [] [] ∧
    (DoRequest notFoundEnv sampleClient "GET" ("/stores/" ++ sampleState.ID.ValueString)
      none).err = some notFoundError ∧
    ClientErrorRecorded "Unable to read store: " notFoundError
      (DoRequest notFoundEnv sampleClient "GET" ("/stores/" ++ sampleState.ID.ValueString) none)
      ⟨some sampleState, []⟩
      (storeResource.Read notFoundEnv sampleClient ⟨sampleState, []⟩ ⟨some sampleState, []⟩) ∧
    (storeResource.Read notFoundEnv sampleClient ⟨sampleState, []⟩
      ⟨some sampleState, []⟩).1.Diagnostics =
      [⟨.Error, "Client Error",
        utf8 "Unable to read store: API error (status 404): \x7b\"error\":\"not found\"\x7d"⟩] :=
  ⟨rfl, by decide,
   (handlers_client_error notFoundEnv sampleClient notFoundError).1.2.1
     ⟨sampleState, []⟩ ⟨some sampleState, []⟩ rfl (by decide),
   by decide⟩

/-- C13: in every Create and Read handler of the five resources and in both
data-source Reads, when the `DoRequest` call returned no error and the body does
not decode (as an object, or as a list of objects for the list of stores), the
handler records an error diagnostic titled `Parse Error`, leaves the state as the
host supplied it, and calls nothing after the decoder. In every run a handler of
a resource or of the one store adds at most one diagnostic: one titled
`Parse Error` only when `DoRequest` returned no error and the decoding failed,
one titled `Client Error` only when `DoRequest` returned an error, so never
both. The Read of the list of stores adds the one `Client Error` when
`DoRequest` returned an error, and when the body decodes it adds the diagnostics
of `State.Set` on the list and writes the list only when they hold no error;
as long as `State.Set` titles none of its diagnostics `Parse Error` or
`Client Error`, a diagnostic so titled is added only when the decoding failed
after a successful `DoRequest`, or when `DoRequest` returned an error. -/
theorem handlers_parse_error (env : Env) (c : StarbucksClient) :
    ((∀ (req : CreateRequest storeResourceModel) (resp : CreateResponse storeResourceModel) (e : String),
        Decoded resp.Diagnostics req.PlanGetDiags →
        (DoRequest env c "POST" "/stores" (some (storeCreateBody req.Plan))).err = none →
        env.Unmarshal
          ((DoRequest env c "POST" "/stores" (some (storeCreateBody req.Plan))).body.getD []) = .error e →
        ParseErrorRecorded e
          (DoRequest env c "POST" "/stores" (some (storeCreateBody req.Plan)))
          resp (storeResource.Create env c req resp)) ∧
      (∀ (req : CreateRequest storeResourceModel) (resp : CreateResponse storeResourceModel),
        AddsAtMostOne
          (DoRequest env c "POST" "/stores" (some (storeCreateBody req.Plan)))
          (env.Unmarshal
            ((DoRequest env c "POST" "/stores" (some (storeCreateBody req.Plan))).body.getD [])).err?
          (Diagnostics.Append resp.Diagnostics req.PlanGetDiags)
          (storeResource.Create env c req resp)) ∧
      (∀ (req : ReadRequest storeResourceModel) (resp : CreateResponse storeResourceModel) (e : String),
        Decoded resp.Diagnostics req.StateGetDiags →
        (DoRequest env c "GET" ("/stores/" ++ req.State.ID.ValueString) none).err = none →
        env.Unmarshal
          ((DoRequest env c "GET" ("/stores/" ++ req.State.ID.ValueString) none).body.getD []) = .error e →
        ParseErrorRecorded e
          (DoRequest env c "GET" ("/stores/" ++ req.State.ID.ValueString) none)
          resp (storeResource.Read env c req resp)) ∧
      (∀ (req : ReadRequest storeResourceModel) (resp : CreateResponse storeResourceModel),
        AddsAtMostOne
          (DoRequest env c "GET" ("/stores/" ++ req.State.ID.ValueString) none)
          (env.Unmarshal
            ((DoRequest env c "GET" ("/stores/" ++ req.State.ID.ValueString) none).body.getD [])).err?
          (Diagnostics.Append resp.Diagnostics req.StateGetDiags)
          (storeResource.Read env c req resp))) ∧
    ((∀ (req : CreateRequest employeeResourceModel) (resp : CreateResponse employeeResourceModel) (e : String),
        Decoded resp.Diagnostics req.PlanGetDiags →
        (DoRequest env c "POST" "/employees" (some (employeeCreateBody req.Plan))).err = none →
        env.Unmarshal
          ((DoRequest env c "POST" "/employees" (some (employeeCreateBody req.Plan))).body.getD []) = .error e →
        ParseErrorRecorded e
          (DoRequest env c "POST" "/employees" (some (employeeCreateBody req.Plan)))
          resp (employeeResource.Create env c req resp)) ∧
      (∀ (req : CreateRequest employeeResourceModel) (resp : CreateResponse employeeResourceModel),
        AddsAtMostOne
          (DoRequest env c "POST" "/employees" (some (employeeCreateBody req.Plan)))
          (env.Unmarshal
            ((DoRequest env c "POST" "/employees" (some (employeeCreateBody req.Plan))).body.getD [])).err?
          (Diagnostics.Append resp.Diagnostics req.PlanGetDiags)
          (employeeResource.Create env c req resp)) ∧
      (∀ (req : ReadRequest employeeResourceModel) (resp : CreateResponse employeeResourceModel) (e : String),
        Decoded resp.Diagnostics req.StateGetDiags →
        (DoRequest env c "GET" ("/employees/" ++ req.State.ID.ValueString) none).err = none →
        env.Unmarshal
          ((DoRequest env c "GET" ("/employees/" ++ req.State.ID.ValueString) none).body.getD []) = .error e →
        ParseErrorRecorded e
          (DoRequest env c "GET" ("/employees/" ++ req.State.ID.ValueString) none)
          resp (employeeResource.Read env c req resp)) ∧
      (∀ (req : ReadRequest employeeResourceModel) (resp : CreateResponse employeeResourceModel),
        AddsAtMostOne
          (DoRequest env c "GET" ("/employees/" ++ req.State.ID.ValueString) none)
          (env.Unmarshal
            ((DoRequest env c "GET" ("/employees/" ++ req.State.ID.ValueString) none).body.getD [])).err?
          (Diagnostics.Append resp.Diagnostics req.StateGetDiags)
          (employeeResource.Read env c req resp))) ∧
    ((∀ (req : CreateRequest menuItemResourceModel) (resp : CreateResponse menuItemResourceModel) (e : String),
        Decoded resp.Diagnostics req.PlanGetDiags →
        (DoRequest env c "POST" "/menu_items" (some (menuItemCreateBody req.Plan))).err = none →
        env.Unmarshal
          ((DoRequest env c "POST" "/menu_items" (some (menuItemCreateBody req.Plan))).body.getD []) = .error e →
        ParseErrorRecorded e
          (DoRequest env c "POST" "/menu_items" (some (menuItemCreateBody req.Plan)))
          resp (menuItemResource.Create env c req resp)) ∧
      (∀ (req : CreateRequest menuItemResourceModel) (resp : CreateResponse menuItemResourceModel),
        AddsAtMostOne
          (DoRequest env c "POST" "/menu_items" (some (menuItemCreateBody req.Plan)))
          (env.Unmarshal
            ((DoRequest env c "POST" "/menu_items" (some (menuItemCreateBody req.Plan))).body.getD [])).err?
          (Diagnostics.Append resp.Diagnostics req.PlanGetDiags)
          (menuItemResource.Create env c req resp)) ∧
      (∀ (req : ReadRequest menuItemResourceModel) (resp : CreateResponse menuItemResourceModel) (e : String),
        Decoded resp.Diagnostics req.StateGetDiags →
        (DoRequest env c "GET" ("/menu_items/" ++ req.State.ID.ValueString) none).err = none →
        env.Unmarshal
          ((DoRequest env c "GET" ("/menu_items/" ++ req.State.ID.ValueString) none).body.getD []) = .error e →
        ParseErrorRecorded e
          (DoRequest env c "GET" ("/menu_items/" ++ req.State.ID.ValueString) none)
          resp (menuItemResource.Read env c req resp)) ∧
      (∀ (req : ReadRequest menuItemResourceModel) (resp : CreateResponse menuItemResourceModel),
        AddsAtMostOne
          (DoRequest env c "GET" ("/menu_items/" ++ req.State.ID.ValueString) none)
          (env.Unmarshal
            ((DoRequest env c "GET" ("/menu_items/" ++ req.State.ID.ValueString) none).body.getD [])).err?
          (Diagnostics.Append resp.Diagnostics req.StateGetDiags)
          (menuItemResource.Read env c req resp))) ∧
    ((∀ (req : CreateRequest inventoryResourceModel) (resp : CreateResponse inventoryResourceModel) (e : String),
        Decoded resp.Diagnostics req.PlanGetDiags →
        (DoRequest env c "POST" "/inventory" (some (inventoryCreateBody req.Plan))).err = none →
        env.Unmarshal
          ((DoRequest env c "POST" "/inventory" (some (inventoryCreateBody req.Plan))).body.getD []) = .error e →
        ParseErrorRecorded e
          (DoRequest env c "POST" "/inventory" (some (inventoryCreateBody req.Plan)))
          resp (inventoryResource.Create env c req resp)) ∧
      (∀ (req : CreateRequest inventoryResourceModel) (resp : CreateResponse inventoryResourceModel),
        AddsAtMostOne
          (DoRequest env c "POST" "/inventory" (some (inventoryCreateBody req.Plan)))
          (env.Unmarshal
            ((DoRequest env c "POST" "/inventory" (some (inventoryCreateBody req.Plan))).body.getD [])).err?
          (Diagnostics.Append resp.Diagnostics req.PlanGetDiags)
          (inventoryResource.Create env c req resp)) ∧
      (∀ (req : ReadRequest inventoryResourceModel) (resp : CreateResponse inventoryResourceModel) (e : String),
        Decoded resp.Diagnostics req.StateGetDiags →
        (DoRequest env c "GET" ("/inventory/" ++ req.State.ID.ValueString) none).err = none →
        env.Unmarshal
          ((DoRequest env c "GET" ("/inventory/" ++ req.State.ID.ValueString) none).body.getD []) = .error e →
        ParseErrorRecorded e
          (DoRequest env c "GET" ("/inventory/" ++ req.State.ID.ValueString) none)
          resp (inventoryResource.Read env c req resp)) ∧
      (∀ (req : ReadRequest inventoryResourceModel) (resp : CreateResponse inventoryResourceModel),
        AddsAtMostOne
          (DoRequest env c "GET" ("/inventory/" ++ req.State.ID.ValueString) none)
          (env.Unmarshal
            ((DoRequest env c "GET" ("/inventory/" ++ req.State.ID.ValueString) none).body.getD [])).err?
          (Diagnostics.Append resp.Diagnostics req.StateGetDiags)
          (inventoryResource.Read env c req resp))) ∧
    ((∀ (req : CreateRequest promotionResourceModel) (resp : CreateResponse promotionResourceModel) (e : String),
        Decoded resp.Diagnostics req.PlanGetDiags →
        (DoRequest env c "POST" "/promotions" (some (promotionCreateBody req.Plan))).err = none →
        env.Unmarshal
          ((DoRequest env c "POST" "/promotions" (some (promotionCreateBody req.Plan))).body.getD []) = .error e →
        ParseErrorRecorded e
          (DoRequest env c "POST" "/promotions" (some (promotionCreateBody req.Plan)))
          resp (promotionResource.Create env c req resp)) ∧
      (∀ (req : CreateRequest promotionResourceModel) (resp : CreateResponse promotionResourceModel),
        AddsAtMostOne
          (DoRequest env c "POST" "/promotions" (some (promotionCreateBody req.Plan)))
          (env.Unmarshal
            ((DoRequest env c "POST" "/promotions" (some (promotionCreateBody req.Plan))).body.getD [])).err?
          (Diagnostics.Append resp.Diagnostics req.PlanGetDiags)
          (promotionResource.Create env c req resp)) ∧
      (∀ (req : ReadRequest promotionResourceModel) (resp : CreateResponse promotionResourceModel) (e : String),
        Decoded resp.Diagnostics req.StateGetDiags →
        (DoRequest env c "GET" ("/promotions/" ++ req.State.ID.ValueString) none).err = none →
        env.Unmarshal
          ((DoRequest env c "GET" ("/promotions/" ++ req.State.ID.ValueString) none).body.getD []) = .error e →
        ParseErrorRecorded e
          (DoRequest env c "GET" ("/promotions/" ++ req.State.ID.ValueString) none)
          resp (promotionResource.Read env c req resp)) ∧
      (∀ (req : ReadRequest promotionResourceModel) (resp : CreateResponse promotionResourceModel),
        AddsAtMostOne
          (DoRequest env c "GET" ("/promotions/" ++ req.State.ID.ValueString) none)
          (env.Unmarshal
            ((DoRequest env c "GET" ("/promotions/" ++ req.State.ID.ValueString) none).body.getD [])).err?
          (Diagnostics.Append resp.Diagnostics req.StateGetDiags)
          (promotionResource.Read env c req resp))) ∧
    ((∀ (req : DataSourceReadRequest storeDataSourceModel) (resp : CreateResponse storeDataSourceModel) (e : String),
        Decoded resp.Diagnostics req.ConfigGetDiags →
        (DoRequest env c "GET" ("/stores/" ++ req.Config.ID.ValueString) none).err = none →
        env.Unmarshal
          ((DoRequest env c "GET" ("/stores/" ++ req.Config.ID.ValueString) none).body.getD []) = .error e →
        ParseErrorRecorded e
          (DoRequest env c "GET" ("/stores/" ++ req.Config.ID.ValueString) none)
          resp (storeDataSource.Read env c req resp)) ∧
      (∀ (req : DataSourceReadRequest storeDataSourceModel) (resp : CreateResponse storeDataSourceModel),
        AddsAtMostOne
          (DoRequest env c "GET" ("/stores/" ++ req.Config.ID.ValueString) none)
          (env.Unmarshal
            ((DoRequest env c "GET" ("/stores/" ++ req.Config.ID.ValueString) none).body.getD [])).err?
          (Diagnostics.Append resp.Diagnostics req.ConfigGetDiags)
          (storeDataSource.Read env c req resp)) ∧
      (∀ (resp : CreateResponse storesDataSourceModel) (e : String),
        (DoRequest env c "GET" "/stores" none).err = none →
        env.UnmarshalList ((DoRequest env c "GET" "/stores" none).body.getD []) = .error e →
        ParseErrorRecorded e (DoRequest env c "GET" "/stores" none)
          resp (storesDataSource.Read env c resp)) ∧
      (∀ (resp : CreateResponse storesDataSourceModel),
        (∀ e, (DoRequest env c "GET" "/stores" none).err = some e →
          (storesDataSource.Read env c resp).1.Diagnostics =
            Diagnostics.AddError resp.Diagnostics "Client Error"
              (utf8 "Unable to list stores: " ++ e.Error)) ∧
        ((DoRequest env c "GET" "/stores" none).err = none → ∀ result,
          env.UnmarshalList ((DoRequest env c "GET" "/stores" none).body.getD []) =
            .ok result →
          (storesDataSource.Read env c resp).1.Diagnostics =
            Diagnostics.Append resp.Diagnostics (env.StateSetStores result) ∧
          (storesDataSource.Read env c resp).1.State =
            if Diagnostics.HasError (env.StateSetStores result) then resp.State
            else some ⟨result⟩) ∧
        ((∀ result, ∀ d ∈ env.StateSetStores result,
            d.Summary ≠ "Parse Error" ∧ d.Summary ≠ "Client Error") →
          ∀ d ∈ (storesDataSource.Read env c resp).1.Diagnostics, d ∉ resp.Diagnostics →
            (d.Summary = "Parse Error" →
              (DoRequest env c "GET" "/stores" none).err = none ∧
              ∃ e, env.UnmarshalList
                ((DoRequest env c "GET" "/stores" none).body.getD []) = .error e) ∧
            (d.Summary = "Client Error" →
              ∃ e, (DoRequest env c "GET" "/stores" none).err = some e)))) := by
  refine ⟨⟨?_, ?_, ?_, ?_⟩, ⟨?_, ?_, ?_, ?_⟩, ⟨?_, ?_, ?_, ?_⟩, ⟨?_, ?_, ?_, ?_⟩, ⟨?_, ?_, ?_, ?_⟩, ⟨?_, ?_, ?_, ?_⟩⟩
  · intro req resp e hpre herr hdec
    have h := storeCreate_outcomes env c req resp
    unfold Decoded at hpre
    rw [hpre] at h
    exact ParseErrorRecorded_of_Outcomes _ _ _ _ _ _ _ h herr (by rw [hdec]; rfl)
  · intro req resp
    exact AddsAtMostOne_of_Outcomes _ _ _ _ _ _ _ (storeCreate_outcomes env c req resp)
  · intro req resp e hpre herr hdec
    have h := storeRead_outcomes env c req resp
    unfold Decoded at hpre
    rw [hpre] at h
    exact ParseErrorRecorded_of_Outcomes _ _ _ _ _ _ _ h herr (by rw [hdec]; rfl)
  · intro req resp
    exact AddsAtMostOne_of_Outcomes _ _ _ _ _ _ _ (storeRead_outcomes env c req resp)
  · intro req resp e hpre herr hdec
    have h := employeeCreate_outcomes env c req resp
    unfold Decoded at hpre
    rw [hpre] at h
    exact ParseErrorRecorded_of_Outcomes _ _ _ _ _ _ _ h herr (by rw [hdec]; rfl)
  · intro req resp
    exact AddsAtMostOne_of_Outcomes _ _ _ _ _ _ _ (employeeCreate_outcomes env c req resp)
  · intro req resp e hpre herr hdec
    have h := employeeRead_outcomes env c req resp
    unfold Decoded at hpre
    rw [hpre] at h
    exact ParseErrorRecorded_of_Outcomes _ _ _ _ _ _ _ h herr (by rw [hdec]; rfl)
  · intro req resp
    exact AddsAtMostOne_of_Outcomes _ _ _ _ _ _ _ (employeeRead_outcomes env c req resp)
  · intro req resp e hpre herr hdec
    have h := menuItemCreate_outcomes env c req resp
    unfold Decoded at hpre
    rw [hpre] at h
    exact ParseErrorRecorded_of_Outcomes _ _ _ _ _ _ _ h herr (by rw [hdec]; rfl)
  · intro req resp
    exact AddsAtMostOne_of_Outcomes _ _ _ _ _ _ _ (menuItemCreate_outcomes env c req resp)
  · intro req resp e hpre herr hdec
    have h := menuItemRead_outcomes env c req resp
    unfold Decoded at hpre
    rw [hpre] at h
    exact ParseErrorRecorded_of_Outcomes _ _ _ _ _ _ _ h herr (by rw [hdec]; rfl)
  · intro req resp
    exact AddsAtMostOne_of_Outcomes _ _ _ _ _ _ _ (menuItemRead_outcomes env c req resp)
  · intro req resp e hpre herr hdec
    have h := inventoryCreate_outcomes env c req resp
    unfold Decoded at hpre
    rw [hpre] at h
    exact ParseErrorRecorded_of_Outcomes _ _ _ _ _ _ _ h herr (by rw [hdec]; rfl)
  · intro req resp
    exact AddsAtMostOne_of_Outcomes _ _ _ _ _ _ _ (inventoryCreate_outcomes env c req resp)
  · intro req resp e hpre herr hdec
    have h := inventoryRead_outcomes env c req resp
    unfold Decoded at hpre
    rw [hpre] at h
    exact ParseErrorRecorded_of_Outcomes _ _ _ _ _ _ _ h herr (by rw [hdec]; rfl)
  · intro req resp
    exact AddsAtMostOne_of_Outcomes _ _ _ _ _ _ _ (inventoryRead_outcomes env c req resp)
  · intro req resp e hpre herr hdec
    have h := promotionCreate_outcomes env c req resp
    unfold Decoded at hpre
    rw [hpre] at h
    exact ParseErrorRecorded_of_Outcomes _ _ _ _ _ _ _ h herr (by rw [hdec]; rfl)
  · intro req resp
    exact AddsAtMostOne_of_Outcomes _ _ _ _ _ _ _ (promotionCreate_outcomes env c req resp)
  · intro req resp e hpre herr hdec
    have h := promotionRead_outcomes env c req resp
    unfold Decoded at hpre
    rw [hpre] at h
    exact ParseErrorRecorded_of_Outcomes _ _ _ _ _ _ _ h herr (by rw [hdec]; rfl)
  · intro req resp
    exact AddsAtMostOne_of_Outcomes _ _ _ _ _ _ _ (promotionRead_outcomes env c req resp)
  · intro req resp e hpre herr hdec
    have h := storeDataSourceRead_outcomes env c req resp
    unfold Decoded at hpre
    rw [hpre] at h
    exact ParseErrorRecorded_of_Outcomes _ _ _ _ _ _ _ h herr (by rw [hdec]; rfl)
  · intro req resp
    exact AddsAtMostOne_of_Outcomes _ _ _ _ _ _ _ (storeDataSourceRead_outcomes env c req resp)
  · intro resp e herr hdec
    exact ParseErrorRecorded_of_Outcomes _ _ _ _ _ _ _
      (storesDataSourceRead_outcomes env c resp (fun _ result hr => by rw [hdec] at hr; cases hr))
      herr (by rw [hdec]; rfl)
  · intro resp
    refine ⟨?_, ?_, ?_⟩
    · intro e herr
      simp [storesDataSource.Read, herr]
    · intro herr result hdec
      rw [storesDataSourceRead_listed env c resp result herr hdec]
      exact ⟨rfl, rfl⟩
    · intro hset d hd hnew
      cases herr : (DoRequest env c "GET" "/stores" none).err with
      | some e1 =>
        have hr : (storesDataSource.Read env c resp).1.Diagnostics =
            Diagnostics.AddError resp.Diagnostics "Client Error"
              (utf8 "Unable to list stores: " ++ e1.Error) := by
          simp [storesDataSource.Read, herr]
        rw [hr] at hd
        rcases (mem_Append_singleton_iff _ _ d).1 hd with h1 | rfl
        · exact absurd h1 hnew
        · exact ⟨fun hs => by simp at hs, fun _ => ⟨e1, rfl⟩⟩
      | none =>
        cases hdec : env.UnmarshalList ((DoRequest env c "GET" "/stores" none).body.getD []) with
        | error e1 =>
          exact ⟨fun _ => ⟨rfl, e1, rfl⟩, fun hs => by
            have hr : (storesDataSource.Read env c resp).1.Diagnostics =
                Diagnostics.AddError resp.Diagnostics "Parse Error"
                  (utf8 ("Unable to parse response: " ++ e1)) := by
              simp [storesDataSource.Read, herr, hdec]
            rw [hr] at hd
            rcases (mem_Append_singleton_iff _ _ d).1 hd with h1 | rfl
            · exact absurd h1 hnew
            · simp at hs⟩
        | ok result =>
          rw [storesDataSourceRead_listed env c resp result herr hdec] at hd
          rcases (mem_Append_iff _ _ d).1 hd with h1 | h1
          · exact absurd h1 hnew
          · have := hset result d h1
            exact ⟨fun hs => absurd hs this.1, fun hs => absurd hs this.2⟩

/-- C13 witness: reading the store `42` from a server that answers 200 with a
body that is not JSON records the parse error and leaves the state; listing
the stores from a server that answers 200 with a list of one store adds the
diagnostic of `State.Set` and writes no state. -/
theorem handlers_parse_error_witness :
    Decoded [] [] ∧
    (DoRequest garbledEnv sampleClient "GET" ("/stores/" ++ sampleState.ID.ValueString)
      none).err = none ∧
    ParseErrorRecorded "invalid character \x27<\x27 looking for beginning of value"
      (DoRequest garbledEnv sampleClient "GET" ("/stores/" ++ sampleState.ID.ValueString) none)
      ⟨some sampleState, []⟩
      (storeResource.Read garbledEnv sampleClient ⟨sampleState, []⟩ ⟨some sampleState, []⟩) ∧
    (storeResource.Read garbledEnv sampleClient ⟨sampleState, []⟩
      ⟨some sampleState, []⟩).1.Diagnostics =
      [⟨.Error, "Parse Error",
        utf8 "Unable to parse response: invalid character \x27<\x27 looking for beginning of value"⟩] ∧
    (DoRequest listedEnv sampleClient "GET" "/stores" none).err = none ∧
    listedEnv.UnmarshalList ((DoRequest listedEnv sampleClient "GET" "/stores" none).body.getD []) =
      .ok listedStores ∧
    (storesDataSource.Read listedEnv sampleClient ⟨none, []⟩).1.Diagnostics =
      [valueConversionError] ∧
    (storesDataSource.Read listedEnv sampleClient ⟨none, []⟩).1.State = none :=
  ⟨rfl, by decide,
   (handlers_parse_error garbledEnv sampleClient).1.2.2.1
     ⟨sampleState, []⟩ ⟨some sampleState, []⟩ _ rfl (by decide) rfl,
   by decide, by decide, rfl,
   ((((handlers_parse_error listedEnv sampleClient).2.2.2.2.2.2.2.2 ⟨none, []⟩).2.1
     (by decide) listedStores rfl).1).trans (by decide),
   ((((handlers_parse_error listedEnv sampleClient).2.2.2.2.2.2.2.2 ⟨none, []⟩).2.1
     (by decide) listedStores rfl).2).trans rfl⟩

/-- The decoder is never called by `DoRequest`. -/
theorem DoRequest_no_unmarshal (env : Env) (c : StarbucksClient) (method path : String)
    (body : Option Payload) (b : Bytes) :
    Call.Unmarshal b ∉ (DoRequest env c method path body).calls := by
  rcases DoRequest_cases env c method path body with ⟨p1, e, hb, -, hr⟩ | ⟨rb, t1, henc, hsent⟩
  · rw [hr]; simp
  · have ht1 : Call.Unmarshal b ∉ t1 := by
      rcases henc with ⟨-, -, rfl⟩ | ⟨p, jb, -, -, -, rfl⟩ <;> simp
    rcases hsent with ⟨e, -, hr⟩ | ⟨req0, hn, ⟨e, -, hr⟩ | ⟨resp1, hd, hrec⟩⟩
    · rw [hr]; simp [ht1]
    · rw [hr]; simp [ht1]
    · rcases hrec with ⟨e, -, hr⟩ | ⟨b, -, -, hr⟩ | ⟨b, -, -, hr⟩ <;> (rw [hr]; simp [ht1])

/-- The payload in the calls of a handler that follows one of the paths of
`Outcomes` around a `DoRequest` call with the payload `payload`. -/
theorem Sends_of_Outcomes {M : Type} (env : Env) (c : StarbucksClient) (method path : String)
    (payload : Payload) (words : String) (decodeErr : Option String) (hasError : Bool)
    (pre : Diagnostics) (before : CreateResponse M) (after : CreateResponse M × List Call)
    (h : Outcomes (DoRequest env c method path (some payload)) words decodeErr hasError pre
      before after) :
    Sends env payload after.2 := by
  have hdo : ∀ hc req, Call.Do hc req ∈ (DoRequest env c method path (some payload)).calls →
      ∃ jsonBody, env.Marshal payload = .ok jsonBody ∧ req.Body = some jsonBody := by
    intro hc req hmem
    obtain ⟨-, rb, t1, req0, henc, hn, rfl, -⟩ :=
      DoRequest_do env c method path (some payload) hc req hmem
    have h0 := NewRequest_ok env method (c.Endpoint ++ path) rb req0 hn
    rcases henc with ⟨hb, -, -⟩ | ⟨p, jb, hp, hm, rfl, -⟩
    · cases hb
    · cases hp; exact ⟨jb, hm, by rw [h0]; rfl⟩
  have hmar : ∀ p, Call.Marshal p ∈ (DoRequest env c method path (some payload)).calls →
      p = payload := by
    intro p hmem
    have := DoRequest_marshal env c method path (some payload) p hmem
    cases this; rfl
  have hcalls : after.2 = [] ∨ after.2 = (DoRequest env c method path (some payload)).calls ∨
      ∃ b, after.2 = (DoRequest env c method path (some payload)).calls ++ [Call.Unmarshal b] := by
    rcases h with ⟨-, h2⟩ | ⟨-, e, -, h2⟩ | ⟨-, -, e, -, h2⟩ | ⟨-, -, -, -, h2 | h2⟩
    · left; rw [h2]
    · right; left; rw [h2]
    · right; right; exact ⟨_, by rw [h2]⟩
    · right; left; exact h2
    · right; right; exact ⟨_, h2⟩
  rcases hcalls with h1 | h1 | ⟨b, h1⟩ <;> rw [h1]
  · exact ⟨by simp, by simp⟩
  · exact ⟨hmar, hdo⟩
  · exact ⟨fun p hp => hmar p (by simpa using hp), fun hc req hp => hdo hc req (by simpa using hp)⟩

/-- What is left by a handler that returns the plan as state, without a new
diagnostic, after the calls of its `DoRequest`. -/
theorem PlanWritten_of_eq {M : Type} (env : Env) (c : StarbucksClient) (method path : String)
    (body : Option Payload) (plan : M) (pre : Diagnostics) (after : CreateResponse M × List Call)
    (h : after = (⟨some plan, pre⟩, (DoRequest env c method path body).calls)) :
    PlanWritten plan (DoRequest env c method path body) pre after := by
  rw [h]
  exact ⟨rfl, rfl, rfl, fun b => DoRequest_no_unmarshal env c method path body b⟩

/-- C19: the Update handlers of the menu item and of the promotion encode and send
a payload whose only key is `name`, with the name of the plan, and the Update of
the inventory one whose only key is `quantity`, with the quantity of the plan.
In the Update of each of the five resources, when the `DoRequest` call returns no
error, whatever body it returns, the state written is the plan, no diagnostic is
added, and the body is never handed to the decoder. -/
theorem update_payload_and_state (env : Env) (c : StarbucksClient) :
    ((∀ (req : UpdateRequest menuItemResourceModel) (resp : CreateResponse menuItemResourceModel),
        Sends env [("name", .str req.Plan.Name.ValueString)]
          (menuItemResource.Update env c req resp).2) ∧
      (∀ (req : UpdateRequest promotionResourceModel) (resp : CreateResponse promotionResourceModel),
        Sends env [("name", .str req.Plan.Name.ValueString)]
          (promotionResource.Update env c req resp).2) ∧
      (∀ (req : UpdateRequest inventoryResourceModel) (resp : CreateResponse inventoryResourceModel),
        Sends env [("quantity", .int64 req.Plan.Quantity.ValueInt64)]
          (inventoryResource.Update env c req resp).2)) ∧
    ((∀ (req : UpdateRequest storeResourceModel) (resp : CreateResponse storeResourceModel),
        Decoded resp.Diagnostics req.PlanGetDiags →
        (DoRequest env c "PUT" ("/stores/" ++ req.Plan.ID.ValueString) (some (storeUpdateBody req.Plan))).err = none →
        PlanWritten req.Plan
          (DoRequest env c "PUT" ("/stores/" ++ req.Plan.ID.ValueString) (some (storeUpdateBody req.Plan)))
          (Diagnostics.Append resp.Diagnostics req.PlanGetDiags)
          (storeResource.Update env c req resp)) ∧
      (∀ (req : UpdateRequest employeeResourceModel) (resp : CreateResponse employeeResourceModel),
        Decoded resp.Diagnostics req.PlanGetDiags →
        (DoRequest env c "PUT" ("/employees/" ++ req.Plan.ID.ValueString) (some (employeeUpdateBody req.Plan))).err = none →
        PlanWritten req.Plan
          (DoRequest env c "PUT" ("/employees/" ++ req.Plan.ID.ValueString) (some (employeeUpdateBody req.Plan)))
          (Diagnostics.Append resp.Diagnostics req.PlanGetDiags)
          (employeeResource.Update env c req resp)) ∧
      (∀ (req : UpdateRequest menuItemResourceModel) (resp : CreateResponse menuItemResourceModel),
        Decoded resp.Diagnostics req.PlanGetDiags →
        (DoRequest env c "PUT" ("/menu_items/" ++ req.Plan.ID.ValueString) (some ([("name", .str req.Plan.Name.ValueString)]))).err = none →
        PlanWritten req.Plan
          (DoRequest env c "PUT" ("/menu_items/" ++ req.Plan.ID.ValueString) (some ([("name", .str req.Plan.Name.ValueString)])))
          (Diagnostics.Append resp.Diagnostics req.PlanGetDiags)
          (menuItemResource.Update env c req resp)) ∧
      (∀ (req : UpdateRequest inventoryResourceModel) (resp : CreateResponse inventoryResourceModel),
        Decoded resp.Diagnostics req.PlanGetDiags →
        (DoRequest env c "PUT" ("/inventory/" ++ req.Plan.ID.ValueString) (some ([("quantity", .int64 req.Plan.Quantity.ValueInt64)]))).err = none →
        PlanWritten req.Plan
          (DoRequest env c "PUT" ("/inventory/" ++ req.Plan.ID.ValueString) (some ([("quantity", .int64 req.Plan.Quantity.ValueInt64)])))
          (Diagnostics.Append resp.Diagnostics req.PlanGetDiags)
          (inventoryResource.Update env c req resp)) ∧
      (∀ (req : UpdateRequest promotionResourceModel) (resp : CreateResponse promotionResourceModel),
        Decoded resp.Diagnostics req.PlanGetDiags →
        (DoRequest env c "PUT" ("/promotions/" ++ req.Plan.ID.ValueString) (some ([("name", .str req.Plan.Name.ValueString)]))).err = none →
        PlanWritten req.Plan
          (DoRequest env c "PUT" ("/promotions/" ++ req.Plan.ID.ValueString) (some ([("name", .str req.Plan.Name.ValueString)])))
          (Diagnostics.Append resp.Diagnostics req.PlanGetDiags)
          (promotionResource.Update env c req resp))) := by
  refine ⟨⟨?_, ?_, ?_⟩, ⟨?_, ?_, ?_, ?_, ?_⟩⟩
  · intro req resp
    exact Sends_of_Outcomes env c _ _ _ _ _ _ _ _ _ (menuItemUpdate_outcomes env c req resp)
  · intro req resp
    exact Sends_of_Outcomes env c _ _ _ _ _ _ _ _ _ (promotionUpdate_outcomes env c req resp)
  · intro req resp
    exact Sends_of_Outcomes env c _ _ _ _ _ _ _ _ _ (inventoryUpdate_outcomes env c req resp)
  · intro req resp hpre herr
    unfold Decoded at hpre
    exact PlanWritten_of_eq env c _ _ _ _ _ _ (by simp [storeResource.Update, hpre, herr])
  · intro req resp hpre herr
    unfold Decoded at hpre
    exact PlanWritten_of_eq env c _ _ _ _ _ _ (by simp [employeeResource.Update, hpre, herr])
  · intro req resp hpre herr
    unfold Decoded at hpre
    exact PlanWritten_of_eq env c _ _ _ _ _ _ (by simp [menuItemResource.Update, hpre, herr])
  · intro req resp hpre herr
    unfold Decoded at hpre
    exact PlanWritten_of_eq env c _ _ _ _ _ _ (by simp [inventoryResource.Update, hpre, herr])
  · intro req resp hpre herr
    unfold Decoded at hpre
    exact PlanWritten_of_eq env c _ _ _ _ _ _ (by simp [promotionResource.Update, hpre, herr])

/-- C19 witness: updating `sampleInventory` against a server that answers 200
with another quantity writes the plan, with its quantity of seven. -/
theorem update_payload_and_state_witness :
    Decoded [] [] ∧
    (DoRequest restockedEnv sampleClient "PUT" ("/inventory/" ++ sampleInventory.ID.ValueString)
      (some [("quantity", .int64 sampleInventory.Quantity.ValueInt64)])).err = none ∧
    (inventoryResource.Update restockedEnv sampleClient ⟨sampleInventory, []⟩
      ⟨none, []⟩).1.State = some sampleInventory ∧
    Call.Marshal [("quantity", .int64 7)] ∈
      (inventoryResource.Update restockedEnv sampleClient ⟨sampleInventory, []⟩ ⟨none, []⟩).2 :=
  ⟨rfl, by decide,
   ((update_payload_and_state restockedEnv sampleClient).2.2.2.2.1
     ⟨sampleInventory, []⟩ ⟨none, []⟩ rfl (by decide)).1,
   by decide⟩

/-- C20: in the Read of each of the five resources, when the `DoRequest` call
returns no error and the body decodes, the state written is the prior state with
at most one field replaced, and no diagnostic is added: the store and the
employee take `Status` from a string `status`, the menu item `Name` from a string
`name`, the inventory `Quantity` from a numeric `quantity` converted to `int64`,
the promotion `Active` from a boolean `active`; every other field, `ID`
included, keeps its prior value, and when the response lacks the field or holds
it with another type the state written is the prior state. -/
theorem reads_frame (env : Env) (c : StarbucksClient) (result : JsonMap) :
    (∀ (req : ReadRequest storeResourceModel) (resp : CreateResponse storeResourceModel),
      Decoded resp.Diagnostics req.StateGetDiags →
      (DoRequest env c "GET" ("/stores/" ++ req.State.ID.ValueString) none).err = none →
      env.Unmarshal
        ((DoRequest env c "GET" ("/stores/" ++ req.State.ID.ValueString) none).body.getD []) = .ok result →
      ∃ s, (storeResource.Read env c req resp).1.State = some s ∧
        s = { req.State with Status := s.Status } ∧
        (∀ v, result.lookup "status" = some (.string v) → s.Status = .known v) ∧
        ((∀ v, result.lookup "status" ≠ some (.string v)) → s = req.State) ∧
        (storeResource.Read env c req resp).1.Diagnostics =
          Diagnostics.Append resp.Diagnostics req.StateGetDiags) ∧
    (∀ (req : ReadRequest employeeResourceModel) (resp : CreateResponse employeeResourceModel),
      Decoded resp.Diagnostics req.StateGetDiags →
      (DoRequest env c "GET" ("/employees/" ++ req.State.ID.ValueString) none).err = none →
      env.Unmarshal
        ((DoRequest env c "GET" ("/employees/" ++ req.State.ID.ValueString) none).body.getD []) = .ok result →
      ∃ s, (employeeResource.Read env c req resp).1.State = some s ∧
        s = { req.State with Status := s.Status } ∧
        (∀ v, result.lookup "status" = some (.string v) → s.Status = .known v) ∧
        ((∀ v, result.lookup "status" ≠ some (.string v)) → s = req.State) ∧
        (employeeResource.Read env c req resp).1.Diagnostics =
          Diagnostics.Append resp.Diagnostics req.StateGetDiags) ∧
    (∀ (req : ReadRequest menuItemResourceModel) (resp : CreateResponse menuItemResourceModel),
      Decoded resp.Diagnostics req.StateGetDiags →
      (DoRequest env c "GET" ("/menu_items/" ++ req.State.ID.ValueString) none).err = none →
      env.Unmarshal
        ((DoRequest env c "GET" ("/menu_items/" ++ req.State.ID.ValueString) none).body.getD []) = .ok result →
      ∃ s, (menuItemResource.Read env c req resp).1.State = some s ∧
        s = { req.State with Name := s.Name } ∧
        (∀ v, result.lookup "name" = some (.string v) → s.Name = .known v) ∧
        ((∀ v, result.lookup "name" ≠ some (.string v)) → s = req.State) ∧
        (menuItemResource.Read env c req resp).1.Diagnostics =
          Diagnostics.Append resp.Diagnostics req.StateGetDiags) ∧
    (∀ (req : ReadRequest inventoryResourceModel) (resp : CreateResponse inventoryResourceModel),
      Decoded resp.Diagnostics req.StateGetDiags →
      (DoRequest env c "GET" ("/inventory/" ++ req.State.ID.ValueString) none).err = none →
      env.Unmarshal
        ((DoRequest env c "GET" ("/inventory/" ++ req.State.ID.ValueString) none).body.getD []) = .ok result →
      ∃ s, (inventoryResource.Read env c req resp).1.State = some s ∧
        s = { req.State with Quantity := s.Quantity } ∧
        (∀ v, result.lookup "quantity" = some (.number v) → s.Quantity = .known (int64OfFloat64 v)) ∧
        ((∀ v, result.lookup "quantity" ≠ some (.number v)) → s = req.State) ∧
        (inventoryResource.Read env c req resp).1.Diagnostics =
          Diagnostics.Append resp.Diagnostics req.StateGetDiags) ∧
    (∀ (req : ReadRequest promotionResourceModel) (resp : CreateResponse promotionResourceModel),
      Decoded resp.Diagnostics req.StateGetDiags →
      (DoRequest env c "GET" ("/promotions/" ++ req.State.ID.ValueString) none).err = none →
      env.Unmarshal
        ((DoRequest env c "GET" ("/promotions/" ++ req.State.ID.ValueString) none).body.getD []) = .ok result →
      ∃ s, (promotionResource.Read env c req resp).1.State = some s ∧
        s = { req.State with Active := s.Active } ∧
        (∀ v, result.lookup "active" = some (.bool v) → s.Active = .known v) ∧
        ((∀ v, result.lookup "active" ≠ some (.bool v)) → s = req.State) ∧
        (promotionResource.Read env c req resp).1.Diagnostics =
          Diagnostics.Append resp.Diagnostics req.StateGetDiags) := by
  refine ⟨?_, ?_, ?_, ?_, ?_⟩
  · intro req resp hpre herr hdec
    unfold Decoded at hpre
    cases hl : result.lookup "status" with
    | none => simp [storeResource.Read, hpre, herr, hdec, hl]
    | some j => cases j <;> simp [storeResource.Read, hpre, herr, hdec, hl]
  · intro req resp hpre herr hdec
    unfold Decoded at hpre
    cases hl : result.lookup "status" with
    | none => simp [employeeResource.Read, hpre, herr, hdec, hl]
    | some j => cases j <;> simp [employeeResource.Read, hpre, herr, hdec, hl]
  · intro req resp hpre herr hdec
    unfold Decoded at hpre
    cases hl : result.lookup "name" with
    | none => simp [menuItemResource.Read, hpre, herr, hdec, hl]
    | some j => cases j <;> simp [menuItemResource.Read, hpre, herr, hdec, hl]
  · intro req resp hpre herr hdec
    unfold Decoded at hpre
    cases hl : result.lookup "quantity" with
    | none => simp [inventoryResource.Read, hpre, herr, hdec, hl]
    | some j => cases j <;> simp [inventoryResource.Read, hpre, herr, hdec, hl]
  · intro req resp hpre herr hdec
    unfold Decoded at hpre
    cases hl : result.lookup "active" with
    | none => simp [promotionResource.Read, hpre, herr, hdec, hl]
    | some j => cases j <;> simp [promotionResource.Read, hpre, herr, hdec, hl]

/-- C20 witness: reading `sampleInventory` from a server that reports a quantity
of twelve writes the prior state with the quantity replaced and nothing else
changed. -/
theorem reads_frame_witness :
    Decoded [] [] ∧
    (DoRequest restockedEnv sampleClient "GET" ("/inventory/" ++ sampleInventory.ID.ValueString)
      none).err = none ∧
    (∃ s, (inventoryResource.Read restockedEnv sampleClient ⟨sampleInventory, []⟩
        ⟨some sampleInventory, []⟩).1.State = some s ∧
      s = { sampleInventory with Quantity := s.Quantity } ∧
      s.Quantity = .known (int64OfFloat64 (.finite 12))) ∧
    int64OfFloat64 (.finite 12) = 12 :=
  ⟨rfl, by decide,
   (let ⟨s, h1, h2, h3, _⟩ :=
      (reads_frame restockedEnv sampleClient
        [("id", .string "i-1"), ("quantity", .number (.finite 12))]).2.2.2.1
        ⟨sampleInventory, []⟩ ⟨some sampleInventory, []⟩ rfl (by decide) rfl
    ⟨s, h1, h2, h3 _ rfl⟩),
   by decide⟩

/-- The result of `DoRequest` once a response was received is decided by the
response: two runs that received the same response return the same bytes and
the same error. -/
theorem Received_same (r1 r2 : DoResult) (t1 t2 : List Call) (resp : Response)
    (h1 : Received r1 t1 resp) (h2 : Received r2 t2 resp) :
    r1.body = r2.body ∧ r1.err = r2.err := by
  rcases h1 with ⟨e1, hb1, hr1⟩ | ⟨b1, hb1, hs1, hr1⟩ | ⟨b1, hb1, hs1, hr1⟩ <;>
    rcases h2 with ⟨e2, hb2, hr2⟩ | ⟨b2, hb2, hs2, hr2⟩ | ⟨b2, hb2, hs2, hr2⟩ <;>
    rw [hb1] at hb2 <;> cases hb2 <;> first
      | omega
      | (rw [hr1, hr2]; exact ⟨rfl, rfl⟩)

/-- The step `DoRequestOn` returns the result of `DoRequest` on the client it
started from, and that client: no path through the body writes to it. -/
theorem DoRequestOn_eq (env : Env) (method path : String) (body : Option Payload)
    (s : StarbucksClient) :
    DoRequestOn env method path body s = (DoRequest env s method path body, s) := by
  unfold DoRequestOn DoRequest
  cases body with
  | none =>
    simp only []
    cases hn : NewRequest env method (s.Endpoint ++ path) none with
    | error e => rfl
    | ok req0 =>
      simp only [setHeaders]
      cases hd : env.Do s.HTTPClient _ with
      | error e => rfl
      | ok resp =>
        simp only []
        cases hb : resp.Body with
        | error e => rfl
        | ok respBody =>
          simp only []
          split <;> rfl
  | some p =>
    simp only []
    cases hm : env.Marshal p with
    | error e => rfl
    | ok jb =>
      simp only []
      cases hn : NewRequest env method (s.Endpoint ++ path) (some jb) with
      | error e => rfl
      | ok req0 =>
        simp only [setHeaders]
        cases hd : env.Do s.HTTPClient _ with
        | error e => rfl
        | ok resp =>
          simp only []
          cases hb : resp.Body with
          | error e => rfl
          | ok respBody =>
            simp only []
            split <;> rfl

/-- The step `storeResource.CreateOn` returns the result of `storeResource.Create` on the client it
started from, and that client. -/
theorem storeCreateOn_eq (env : Env) (c : StarbucksClient)
    (req : CreateRequest storeResourceModel) (resp : CreateResponse storeResourceModel) :
    storeResource.CreateOn env c req resp = (storeResource.Create env c req resp, c) := by
  unfold storeResource.CreateOn storeResource.Create
  simp only [DoRequestOn_eq]
  cases hpre : Diagnostics.HasError (Diagnostics.Append resp.Diagnostics req.PlanGetDiags)
  · cases herr : (DoRequest env c "POST" "/stores" (some (storeCreateBody req.Plan))).err
    · cases hdec : env.Unmarshal
          ((DoRequest env c "POST" "/stores" (some (storeCreateBody req.Plan))).body.getD []) <;>
        simp [hpre, herr, hdec]
    · simp [hpre, herr]
  · simp [hpre]

/-- The step `storeResource.ReadOn` returns the result of `storeResource.Read` on the client it
started from, and that client. -/
theorem storeReadOn_eq (env : Env) (c : StarbucksClient)
    (req : ReadRequest storeResourceModel) (resp : CreateResponse storeResourceModel) :
    storeResource.ReadOn env c req resp = (storeResource.Read env c req resp, c) := by
  unfold storeResource.ReadOn storeResource.Read
  simp only [DoRequestOn_eq]
  cases hpre : Diagnostics.HasError (Diagnostics.Append resp.Diagnostics req.StateGetDiags)
  · cases herr : (DoRequest env c "GET" ("/stores/" ++ req.State.ID.ValueString) none).err
    · cases hdec : env.Unmarshal
          ((DoRequest env c "GET" ("/stores/" ++ req.State.ID.ValueString) none).body.getD []) <;>
        simp [hpre, herr, hdec]
    · simp [hpre, herr]
  · simp [hpre]

/-- The step `storeResource.UpdateOn` returns the result of `storeResource.Update` on the client it
started from, and that client. -/
theorem storeUpdateOn_eq (env : Env) (c : StarbucksClient)
    (req : UpdateRequest storeResourceModel) (resp : CreateResponse storeResourceModel) :
    storeResource.UpdateOn env c req resp = (storeResource.Update env c req resp, c) := by
  unfold storeResource.UpdateOn storeResource.Update
  simp only [DoRequestOn_eq]
  cases hpre : Diagnostics.HasError (Diagnostics.Append resp.Diagnostics req.PlanGetDiags)
  · cases herr : (DoRequest env c "PUT" ("/stores/" ++ req.Plan.ID.ValueString) (some (storeUpdateBody req.Plan))).err
    · simp [hpre, herr]
    · simp [hpre, herr]
  · simp [hpre]

/-- The step `storeResource.DeleteOn` returns the result of `storeResource.Delete` on the client it
started from, and that client. -/
theorem storeDeleteOn_eq (env : Env) (c : StarbucksClient)
    (req : DeleteRequest storeResourceModel) (resp : CreateResponse storeResourceModel) :
    storeResource.DeleteOn env c req resp = (storeResource.Delete env c req resp, c) := by
  unfold storeResource.DeleteOn storeResource.Delete
  simp only [DoRequestOn_eq]
  cases hpre : Diagnostics.HasError (Diagnostics.Append resp.Diagnostics req.StateGetDiags)
  · cases herr : (DoRequest env c "DELETE" ("/stores/" ++ req.State.ID.ValueString) none).err
    · simp [hpre, herr]
    · simp [hpre, herr]
  · simp [hpre]

/-- The step `employeeResource.CreateOn` returns the result of `employeeResource.Create` on the client it
started from, and that client. -/
theorem employeeCreateOn_eq (env : Env) (c : StarbucksClient)
    (req : CreateRequest employeeResourceModel) (resp : CreateResponse employeeResourceModel) :
    employeeResource.CreateOn env c req resp = (employeeResource.Create env c req resp, c) := by
  unfold employeeResource.CreateOn employeeResource.Create
  simp only [DoRequestOn_eq]
  cases hpre : Diagnostics.HasError (Diagnostics.Append resp.Diagnostics req.PlanGetDiags)
  · cases herr : (DoRequest env c "POST" "/employees" (some (employeeCreateBody req.Plan))).err
    · cases hdec : env.Unmarshal
          ((DoRequest env c "POST" "/employees" (some (employeeCreateBody req.Plan))).body.getD []) <;>
        simp [hpre, herr, hdec]
    · simp [hpre, herr]
  · simp [hpre]

/-- The step `employeeResource.ReadOn` returns the result of `employeeResource.Read` on the client it
started from, and that client. -/
theorem employeeReadOn_eq (env : Env) (c : StarbucksClient)
    (req : ReadRequest employeeResourceModel) (resp : CreateResponse employeeResourceModel) :
    employeeResource.ReadOn env c req resp = (employeeResource.Read env c req resp, c) := by
  unfold employeeResource.ReadOn employeeResource.Read
  simp only [DoRequestOn_eq]
  cases hpre : Diagnostics.HasError (Diagnostics.Append resp.Diagnostics req.StateGetDiags)
  · cases herr : (DoRequest env c "GET" ("/employees/" ++ req.State.ID.ValueString) none).err
    · cases hdec : env.Unmarshal
          ((DoRequest env c "GET" ("/employees/" ++ req.State.ID.ValueString) none).body.getD []) <;>
        simp [hpre, herr, hdec]
    · simp [hpre, herr]
  · simp [hpre]

/-- The step `employeeResource.UpdateOn` returns the result of `employeeResource.Update` on the client it
started from, and that client. -/
theorem employeeUpdateOn_eq (env : Env) (c : StarbucksClient)
    (req : UpdateRequest employeeResourceModel) (resp : CreateResponse employeeResourceModel) :
    employeeResource.UpdateOn env c req resp = (employeeResource.Update env c req resp, c) := by
  unfold employeeResource.UpdateOn employeeResource.Update
  simp only [DoRequestOn_eq]
  cases hpre : Diagnostics.HasError (Diagnostics.Append resp.Diagnostics req.PlanGetDiags)
  · cases herr : (DoRequest env c "PUT" ("/employees/" ++ req.Plan.ID.ValueString) (some (employeeUpdateBody req.Plan))).err
    · simp [hpre, herr]
    · simp [hpre, herr]
  · simp [hpre]

/-- The step `employeeResource.DeleteOn` returns the result of `employeeResource.Delete` on the client it
started from, and that client. -/
theorem employeeDeleteOn_eq (env : Env) (c : StarbucksClient)
    (req : DeleteRequest employeeResourceModel) (resp : CreateResponse employeeResourceModel) :
    employeeResource.DeleteOn env c req resp = (employeeResource.Delete env c req resp, c) := by
  unfold employeeResource.DeleteOn employeeResource.Delete
  simp only [DoRequestOn_eq]
  cases hpre : Diagnostics.HasError (Diagnostics.Append resp.Diagnostics req.StateGetDiags)
  · cases herr : (DoRequest env c "DELETE" ("/employees/" ++ req.State.ID.ValueString) none).err
    · simp [hpre, herr]
    · simp [hpre, herr]
  · simp [hpre]

/-- The step `menuItemResource.CreateOn` returns the result of `menuItemResource.Create` on the client it
started from, and that client. -/
theorem menuItemCreateOn_eq (env : Env) (c : StarbucksClient)
    (req : CreateRequest menuItemResourceModel) (resp : CreateResponse menuItemResourceModel) :
    menuItemResource.CreateOn env c req resp = (menuItemResource.Create env c req resp, c) := by
  unfold menuItemResource.CreateOn menuItemResource.Create
  simp only [DoRequestOn_eq]
  cases hpre : Diagnostics.HasError (Diagnostics.Append resp.Diagnostics req.PlanGetDiags)
  · cases herr : (DoRequest env c "POST" "/menu_items" (some (menuItemCreateBody req.Plan))).err
    · cases hdec : env.Unmarshal
          ((DoRequest env c "POST" "/menu_items" (some (menuItemCreateBody req.Plan))).body.getD []) <;>
        simp [hpre, herr, hdec]
    · simp [hpre, herr]
  · simp [hpre]

/-- The step `menuItemResource.ReadOn` returns the result of `menuItemResource.Read` on the client it
started from, and that client. -/
theorem menuItemReadOn_eq (env : Env) (c : StarbucksClient)
    (req : ReadRequest menuItemResourceModel) (resp : CreateResponse menuItemResourceModel) :
    menuItemResource.ReadOn env c req resp = (menuItemResource.Read env c req resp, c) := by
  unfold menuItemResource.ReadOn menuItemResource.Read
  simp only [DoRequestOn_eq]
  cases hpre : Diagnostics.HasError (Diagnostics.Append resp.Diagnostics req.StateGetDiags)
  · cases herr : (DoRequest env c "GET" ("/menu_items/" ++ req.State.ID.ValueString) none).err
    · cases hdec : env.Unmarshal
          ((DoRequest env c "GET" ("/menu_items/" ++ req.State.ID.ValueString) none).body.getD []) <;>
        simp [hpre, herr, hdec]
    · simp [hpre, herr]
  · simp [hpre]

/-- The step `menuItemResource.UpdateOn` returns the result of `menuItemResource.Update` on the client it
started from, and that client. -/
theorem menuItemUpdateOn_eq (env : Env) (c : StarbucksClient)
    (req : UpdateRequest menuItemResourceModel) (resp : CreateResponse menuItemResourceModel) :
    menuItemResource.UpdateOn env c req resp = (menuItemResource.Update env c req resp, c) := by
  unfold menuItemResource.UpdateOn menuItemResource.Update
  simp only [DoRequestOn_eq]
  cases hpre : Diagnostics.HasError (Diagnostics.Append resp.Diagnostics req.PlanGetDiags)
  · cases herr : (DoRequest env c "PUT" ("/menu_items/" ++ req.Plan.ID.ValueString) (some ([("name", .str req.Plan.Name.ValueString)]))).err
    · simp [hpre, herr]
    · simp [hpre, herr]
  · simp [hpre]

/-- The step `menuItemResource.DeleteOn` returns the result of `menuItemResource.Delete` on the client it
started from, and that client. -/
theorem menuItemDeleteOn_eq (env : Env) (c : StarbucksClient)
    (req : DeleteRequest menuItemResourceModel) (resp : CreateResponse menuItemResourceModel) :
    menuItemResource.DeleteOn env c req resp = (menuItemResource.Delete env c req resp, c) := by
  unfold menuItemResource.DeleteOn menuItemResource.Delete
  simp only [DoRequestOn_eq]
  cases hpre : Diagnostics.HasError (Diagnostics.Append resp.Diagnostics req.StateGetDiags)
  · cases herr : (DoRequest env c "DELETE" ("/menu_items/" ++ req.State.ID.ValueString) none).err
    · simp [hpre, herr]
    · simp [hpre, herr]
  · simp [hpre]

/-- The step `inventoryResource.CreateOn` returns the result of `inventoryResource.Create` on the client it
started from, and that client. -/
theorem inventoryCreateOn_eq (env : Env) (c : StarbucksClient)
    (req : CreateRequest inventoryResourceModel) (resp : CreateResponse inventoryResourceModel) :
    inventoryResource.CreateOn env c req resp = (inventoryResource.Create env c req resp, c) := by
  unfold inventoryResource.CreateOn inventoryResource.Create
  simp only [DoRequestOn_eq]
  cases hpre : Diagnostics.HasError (Diagnostics.Append resp.Diagnostics req.PlanGetDiags)
  · cases herr : (DoRequest env c "POST" "/inventory" (some (inventoryCreateBody req.Plan))).err
    · cases hdec : env.Unmarshal
          ((DoRequest env c "POST" "/inventory" (some (inventoryCreateBody req.Plan))).body.getD []) <;>
        simp [hpre, herr, hdec]
    · simp [hpre, herr]
  · simp [hpre]

/-- The step `inventoryResource.ReadOn` returns the result of `inventoryResource.Read` on the client it
started from, and that client. -/
theorem inventoryReadOn_eq (env : Env) (c : StarbucksClient)
    (req : ReadRequest inventoryResourceModel) (resp : CreateResponse inventoryResourceModel) :
    inventoryResource.ReadOn env c req resp = (inventoryResource.Read env c req resp, c) := by
  unfold inventoryResource.ReadOn inventoryResource.Read
  simp only [DoRequestOn_eq]
  cases hpre : Diagnostics.HasError (Diagnostics.Append resp.Diagnostics req.StateGetDiags)
  · cases herr : (DoRequest env c "GET" ("/inventory/" ++ req.State.ID.ValueString) none).err
    · cases hdec : env.Unmarshal
          ((DoRequest env c "GET" ("/inventory/" ++ req.State.ID.ValueString) none).body.getD []) <;>
        simp [hpre, herr, hdec]
    · simp [hpre, herr]
  · simp [hpre]

/-- The step `inventoryResource.UpdateOn` returns the result of `inventoryResource.Update` on the client it
started from, and that client. -/
theorem inventoryUpdateOn_eq (env : Env) (c : StarbucksClient)
    (req : UpdateRequest inventoryResourceModel) (resp : CreateResponse inventoryResourceModel) :
    inventoryResource.UpdateOn env c req resp = (inventoryResource.Update env c req resp, c) := by
  unfold inventoryResource.UpdateOn inventoryResource.Update
  simp only [DoRequestOn_eq]
  cases hpre : Diagnostics.HasError (Diagnostics.Append resp.Diagnostics req.PlanGetDiags)
  · cases herr : (DoRequest env c "PUT" ("/inventory/" ++ req.Plan.ID.ValueString) (some ([("quantity", .int64 req.Plan.Quantity.ValueInt64)]))).err
    · simp [hpre, herr]
    · simp [hpre, herr]
  · simp [hpre]

/-- The step `inventoryResource.DeleteOn` returns the result of `inventoryResource.Delete` on the client it
started from, and that client. -/
theorem inventoryDeleteOn_eq (env : Env) (c : StarbucksClient)
    (req : DeleteRequest inventoryResourceModel) (resp : CreateResponse inventoryResourceModel) :
    inventoryResource.DeleteOn env c req resp = (inventoryResource.Delete env c req resp, c) := by
  unfold inventoryResource.DeleteOn inventoryResource.Delete
  simp only [DoRequestOn_eq]
  cases hpre : Diagnostics.HasError (Diagnostics.Append resp.Diagnostics req.StateGetDiags)
  · cases herr : (DoRequest env c "DELETE" ("/inventory/" ++ req.State.ID.ValueString) none).err
    · simp [hpre, herr]
    · simp [hpre, herr]
  · simp [hpre]

/-- The step `promotionResource.CreateOn` returns the result of `promotionResource.Create` on the client it
started from, and that client. -/
theorem promotionCreateOn_eq (env : Env) (c : StarbucksClient)
    (req : CreateRequest promotionResourceModel) (resp : CreateResponse promotionResourceModel) :
    promotionResource.CreateOn env c req resp = (promotionResource.Create env c req resp, c) := by
  unfold promotionResource.CreateOn promotionResource.Create
  simp only [DoRequestOn_eq]
  cases hpre : Diagnostics.HasError (Diagnostics.Append resp.Diagnostics req.PlanGetDiags)
  · cases herr : (DoRequest env c "POST" "/promotions" (some (promotionCreateBody req.Plan))).err
    · cases hdec : env.Unmarshal
          ((DoRequest env c "POST" "/promotions" (some (promotionCreateBody req.Plan))).body.getD []) <;>
        simp [hpre, herr, hdec]
    · simp [hpre, herr]
  · simp [hpre]

/-- The step `promotionResource.ReadOn` returns the result of `promotionResource.Read` on the client it
started from, and that client. -/
theorem promotionReadOn_eq (env : Env) (c : StarbucksClient)
    (req : ReadRequest promotionResourceModel) (resp : CreateResponse promotionResourceModel) :
    promotionResource.ReadOn env c req resp = (promotionResource.Read env c req resp, c) := by
  unfold promotionResource.ReadOn promotionResource.Read
  simp only [DoRequestOn_eq]
  cases hpre : Diagnostics.HasError (Diagnostics.Append resp.Diagnostics req.StateGetDiags)
  · cases herr : (DoRequest env c "GET" ("/promotions/" ++ req.State.ID.ValueString) none).err
    · cases hdec : env.Unmarshal
          ((DoRequest env c "GET" ("/promotions/" ++ req.State.ID.ValueString) none).body.getD []) <;>
        simp [hpre, herr, hdec]
    · simp [hpre, herr]
  · simp [hpre]

/-- The step `promotionResource.UpdateOn` returns the result of `promotionResource.Update` on the client it
started from, and that client. -/
theorem promotionUpdateOn_eq (env : Env) (c : StarbucksClient)
    (req : UpdateRequest promotionResourceModel) (resp : CreateResponse promotionResourceModel) :
    promotionResource.UpdateOn env c req resp = (promotionResource.Update env c req resp, c) := by
  unfold promotionResource.UpdateOn promotionResource.Update
  simp only [DoRequestOn_eq]
  cases hpre : Diagnostics.HasError (Diagnostics.Append resp.Diagnostics req.PlanGetDiags)
  · cases herr : (DoRequest env c "PUT" ("/promotions/" ++ req.Plan.ID.ValueString) (some ([("name", .str req.Plan.Name.ValueString)]))).err
    · simp [hpre, herr]
    · simp [hpre, herr]
  · simp [hpre]

/-- The step `promotionResource.DeleteOn` returns the result of `promotionResource.Delete` on the client it
started from, and that client. -/
theorem promotionDeleteOn_eq (env : Env) (c : StarbucksClient)
    (req : DeleteRequest promotionResourceModel) (resp : CreateResponse promotionResourceModel) :
    promotionResource.DeleteOn env c req resp = (promotionResource.Delete env c req resp, c) := by
  unfold promotionResource.DeleteOn promotionResource.Delete
  simp only [DoRequestOn_eq]
  cases hpre : Diagnostics.HasError (Diagnostics.Append resp.Diagnostics req.StateGetDiags)
  · cases herr : (DoRequest env c "DELETE" ("/promotions/" ++ req.State.ID.ValueString) none).err
    · simp [hpre, herr]
    · simp [hpre, herr]
  · simp [hpre]

/-- The step `storeDataSource.ReadOn` returns the result of `storeDataSource.Read` on the client it
started from, and that client. -/
theorem storeDataSourceReadOn_eq (env : Env) (c : StarbucksClient)
    (req : DataSourceReadRequest storeDataSourceModel) (resp : CreateResponse storeDataSourceModel) :
    storeDataSource.ReadOn env c req resp = (storeDataSource.Read env c req resp, c) := by
  unfold storeDataSource.ReadOn storeDataSource.Read
  simp only [DoRequestOn_eq]
  cases hpre : Diagnostics.HasError (Diagnostics.Append resp.Diagnostics req.ConfigGetDiags)
  · cases herr : (DoRequest env c "GET" ("/stores/" ++ req.Config.ID.ValueString) none).err
    · cases hdec : env.Unmarshal
          ((DoRequest env c "GET" ("/stores/" ++ req.Config.ID.ValueString) none).body.getD []) <;>
        simp [hpre, herr, hdec]
    · simp [hpre, herr]
  · simp [hpre]

/-- The step `storesDataSource.ReadOn` returns the result of
`storesDataSource.Read` on the client it started from, and that client. -/
theorem storesDataSourceReadOn_eq (env : Env) (c : StarbucksClient)
    (resp : CreateResponse storesDataSourceModel) :
    storesDataSource.ReadOn env c resp = (storesDataSource.Read env c resp, c) := by
  unfold storesDataSource.ReadOn storesDataSource.Read
  simp only [DoRequestOn_eq]
  cases herr : (DoRequest env c "GET" "/stores" none).err
  · cases hdec : env.UnmarshalList ((DoRequest env c "GET" "/stores" none).body.getD []) <;>
      simp [herr, hdec]
  · simp [herr]

/-- C15: two successive invocations of `DoRequest` with `GET`, the same path and
no payload, the second made on the client the first left and in any other
environment, in both of which the request is built and the server answers it
with the same response, return the same result, bytes, error and calls; and
for every method and payload the second of two successive invocations returns
what the first returned, and leaves the client the first left, whenever the
encoder gives the same for the payload, the request is built the same and the
server answers every request the same: nothing else enters the result. -/
theorem DoRequest_deterministic (env1 env2 : Env) (c : StarbucksClient) (path : String) :
    (∀ req1 req2 resp,
      NewRequest env1 "GET" (c.Endpoint ++ path) none = .ok req1 →
      env1.Do c.HTTPClient (setHeaders c req1) = .ok resp →
      NewRequest env2 "GET" (c.Endpoint ++ path) none = .ok req2 →
      env2.Do c.HTTPClient (setHeaders c req2) = .ok resp →
      (DoRequestOn env2 "GET" path none (DoRequestOn env1 "GET" path none c).2).1 =
        (DoRequestOn env1 "GET" path none c).1 ∧
      (DoRequestOn env2 "GET" path none (DoRequestOn env1 "GET" path none c).2).1.body =
        (DoRequestOn env1 "GET" path none c).1.body ∧
      (DoRequestOn env1 "GET" path none c).1 = DoRequest env1 c "GET" path none ∧
      Call.ReadAll resp ∈ (DoRequestOn env1 "GET" path none c).1.calls) ∧
    (∀ method body,
      (∀ p, body = some p → env1.Marshal p = env2.Marshal p) →
      (∀ rb, NewRequest env1 method (c.Endpoint ++ path) rb =
        NewRequest env2 method (c.Endpoint ++ path) rb) →
      (∀ req, env1.Do c.HTTPClient req = env2.Do c.HTTPClient req) →
      DoRequestOn env2 method path body (DoRequestOn env1 method path body c).2 =
        DoRequestOn env1 method path body c) := by
  constructor
  · intro req1 req2 resp hn1 hd1 hn2 hd2
    have e1 := NewRequest_ok env1 _ _ _ req1 hn1
    have e2 := NewRequest_ok env2 _ _ _ req2 hn2
    subst e1
    subst e2
    have h1 : DoRequest env1 c "GET" path none = DoRequest env2 c "GET" path none := by
      simp only [DoRequest, hn1, hd1, hn2, hd2]
    have hmem : Call.ReadAll resp ∈ (DoRequest env1 c "GET" path none).calls := by
      simp only [DoRequest, hn1, hd1]
      cases resp.Body with
      | error e => simp
      | ok b => simp only []; split <;> simp
    rw [DoRequestOn_eq, DoRequestOn_eq]
    exact ⟨h1.symm, by rw [← h1], rfl, hmem⟩
  · intro method body hm hn hd
    simp only [DoRequestOn_eq]
    have h : DoRequest env1 c method path body = DoRequest env2 c method path body := by
      cases body with
      | none => simp only [DoRequest, hn, hd]
      | some p => simp only [DoRequest, hm p rfl, hn, hd]
    rw [h]

/-- C15 witness: the same `GET` twice, the second time in a test double that
differs in everything but the answer of the server, returns the same result,
the body the server sent. -/
theorem DoRequest_deterministic_witness :
    NewRequest foundEnv "GET" (sampleClient.Endpoint ++ "/stores/42") none =
      .ok ⟨"GET", ⟨"https://api.starbucks.com/v1/stores/42", ""⟩, [], none⟩ ∧
    foundEnv.Do sampleClient.HTTPClient (setHeaders sampleClient
      ⟨"GET", ⟨"https://api.starbucks.com/v1/stores/42", ""⟩, [], none⟩) = .ok found ∧
    NewRequest (cannedEnv (.ok []) (.ok found) (.ok [])) "GET"
      (sampleClient.Endpoint ++ "/stores/42") none =
      .ok ⟨"GET", ⟨"https://api.starbucks.com/v1/stores/42", ""⟩, [], none⟩ ∧
    (DoRequestOn (cannedEnv (.ok []) (.ok found) (.ok [])) "GET" "/stores/42" none
      (DoRequestOn foundEnv "GET" "/stores/42" none sampleClient).2).1 =
      (DoRequestOn foundEnv "GET" "/stores/42" none sampleClient).1 ∧
    (DoRequestOn foundEnv "GET" "/stores/42" none sampleClient).1.body =
      some (utf8 "\x7b\"id\":\"42\",\"status\":\"active\"\x7d") :=
  ⟨by decide, rfl, by decide,
   ((DoRequest_deterministic foundEnv (cannedEnv (.ok []) (.ok found) (.ok [])) sampleClient
      "/stores/42").1 ⟨"GET", ⟨"https://api.starbucks.com/v1/stores/42", ""⟩, [], none⟩
      ⟨"GET", ⟨"https://api.starbucks.com/v1/stores/42", ""⟩, [], none⟩ found
      (by decide) rfl (by decide) rfl).1,
   by decide⟩

/-- C17 counterexample: a timeout of 9223372037 seconds fits a 64-bit integer, but
its product with the nanoseconds of a second does not; the duration stored is
negative, neither the product nor a positive bound. -/
theorem NewStarbucksClient_timeout_wraps :
    ¬ ((NewStarbucksClient "k" "https://api.starbucks.com/v1" "us-west-2"
          9223372037).HTTPClient.Timeout = 9223372037 * 1000000000 ∧
       0 < (NewStarbucksClient "k" "https://api.starbucks.com/v1" "us-west-2"
          9223372037).HTTPClient.Timeout) := by
  decide

/-- C17, amended: for every timeout of `t` seconds with `t` from 1 to 9223372036,
the duration stored in the client is exactly `t` times 10^9 nanoseconds, without
wrap-around, and positive. -/
theorem NewStarbucksClient_timeout (apiKey endpoint region : String) (t : Int)
    (hlo : 1 ≤ t) (hhi : t ≤ 9223372036) :
    (NewStarbucksClient apiKey endpoint region t).HTTPClient.Timeout = t * 1000000000 ∧
    0 < (NewStarbucksClient apiKey endpoint region t).HTTPClient.Timeout := by
  have h : wrapInt64 (t * 1000000000) = t * 1000000000 := by
    unfold wrapInt64
    norm_num
    omega
  have ht : (NewStarbucksClient apiKey endpoint region t).HTTPClient.Timeout =
      t * 1000000000 := h
  rw [ht]
  exact ⟨rfl, by omega⟩

/-- C17 witness: the default of thirty seconds is stored as 30 000 000 000
nanoseconds. -/
theorem NewStarbucksClient_timeout_witness :
    (1 : Int) ≤ 30 ∧ (30 : Int) ≤ 9223372036 ∧
    (NewStarbucksClient "k" "https://api.starbucks.com/v1" "us-west-2" 30).HTTPClient.Timeout =
      30000000000 :=
  ⟨by decide, by decide,
   (NewStarbucksClient_timeout "k" "https://api.starbucks.com/v1" "us-west-2" 30
     (by decide) (by decide)).1⟩

/-- The duration stored is the product of the seconds and 10^9 exactly when the
seconds are between -9223372036 and 9223372036; outside, the 64-bit product
wraps around. -/
theorem NewStarbucksClient_timeout_exact_iff (apiKey endpoint region : String) (t : Int) :
    (NewStarbucksClient apiKey endpoint region t).HTTPClient.Timeout = t * 1000000000 ↔
      -9223372036 ≤ t ∧ t ≤ 9223372036 := by
  simp only [NewStarbucksClient, wrapInt64]
  norm_num
  omega

/-- C16: the client `NewStarbucksClient` returns holds the key, the endpoint and
the region it was given and the timeout as a duration. Every invocation of
`DoRequest`, whatever it returns, leaves the client it ran on: the key, the
endpoint, the region and the timeout after the call are those before it. And
every handler of the five resources and of the two data sources leaves the
client it ran on, whichever path it takes: its only use of the client is the
`DoRequest` call, and what it returns is what the handler returns on that
client. -/
theorem client_immutable (apiKey endpoint region : String) (timeout : Int)
    (env : Env) (c : StarbucksClient) :
    ((NewStarbucksClient apiKey endpoint region timeout).APIKey = apiKey ∧
      (NewStarbucksClient apiKey endpoint region timeout).Endpoint = endpoint ∧
      (NewStarbucksClient apiKey endpoint region timeout).Region = region ∧
      (NewStarbucksClient apiKey endpoint region timeout).HTTPClient.Timeout =
        wrapInt64 (timeout * 1000000000)) ∧
    (∀ method path body,
      (DoRequestOn env method path body c).2 = c ∧
      (DoRequestOn env method path body c).2.APIKey = c.APIKey ∧
      (DoRequestOn env method path body c).2.Endpoint = c.Endpoint ∧
      (DoRequestOn env method path body c).2.Region = c.Region ∧
      (DoRequestOn env method path body c).2.HTTPClient.Timeout = c.HTTPClient.Timeout ∧
      (DoRequestOn env method path body c).1 = DoRequest env c method path body) ∧
    ((∀ (req : CreateRequest storeResourceModel) (resp : CreateResponse storeResourceModel),
        (storeResource.CreateOn env c req resp).2 = c ∧
        (storeResource.CreateOn env c req resp).1 = storeResource.Create env c req resp) ∧
      (∀ (req : ReadRequest storeResourceModel) (resp : CreateResponse storeResourceModel),
        (storeResource.ReadOn env c req resp).2 = c ∧
        (storeResource.ReadOn env c req resp).1 = storeResource.Read env c req resp) ∧
      (∀ (req : UpdateRequest storeResourceModel) (resp : CreateResponse storeResourceModel),
        (storeResource.UpdateOn env c req resp).2 = c ∧
        (storeResource.UpdateOn env c req resp).1 = storeResource.Update env c req resp) ∧
      (∀ (req : DeleteRequest storeResourceModel) (resp : CreateResponse storeResourceModel),
        (storeResource.DeleteOn env c req resp).2 = c ∧
        (storeResource.DeleteOn env c req resp).1 = storeResource.Delete env c req resp)) ∧
    ((∀ (req : CreateRequest employeeResourceModel) (resp : CreateResponse employeeResourceModel),
        (employeeResource.CreateOn env c req resp).2 = c ∧
        (employeeResource.CreateOn env c req resp).1 = employeeResource.Create env c req resp) ∧
      (∀ (req : ReadRequest employeeResourceModel) (resp : CreateResponse employeeResourceModel),
        (employeeResource.ReadOn env c req resp).2 = c ∧
        (employeeResource.ReadOn env c req resp).1 = employeeResource.Read env c req resp) ∧
      (∀ (req : UpdateRequest employeeResourceModel) (resp : CreateResponse employeeResourceModel),
        (employeeResource.UpdateOn env c req resp).2 = c ∧
        (employeeResource.UpdateOn env c req resp).1 = employeeResource.Update env c req resp) ∧
      (∀ (req : DeleteRequest employeeResourceModel) (resp : CreateResponse employeeResourceModel),
        (employeeResource.DeleteOn env c req resp).2 = c ∧
        (employeeResource.DeleteOn env c req resp).1 = employeeResource.Delete env c req resp)) ∧
    ((∀ (req : CreateRequest menuItemResourceModel) (resp : CreateResponse menuItemResourceModel),
        (menuItemResource.CreateOn env c req resp).2 = c ∧
        (menuItemResource.CreateOn env c req resp).1 = menuItemResource.Create env c req resp) ∧
      (∀ (req : ReadRequest menuItemResourceModel) (resp : CreateResponse menuItemResourceModel),
        (menuItemResource.ReadOn env c req resp).2 = c ∧
        (menuItemResource.ReadOn env c req resp).1 = menuItemResource.Read env c req resp) ∧
      (∀ (req : UpdateRequest menuItemResourceModel) (resp : CreateResponse menuItemResourceModel),
        (menuItemResource.UpdateOn env c req resp).2 = c ∧
        (menuItemResource.UpdateOn env c req resp).1 = menuItemResource.Update env c req resp) ∧
      (∀ (req : DeleteRequest menuItemResourceModel) (resp : CreateResponse menuItemResourceModel),
        (menuItemResource.DeleteOn env c req resp).2 = c ∧
        (menuItemResource.DeleteOn env c req resp).1 = menuItemResource.Delete env c req resp)) ∧
    ((∀ (req : CreateRequest inventoryResourceModel) (resp : CreateResponse inventoryResourceModel),
        (inventoryResource.CreateOn env c req resp).2 = c ∧
        (inventoryResource.CreateOn env c req resp).1 = inventoryResource.Create env c req resp) ∧
      (∀ (req : ReadRequest inventoryResourceModel) (resp : CreateResponse inventoryResourceModel),
        (inventoryResource.ReadOn env c req resp).2 = c ∧
        (inventoryResource.ReadOn env c req resp).1 = inventoryResource.Read env c req resp) ∧
      (∀ (req : UpdateRequest inventoryResourceModel) (resp : CreateResponse inventoryResourceModel),
        (inventoryResource.UpdateOn env c req resp).2 = c ∧
        (inventoryResource.UpdateOn env c req resp).1 = inventoryResource.Update env c req resp) ∧
      (∀ (req : DeleteRequest inventoryResourceModel) (resp : CreateResponse inventoryResourceModel),
        (inventoryResource.DeleteOn env c req resp).2 = c ∧
        (inventoryResource.DeleteOn env c req resp).1 = inventoryResource.Delete env c req resp)) ∧
    ((∀ (req : CreateRequest promotionResourceModel) (resp : CreateResponse promotionResourceModel),
        (promotionResource.CreateOn env c req resp).2 = c ∧
        (promotionResource.CreateOn env c req resp).1 = promotionResource.Create env c req resp) ∧
      (∀ (req : ReadRequest promotionResourceModel) (resp : CreateResponse promotionResourceModel),
        (promotionResource.ReadOn env c req resp).2 = c ∧
        (promotionResource.ReadOn env c req resp).1 = promotionResource.Read env c req resp) ∧
      (∀ (req : UpdateRequest promotionResourceModel) (resp : CreateResponse promotionResourceModel),
        (promotionResource.UpdateOn env c req resp).2 = c ∧
        (promotionResource.UpdateOn env c req resp).1 = promotionResource.Update env c req resp) ∧
      (∀ (req : DeleteRequest promotionResourceModel) (resp : CreateResponse promotionResourceModel),
        (promotionResource.DeleteOn env c req resp).2 = c ∧
        (promotionResource.DeleteOn env c req resp).1 = promotionResource.Delete env c req resp)) ∧
    ((∀ (req : DataSourceReadRequest storeDataSourceModel) (resp : CreateResponse storeDataSourceModel),
        (storeDataSource.ReadOn env c req resp).2 = c ∧
        (storeDataSource.ReadOn env c req resp).1 = storeDataSource.Read env c req resp) ∧
      (∀ (resp : CreateResponse storesDataSourceModel),
        (storesDataSource.ReadOn env c resp).2 = c ∧
        (storesDataSource.ReadOn env c resp).1 = storesDataSource.Read env c resp)) := by
  refine ⟨⟨rfl, rfl, rfl, rfl⟩, ?_, ⟨?_, ?_, ?_, ?_⟩, ⟨?_, ?_, ?_, ?_⟩, ⟨?_, ?_, ?_, ?_⟩, ⟨?_, ?_, ?_, ?_⟩, ⟨?_, ?_, ?_, ?_⟩, ⟨?_, ?_⟩⟩
  · intro method path body
    rw [DoRequestOn_eq]
    exact ⟨rfl, rfl, rfl, rfl, rfl, rfl⟩
  · exact fun req resp => by rw [storeCreateOn_eq]; exact ⟨rfl, rfl⟩
  · exact fun req resp => by rw [storeReadOn_eq]; exact ⟨rfl, rfl⟩
  · exact fun req resp => by rw [storeUpdateOn_eq]; exact ⟨rfl, rfl⟩
  · exact fun req resp => by rw [storeDeleteOn_eq]; exact ⟨rfl, rfl⟩
  · exact fun req resp => by rw [employeeCreateOn_eq]; exact ⟨rfl, rfl⟩
  · exact fun req resp => by rw [employeeReadOn_eq]; exact ⟨rfl, rfl⟩
  · exact fun req resp => by rw [employeeUpdateOn_eq]; exact ⟨rfl, rfl⟩
  · exact fun req resp => by rw [employeeDeleteOn_eq]; exact ⟨rfl, rfl⟩
  · exact fun req resp => by rw [menuItemCreateOn_eq]; exact ⟨rfl, rfl⟩
  · exact fun req resp => by rw [menuItemReadOn_eq]; exact ⟨rfl, rfl⟩
  · exact fun req resp => by rw [menuItemUpdateOn_eq]; exact ⟨rfl, rfl⟩
  · exact fun req resp => by rw [menuItemDeleteOn_eq]; exact ⟨rfl, rfl⟩
  · exact fun req resp => by rw [inventoryCreateOn_eq]; exact ⟨rfl, rfl⟩
  · exact fun req resp => by rw [inventoryReadOn_eq]; exact ⟨rfl, rfl⟩
  · exact fun req resp => by rw [inventoryUpdateOn_eq]; exact ⟨rfl, rfl⟩
  · exact fun req resp => by rw [inventoryDeleteOn_eq]; exact ⟨rfl, rfl⟩
  · exact fun req resp => by rw [promotionCreateOn_eq]; exact ⟨rfl, rfl⟩
  · exact fun req resp => by rw [promotionReadOn_eq]; exact ⟨rfl, rfl⟩
  · exact fun req resp => by rw [promotionUpdateOn_eq]; exact ⟨rfl, rfl⟩
  · exact fun req resp => by rw [promotionDeleteOn_eq]; exact ⟨rfl, rfl⟩
  · exact fun req resp => by rw [storeDataSourceReadOn_eq]; exact ⟨rfl, rfl⟩
  · exact fun resp => by rw [storesDataSourceReadOn_eq]; exact ⟨rfl, rfl⟩

/-- C16 witness: reading the store `42` leaves the client as the provider built
it, the request answered or not. -/
theorem client_immutable_witness :
    (DoRequestOn notFoundEnv "GET" "/stores/42" none sampleClient).2 = sampleClient ∧
    (DoRequestOn foundEnv "GET" "/stores/42" none sampleClient).2.APIKey = "k" ∧
    (storeResource.ReadOn foundEnv sampleClient ⟨sampleState, []⟩
      ⟨some sampleState, []⟩).2 = sampleClient :=
  ⟨((client_immutable "k" "https://api.starbucks.com/v1" "us-west-2" 30 notFoundEnv
      sampleClient).2.1 "GET" "/stores/42" none).1,
   (((client_immutable "k" "https://api.starbucks.com/v1" "us-west-2" 30 foundEnv
      sampleClient).2.1 "GET" "/stores/42" none).2.1).trans rfl,
   ((client_immutable "k" "https://api.starbucks.com/v1" "us-west-2" 30 foundEnv
      sampleClient).2.2.1.2.1 ⟨sampleState, []⟩ ⟨some sampleState, []⟩).1⟩

/-- A natural number of at most 2^53 is a `float64`: rounding leaves it. -/
theorem roundNat_exact (a : Nat) (h : a ≤ 2 ^ 53) : roundNat a = a := by
  rcases Nat.lt_or_ge a (2 ^ 53) with hlt | hge
  · have he : Nat.log2 a + 1 - 53 = 0 := by
      by_cases h0 : a = 0
      · rw [h0]; simp
      · have := (Nat.log2_lt h0).2 hlt
        omega
    unfold roundNat
    simp [he, Nat.mod_one]
  · have ha : a = 2 ^ 53 := le_antisymm h hge
    have hl : Nat.log2 a = 53 := by rw [ha]; exact Nat.log2_two_pow
    unfold roundNat
    simp only [hl]
    rw [ha]
    norm_num

/-- Rounding a number of 54 bits: one bit is cut off, and a tie goes to the even
significand. -/
theorem roundNat_of_log2 (a : Nat) (hl : Nat.log2 a = 53) :
    roundNat a = (if 2 < 2 * (a % 2) ∨ (2 * (a % 2) = 2 ∧ a / 2 % 2 = 1) then a / 2 + 1
      else a / 2) * 2 := by
  unfold roundNat
  simp only [hl]
  norm_num

/-- The number 2^53 + 1 is not a `float64`: it lies half way between 2^53 and
2^53 + 2, and the tie goes to 2^53. -/
theorem roundNat_two_pow_53_succ : roundNat 9007199254740993 = 9007199254740992 := by
  have hl : Nat.log2 9007199254740993 = 53 := by
    have h1 : Nat.log2 9007199254740993 < 54 := (Nat.log2_lt (by norm_num)).2 (by norm_num)
    have h2 : ¬ Nat.log2 9007199254740993 < 53 := fun hlt =>
      absurd ((Nat.log2_lt (by norm_num)).1 hlt) (by norm_num)
    omega
  rw [roundNat_of_log2 _ hl]
  norm_num

/-- The conversion of an integer that is not negative. -/
theorem float64OfInt_of_nonneg (n : Int) (a : Nat) (h : n = (a : Int)) :
    float64OfInt n = .finite ((roundNat a : Int) : ℚ) := by
  subst h
  unfold float64OfInt
  have hneg : ¬ ((a : Int) < 0) := by omega
  simp only [hneg, if_false, Int.natAbs_ofNat]

/-- An integer of magnitude at most 2^53 is a `float64`: the conversion is exact. -/
theorem float64OfInt_exact (n : Int) (h : n.natAbs ≤ 2 ^ 53) :
    float64OfInt n = .finite (n : ℚ) := by
  unfold float64OfInt
  rw [roundNat_exact _ h]
  have hz : (if n < 0 then -(n.natAbs : Int) else (n.natAbs : Int)) = n := by
    split <;> omega
  simp only [hz]

/-- The echo of a value the encoder accepts: the nearest `float64` for an
integer, the value itself otherwise. -/
theorem jsonEcho_encodable (v : GoValue) (h : v.encodable = true) :
    ∃ j, jsonEcho v = .ok j ∧ v.echoedAs j ∧ (v.exactInt = true → v.sameAs j) := by
  cases v with
  | nil => exact ⟨_, rfl, trivial, fun _ => trivial⟩
  | str s => exact ⟨_, rfl, rfl, fun _ => rfl⟩
  | bool b => exact ⟨_, rfl, rfl, fun _ => rfl⟩
  | int64 n =>
    refine ⟨_, rfl, rfl, ?_⟩
    intro hx
    have hx2 : n.natAbs ≤ 2 ^ 53 := by simpa [GoValue.exactInt] using hx
    exact float64OfInt_exact n hx2
  | float64 f =>
    cases f with
    | finite q => exact ⟨_, rfl, rfl, fun _ => rfl⟩
    | negZero => exact ⟨_, rfl, rfl, fun _ => rfl⟩
    | posInf => simp [GoValue.encodable] at h
    | negInf => simp [GoValue.encodable] at h
    | nan => simp [GoValue.encodable] at h

/-- C14 counterexample: the payload inventory Create builds for a quantity of
2^53 + 1 does not come back equal: the decoded quantity is 2^53. -/
theorem payload_round_trip_fails :
    ¬ ∃ m, jsonEchoPayload (inventoryCreateBody hugeInventory) = .ok m ∧
      Payload.sameAs (inventoryCreateBody hugeInventory) m := by
  have hq : float64OfInt 9007199254740993 = .finite 9007199254740992 := by
    rw [float64OfInt_of_nonneg 9007199254740993 9007199254740993 rfl,
      roundNat_two_pow_53_succ]
    norm_num
  have hecho : jsonEchoPayload (inventoryCreateBody hugeInventory) =
      .ok [("store_id", .string "42"), ("item_sku", .string "espresso-beans"),
        ("quantity", .number (.finite 9007199254740992))] := by
    simp only [inventoryCreateBody, hugeInventory, sampleInventory, TfValue.ValueString,
      TfValue.ValueInt64, jsonEchoPayload, jsonEcho, hq]
  rintro ⟨m, hm, hsame⟩
  rw [hecho] at hm
  cases hm
  simp [Payload.sameAs, inventoryCreateBody, hugeInventory, sampleInventory,
    TfValue.ValueInt64, GoValue.sameAs] at hsame

/-- C14, amended: for every payload whose values the encoder accepts (no `float64`
that is not finite), encoding and decoding back yields a map with the same keys
in the same order, in which a string, a boolean, a `nil` and a `float64` come
back equal and an integer comes back as the nearest `float64`; when every
integer of the payload has a magnitude of at most 2^53, every value comes back
equal to the original. -/
theorem payload_round_trip (p : Payload) (henc : ∀ kv ∈ p, kv.2.encodable = true) :
    ∃ m, jsonEchoPayload p = .ok m ∧ m.map Prod.fst = p.map Prod.fst ∧
      Payload.echoedAs p m ∧
      ((∀ kv ∈ p, kv.2.exactInt = true) → Payload.sameAs p m) := by
  induction p with
  | nil => exact ⟨[], rfl, rfl, List.Forall₂.nil, fun _ => List.Forall₂.nil⟩
  | cons kv rest ih =>
    obtain ⟨k, v⟩ := kv
    obtain ⟨m, hm, hkeys, hecho, hsame⟩ := ih (fun x hx => henc x (List.mem_cons_of_mem _ hx))
    obtain ⟨j, hj, hje, hjs⟩ := jsonEcho_encodable v (henc (k, v) (List.mem_cons_self _ _))
    refine ⟨(k, j) :: m, by simp only [jsonEchoPayload, hj, hm], by simp [hkeys],
      List.Forall₂.cons ⟨rfl, hje⟩ hecho, ?_⟩
    intro hx
    exact List.Forall₂.cons ⟨rfl, hjs (hx (k, v) (List.mem_cons_self _ _))⟩
      (hsame (fun x hx2 => hx x (List.mem_cons_of_mem _ hx2)))

/-- C14 witness: the payload inventory Create builds for `sampleInventory`, with
its quantity of seven, comes back equal. -/
theorem payload_round_trip_witness :
    (∀ kv ∈ inventoryCreateBody sampleInventory, kv.2.encodable = true) ∧
    (∀ kv ∈ inventoryCreateBody sampleInventory, kv.2.exactInt = true) ∧
    ∃ m, jsonEchoPayload (inventoryCreateBody sampleInventory) = .ok m ∧
      Payload.sameAs (inventoryCreateBody sampleInventory) m :=
  ⟨by decide, by decide,
   let ⟨m, h1, _, _, h4⟩ := payload_round_trip (inventoryCreateBody sampleInventory) (by decide)
   ⟨m, h1, h4 (by decide)⟩⟩

/-- C24: in `DoRequest` the first step that fails decides the error. A payload the
encoder refuses gives the marshaling error before any request is built or sent,
whatever the method, the endpoint and the server; a round trip that fails gives
the transport error and no body is read; and a body that cannot be read gives
the read error whatever the status of the response, never an API error. -/
theorem DoRequest_precedence (env : Env) (c : StarbucksClient) (method path : String) :
    (∀ p e, env.Marshal p = .error e →
      (DoRequest env c method path (some p)).err = some (.marshaling e) ∧
      (DoRequest env c method path (some p)).calls = [Call.Marshal p] ∧
      (∀ m u b, Call.NewRequest m u b ∉ (DoRequest env c method path (some p)).calls) ∧
      (∀ hc req, Call.Do hc req ∉ (DoRequest env c method path (some p)).calls)) ∧
    (∀ body hc req e, Call.Do hc req ∈ (DoRequest env c method path body).calls →
      env.Do hc req = .error e →
      (DoRequest env c method path body).err = some (.making e) ∧
      (DoRequest env c method path body).body = none ∧
      ∀ resp, Call.ReadAll resp ∉ (DoRequest env c method path body).calls) ∧
    (∀ body resp e, Call.ReadAll resp ∈ (DoRequest env c method path body).calls →
      resp.Body = .error e →
      (DoRequest env c method path body).err = some (.reading e) ∧
      (DoRequest env c method path body).body = none ∧
      ∀ status b, (DoRequest env c method path body).err ≠ some (.api status b)) := by
  refine ⟨?_, ?_, ?_⟩
  · intro p e hm
    have hr : DoRequest env c method path (some p) =
        ⟨none, some (.marshaling e), [Call.Marshal p]⟩ := by
      simp [DoRequest, hm]
    rw [hr]
    exact ⟨rfl, rfl, by simp, by simp⟩
  · intro body hc req e hmem hdo
    rcases DoRequest_cases env c method path body with ⟨p, e1, -, -, hr⟩ | ⟨rb, t1, henc, hsent⟩
    · rw [hr] at hmem; simp at hmem
    · have ht1 : Call.Do hc req ∉ t1 ∧ ∀ resp, Call.ReadAll resp ∉ t1 := by
        rcases henc with ⟨-, -, rfl⟩ | ⟨p, jb, -, -, -, rfl⟩ <;> simp
      rcases hsent with ⟨e1, -, hr⟩ | ⟨req0, hn, ⟨e1, hd, hr⟩ | ⟨resp1, hd, hrec⟩⟩
      · rw [hr] at hmem; simp [ht1.1] at hmem
      · rw [hr] at hmem ⊢
        simp [ht1.1] at hmem
        obtain ⟨rfl, rfl⟩ := hmem
        rw [hd] at hdo
        cases hdo
        exact ⟨rfl, rfl, fun resp => by simp [ht1.2 resp]⟩
      · have hcalls : (DoRequest env c method path body).calls =
            (t1 ++ [Call.NewRequest method (c.Endpoint ++ path) rb,
              Call.Do c.HTTPClient (setHeaders c req0)]) ++ [Call.ReadAll resp1] := by
          rcases hrec with ⟨e, -, hr⟩ | ⟨b, -, -, hr⟩ | ⟨b, -, -, hr⟩ <;> rw [hr]
        rw [hcalls] at hmem
        simp [ht1.1] at hmem
        obtain ⟨rfl, rfl⟩ := hmem
        rw [hd] at hdo
        cases hdo
  · intro body resp e hmem hb
    obtain ⟨rb, t1, req0, -, -, -, hrec⟩ := DoRequest_readAll env c method path body resp hmem
    rcases hrec with ⟨e1, he1, hr⟩ | ⟨b, hb1, -, -⟩ | ⟨b, hb1, -, -⟩
    · rw [hb] at he1
      cases he1
      rw [hr]
      exact ⟨rfl, rfl, fun status b h => by cases h⟩
    · rw [hb] at hb1; cases hb1
    · rw [hb] at hb1; cases hb1

/-- C24 witness: with an endpoint that cannot be parsed and a payload the encoder
refuses the error is the marshaling error; and a response with status 500 whose
body cannot be read gives the read error. -/
theorem DoRequest_precedence_witness :
    brokenEnv.Marshal [("latitude", .float64 .nan)] = .error "json: unsupported value: NaN" ∧
    (DoRequest brokenEnv newlineClient "POST" "/stores"
      (some [("latitude", .float64 .nan)])).err =
      some (.marshaling "json: unsupported value: NaN") ∧
    Call.ReadAll brokenBody ∈ (DoRequest brokenEnv sampleClient "GET" "/stores/42" none).calls ∧
    brokenBody.Body = .error "unexpected EOF" ∧ 400 ≤ brokenBody.StatusCode ∧
    (DoRequest brokenEnv sampleClient "GET" "/stores/42" none).err =
      some (.reading "unexpected EOF") :=
  ⟨rfl,
   ((DoRequest_precedence brokenEnv newlineClient "POST" "/stores").1
     [("latitude", .float64 .nan)] "json: unsupported value: NaN" rfl).1,
   by decide, rfl, by decide,
   ((DoRequest_precedence brokenEnv sampleClient "GET" "/stores/42").2.2
     none brokenBody "unexpected EOF" (by decide) rfl).1⟩

/-- The conversion `int64(q)` of a finite `float64` below 2^63 in magnitude is the
truncation toward zero: the floor of a value that is not negative, the ceiling
of a negative one. -/
theorem int64OfFloat64_finite (q : ℚ) (h : |q| < 2 ^ 63) :
    int64OfFloat64 (.finite q) = if 0 ≤ q then ⌊q⌋ else ⌈q⌉ := by
  have hfloor : ∀ x : ℚ, Rat.floor x = ⌊x⌋ := fun x => rfl
  have hlt := abs_lt.1 h
  unfold int64OfFloat64
  simp only [hfloor]
  by_cases hq : 0 ≤ q
  · simp only [hq, if_true]
    have h1 : (0 : Int) ≤ ⌊q⌋ := Int.floor_nonneg.2 hq
    have h2 : ⌊q⌋ < 2 ^ 63 := by
      apply Int.floor_lt.2
      exact_mod_cast hlt.2
    rw [if_pos ⟨by omega, h2⟩]
  · simp only [hq, if_false]
    have hc : -⌊-q⌋ = ⌈q⌉ := by rw [Int.floor_neg, neg_neg]
    rw [hc]
    have h1 : ⌈q⌉ ≤ 0 := Int.ceil_le.2 (by push_cast; linarith)
    have h2 : (-2 ^ 63 : Int) ≤ ⌈q⌉ := by
      have h3 : ((-2 ^ 63 : Int) : ℚ) ≤ q := by push_cast; linarith [hlt.1]
      exact le_trans (Int.le_ceil_iff.2 (by
        have : (((-2 ^ 63 : Int) : ℚ) - 1) < q := by linarith
        exact_mod_cast this)) le_rfl
    rw [if_pos ⟨h2, by omega⟩]

/-- The conversion `int64(q)` of a `float64` that is an integer of the range of
`int64` is that integer. -/
theorem int64OfFloat64_int (n : Int) (h : n.natAbs ≤ 2 ^ 63 - 1) :
    int64OfFloat64 (.finite (n : ℚ)) = n := by
  have habs : |(n : ℚ)| < 2 ^ 63 := by
    have h1 : |n| < 2 ^ 63 := by
      rw [Int.abs_eq_natAbs]
      omega
    exact_mod_cast h1
  rw [int64OfFloat64_finite _ habs]
  split
  · exact Int.floor_intCast n
  · exact Int.ceil_intCast n

/-- C25: in the Read of the inventory, when the `DoRequest` call returns no error
and the body decodes to an object whose `quantity` is the number `q`, no
diagnostic is added; when `q` is an integer `n` of magnitude at most 2^53 the
quantity written is `n`, all other fields kept; and when `q` is below 2^63 in
magnitude, as every number with a fractional part is, the quantity written is
`q` truncated toward zero. -/
theorem inventoryRead_quantity (env : Env) (c : StarbucksClient)
    (req : ReadRequest inventoryResourceModel) (resp : CreateResponse inventoryResourceModel)
    (result : JsonMap) (q : ℚ)
    (hpre : Decoded resp.Diagnostics req.StateGetDiags)
    (herr : (DoRequest env c "GET" ("/inventory/" ++ req.State.ID.ValueString) none).err = none)
    (hdec : env.Unmarshal
      ((DoRequest env c "GET" ("/inventory/" ++ req.State.ID.ValueString) none).body.getD [])
        = .ok result)
    (hq : result.lookup "quantity" = some (.number (.finite q))) :
    (inventoryResource.Read env c req resp).1.Diagnostics =
      Diagnostics.Append resp.Diagnostics req.StateGetDiags ∧
    (∀ n : Int, q = (n : ℚ) → n.natAbs ≤ 2 ^ 53 →
      (inventoryResource.Read env c req resp).1.State =
        some { req.State with Quantity := .known n }) ∧
    (|q| < 2 ^ 63 →
      (inventoryResource.Read env c req resp).1.State =
        some { req.State with Quantity := .known (if 0 ≤ q then ⌊q⌋ else ⌈q⌉) }) := by
  unfold Decoded at hpre
  have hstate : (inventoryResource.Read env c req resp).1.State =
      some { req.State with Quantity := .known (int64OfFloat64 (.finite q)) } := by
    simp [inventoryResource.Read, hpre, herr, hdec, hq]
  refine ⟨by simp [inventoryResource.Read, hpre, herr, hdec, hq], ?_, ?_⟩
  · intro n hn hsmall
    rw [hstate, hn, int64OfFloat64_int n (by omega)]
  · intro hlt
    rw [hstate, int64OfFloat64_finite q hlt]

/-- C25 witness: reading `sampleInventory` from a server that reports a quantity
of three and a half writes a quantity of three. -/
theorem inventoryRead_quantity_witness :
    Decoded [] [] ∧
    (DoRequest fractionalEnv sampleClient "GET"
      ("/inventory/" ++ sampleInventory.ID.ValueString) none).err = none ∧
    (inventoryResource.Read fractionalEnv sampleClient ⟨sampleInventory, []⟩
      ⟨some sampleInventory, []⟩).1.State =
      some { sampleInventory with Quantity := .known (if (0 : ℚ) ≤ 7 / 2 then ⌊(7 / 2 : ℚ)⌋
        else ⌈(7 / 2 : ℚ)⌉) } ∧
    (if (0 : ℚ) ≤ 7 / 2 then ⌊(7 / 2 : ℚ)⌋ else ⌈(7 / 2 : ℚ)⌉) = 3 ∧
    (inventoryResource.Read fractionalEnv sampleClient ⟨sampleInventory, []⟩
      ⟨some sampleInventory, []⟩).1.Diagnostics = [] :=
  ⟨rfl, by decide,
   (inventoryRead_quantity fractionalEnv sampleClient ⟨sampleInventory, []⟩
     ⟨some sampleInventory, []⟩ [("id", .string "i-1"), ("quantity", .number (.finite (7 / 2)))]
     (7 / 2) rfl (by decide) rfl rfl).2.2 (by rw [abs_lt]; constructor <;> norm_num),
   by
     rw [if_pos (by norm_num)]
     rw [Int.floor_eq_iff]
     constructor <;> norm_num,
   (inventoryRead_quantity fractionalEnv sampleClient ⟨sampleInventory, []⟩
     ⟨some sampleInventory, []⟩ [("id", .string "i-1"), ("quantity", .number (.finite (7 / 2)))]
     (7 / 2) rfl (by decide) rfl rfl).1⟩

/-- C22: in the Create of each of the five resources, when the `DoRequest` call
returns no error and the body decodes to an object (the empty one for the JSON
value `null`) that holds no `id` of string type, no diagnostic is added and the
state written is the plan with its `ID` as planned; for the store and the
employee the `Status` written is `active`, whatever the object holds. -/
theorem creates_without_id (env : Env) (c : StarbucksClient) (result : JsonMap)
    (hid : ∀ v, result.lookup "id" ≠ some (.string v)) :
    (∀ (req : CreateRequest storeResourceModel) (resp : CreateResponse storeResourceModel),
      Decoded resp.Diagnostics req.PlanGetDiags →
      (DoRequest env c "POST" "/stores" (some (storeCreateBody req.Plan))).err = none →
      env.Unmarshal
        ((DoRequest env c "POST" "/stores" (some (storeCreateBody req.Plan))).body.getD []) = .ok result →
      (storeResource.Create env c req resp).1.State = some { req.Plan with Status := .known "active" } ∧
      (storeResource.Create env c req resp).1.Diagnostics =
        Diagnostics.Append resp.Diagnostics req.PlanGetDiags) ∧
    (∀ (req : CreateRequest employeeResourceModel) (resp : CreateResponse employeeResourceModel),
      Decoded resp.Diagnostics req.PlanGetDiags →
      (DoRequest env c "POST" "/employees" (some (employeeCreateBody req.Plan))).err = none →
      env.Unmarshal
        ((DoRequest env c "POST" "/employees" (some (employeeCreateBody req.Plan))).body.getD []) = .ok result →
      (employeeResource.Create env c req resp).1.State = some { req.Plan with Status := .known "active" } ∧
      (employeeResource.Create env c req resp).1.Diagnostics =
        Diagnostics.Append resp.Diagnostics req.PlanGetDiags) ∧
    (∀ (req : CreateRequest menuItemResourceModel) (resp : CreateResponse menuItemResourceModel),
      Decoded resp.Diagnostics req.PlanGetDiags →
      (DoRequest env c "POST" "/menu_items" (some (menuItemCreateBody req.Plan))).err = none →
      env.Unmarshal
        ((DoRequest env c "POST" "/menu_items" (some (menuItemCreateBody req.Plan))).body.getD []) = .ok result →
      (menuItemResource.Create env c req resp).1.State = some req.Plan ∧
      (menuItemResource.Create env c req resp).1.Diagnostics =
        Diagnostics.Append resp.Diagnostics req.PlanGetDiags) ∧
    (∀ (req : CreateRequest inventoryResourceModel) (resp : CreateResponse inventoryResourceModel),
      Decoded resp.Diagnostics req.PlanGetDiags →
      (DoRequest env c "POST" "/inventory" (some (inventoryCreateBody req.Plan))).err = none →
      env.Unmarshal
        ((DoRequest env c "POST" "/inventory" (some (inventoryCreateBody req.Plan))).body.getD []) = .ok result →
      (inventoryResource.Create env c req resp).1.State = some req.Plan ∧
      (inventoryResource.Create env c req resp).1.Diagnostics =
        Diagnostics.Append resp.Diagnostics req.PlanGetDiags) ∧
    (∀ (req : CreateRequest promotionResourceModel) (resp : CreateResponse promotionResourceModel),
      Decoded resp.Diagnostics req.PlanGetDiags →
      (DoRequest env c "POST" "/promotions" (some (promotionCreateBody req.Plan))).err = none →
      env.Unmarshal
        ((DoRequest env c "POST" "/promotions" (some (promotionCreateBody req.Plan))).body.getD []) = .ok result →
      (promotionResource.Create env c req resp).1.State = some req.Plan ∧
      (promotionResource.Create env c req resp).1.Diagnostics =
        Diagnostics.Append resp.Diagnostics req.PlanGetDiags) := by
  refine ⟨?_, ?_, ?_, ?_, ?_⟩
  · intro req resp hpre herr hdec
    unfold Decoded at hpre
    cases hl : result.lookup "id" with
    | none => simp [storeResource.Create, hpre, herr, hdec, hl]
    | some j =>
      cases j with
      | string v => exact absurd hl (hid v)
      | _ => simp [storeResource.Create, hpre, herr, hdec, hl]
  · intro req resp hpre herr hdec
    unfold Decoded at hpre
    cases hl : result.lookup "id" with
    | none => simp [employeeResource.Create, hpre, herr, hdec, hl]
    | some j =>
      cases j with
      | string v => exact absurd hl (hid v)
      | _ => simp [employeeResource.Create, hpre, herr, hdec, hl]
  · intro req resp hpre herr hdec
    unfold Decoded at hpre
    cases hl : result.lookup "id" with
    | none => simp [menuItemResource.Create, hpre, herr, hdec, hl]
    | some j =>
      cases j with
      | string v => exact absurd hl (hid v)
      | _ => simp [menuItemResource.Create, hpre, herr, hdec, hl]
  · intro req resp hpre herr hdec
    unfold Decoded at hpre
    cases hl : result.lookup "id" with
    | none => simp [inventoryResource.Create, hpre, herr, hdec, hl]
    | some j =>
      cases j with
      | string v => exact absurd hl (hid v)
      | _ => simp [inventoryResource.Create, hpre, herr, hdec, hl]
  · intro req resp hpre herr hdec
    unfold Decoded at hpre
    cases hl : result.lookup "id" with
    | none => simp [promotionResource.Create, hpre, herr, hdec, hl]
    | some j =>
      cases j with
      | string v => exact absurd hl (hid v)
      | _ => simp [promotionResource.Create, hpre, herr, hdec, hl]

/-- C22 witness: creating the store of `samplePlan` on a server that answers with a
numeric id and the status `closed` writes the plan with its planned `ID` and the
status `active`, without a diagnostic. -/
theorem creates_without_id_witness :
    (∀ v, ([("id", .number (.finite 7)), ("status", .string "closed")] : JsonMap).lookup "id" ≠
      some (.string v)) ∧
    Decoded [] [] ∧
    (DoRequest numericIdEnv sampleClient "POST" "/stores"
      (some (storeCreateBody samplePlan))).err = none ∧
    (storeResource.Create numericIdEnv sampleClient ⟨samplePlan, []⟩ ⟨none, []⟩).1.State =
      some { samplePlan with Status := .known "active" } ∧
    (storeResource.Create numericIdEnv sampleClient ⟨samplePlan, []⟩ ⟨none, []⟩).1.Diagnostics =
      [] :=
  ⟨(fun v h => by cases h), rfl, by decide,
   ((creates_without_id numericIdEnv sampleClient
      [("id", .number (.finite 7)), ("status", .string "closed")]
      (fun v h => by cases h)).1 ⟨samplePlan, []⟩ ⟨none, []⟩ rfl (by decide) rfl).1,
   ((creates_without_id numericIdEnv sampleClient
      [("id", .number (.finite 7)), ("status", .string "closed")]
      (fun v h => by cases h)).1 ⟨samplePlan, []⟩ ⟨none, []⟩ rfl (by decide) rfl).2⟩

/-- Go `m[k] = v` under a condition, for a key the map does not hold yet: the
entry is appended when the condition holds. -/
theorem mapSet_optional (body : Payload) (isNull : Bool) (k : String) (v : GoValue)
    (hfresh : body.filter (fun e => e.1 != k) = body) :
    (if !isNull then mapSet body k v else body) = body ++ (if isNull then [] else [(k, v)]) := by
  cases isNull <;> simp [mapSet, hfresh]

/-- An optional entry under another key passes the filter of `mapSet`. -/
theorem filter_optional (isNull : Bool) (k k2 : String) (v : GoValue) (h : (k2 != k) = true) :
    (if isNull then [] else [(k2, v)] : Payload).filter (fun e => e.1 != k) =
      (if isNull then [] else [(k2, v)]) := by
  cases isNull <;> simp [h]

/-- The key of an optional entry. -/
theorem map_fst_optional (isNull : Bool) (k : String) (v : GoValue) :
    (if isNull then [] else [(k, v)] : Payload).map Prod.fst = if isNull then [] else [k] := by
  cases isNull <;> rfl

/-- An optional entry under another key is not found. -/
theorem lookup_optional_ne (isNull : Bool) (k k2 : String) (v : GoValue) (h : (k == k2) = false) :
    (if isNull then [] else [(k2, v)] : Payload).lookup k = none := by
  cases isNull <;> simp [List.lookup, h]

/-- An optional entry is found under its key exactly when it is there. -/
theorem lookup_optional_eq (isNull : Bool) (k : String) (v : GoValue) :
    (if isNull then [] else [(k, v)] : Payload).lookup k = if isNull then none else some v := by
  cases isNull <;> simp [List.lookup]

/-- The payload of store Create: the eleven entries that are always there, then
the optional entries whose plan value is not null, in the order of the source. -/
theorem storeCreateBody_eq (plan : storeResourceModel) :
    storeCreateBody plan =
      [ ("name", .str plan.Name.ValueString),
        ("store_number", .str plan.StoreNumber.ValueString),
        ("address", .str plan.Address.ValueString),
        ("city", .str plan.City.ValueString),
        ("state", .str plan.State.ValueString),
        ("zip_code", .str plan.ZipCode.ValueString),
        ("phone_number", .str plan.PhoneNumber.ValueString),
        ("has_drive_thru", .bool plan.HasDriveThru.ValueBool),
        ("has_wifi", .bool plan.HasWifi.ValueBool),
        ("has_mobile_order", .bool plan.HasMobileOrder.ValueBool),
        ("capacity", .int64 plan.Capacity.ValueInt64) ] ++
      (if plan.Country.IsNull then [] else [("country", .str plan.Country.ValueString)]) ++
      (if plan.Latitude.IsNull then [] else [("latitude", .float64 plan.Latitude.ValueFloat64)]) ++
      (if plan.Longitude.IsNull then []
        else [("longitude", .float64 plan.Longitude.ValueFloat64)]) ++
      (if plan.OpeningHours.IsNull then []
        else [("opening_hours", .str plan.OpeningHours.ValueString)]) ++
      (if plan.StoreType.IsNull then [] else [("store_type", .str plan.StoreType.ValueString)]) ++
      (if plan.ManagerEmail.IsNull then []
        else [("manager_email", .str plan.ManagerEmail.ValueString)]) := by
  unfold storeCreateBody
  simp only []
  rw [mapSet_optional _ _ "country" _ (by simp)]
  rw [mapSet_optional _ _ "latitude" _
    (by simp [List.filter_append, filter_optional])]
  rw [mapSet_optional _ _ "longitude" _
    (by simp [List.filter_append, filter_optional])]
  rw [mapSet_optional _ _ "opening_hours" _
    (by simp [List.filter_append, filter_optional])]
  rw [mapSet_optional _ _ "store_type" _
    (by simp [List.filter_append, filter_optional])]
  rw [mapSet_optional _ _ "manager_email" _
    (by simp [List.filter_append, filter_optional])]

/-- The calls of `DoRequest` on a payload begin with the call to the encoder on
that payload, whether it encodes or not. -/
theorem DoRequest_calls_head (env : Env) (c : StarbucksClient) (method path : String)
    (p : Payload) :
    ∃ rest, (DoRequest env c method path (some p)).calls = Call.Marshal p :: rest := by
  cases hm : env.Marshal p with
  | error e => exact ⟨[], by simp [DoRequest, hm]⟩
  | ok jb =>
    obtain ⟨rest, hr⟩ := DoRequest_calls_of_encoded env c method path (some p) (some jb)
      [Call.Marshal p] (Or.inr ⟨p, jb, rfl, hm, rfl, rfl⟩)
    exact ⟨_, by rw [hr]; rfl⟩

/-- C21: for every store plan the payload of Create holds, in this order, the
eleven keys that are always sent and then each of `country`, `latitude`,
`longitude`, `opening_hours`, `store_type` and `manager_email` whose plan value
is not null, and no other key; each key holds the value of the plan, an
optional key is there exactly when the plan value is not null, and `id` and
`status` are never there. This payload is the one Create sends: once the plan
is decoded the first call of Create hands this payload to the encoder, and
when it encodes and the request is built, the request with that encoding as
its body is sent; the encoder is called on no other payload and no request
carries another body. -/
theorem storeCreate_payload_keys (env : Env) (c : StarbucksClient) (plan : storeResourceModel) :
    ((storeCreateBody plan).map Prod.fst =
      ["name", "store_number", "address", "city", "state", "zip_code", "phone_number",
        "has_drive_thru", "has_wifi", "has_mobile_order", "capacity"] ++
      (if plan.Country.IsNull then [] else ["country"]) ++
      (if plan.Latitude.IsNull then [] else ["latitude"]) ++
      (if plan.Longitude.IsNull then [] else ["longitude"]) ++
      (if plan.OpeningHours.IsNull then [] else ["opening_hours"]) ++
      (if plan.StoreType.IsNull then [] else ["store_type"]) ++
      (if plan.ManagerEmail.IsNull then [] else ["manager_email"])) ∧
    ((storeCreateBody plan).lookup "name" = some (.str plan.Name.ValueString) ∧
      (storeCreateBody plan).lookup "store_number" = some (.str plan.StoreNumber.ValueString) ∧
      (storeCreateBody plan).lookup "address" = some (.str plan.Address.ValueString) ∧
      (storeCreateBody plan).lookup "city" = some (.str plan.City.ValueString) ∧
      (storeCreateBody plan).lookup "state" = some (.str plan.State.ValueString) ∧
      (storeCreateBody plan).lookup "zip_code" = some (.str plan.ZipCode.ValueString) ∧
      (storeCreateBody plan).lookup "phone_number" = some (.str plan.PhoneNumber.ValueString) ∧
      (storeCreateBody plan).lookup "has_drive_thru" = some (.bool plan.HasDriveThru.ValueBool) ∧
      (storeCreateBody plan).lookup "has_wifi" = some (.bool plan.HasWifi.ValueBool) ∧
      (storeCreateBody plan).lookup "has_mobile_order" =
        some (.bool plan.HasMobileOrder.ValueBool) ∧
      (storeCreateBody plan).lookup "capacity" = some (.int64 plan.Capacity.ValueInt64)) ∧
    ((storeCreateBody plan).lookup "country" =
        (if plan.Country.IsNull then none else some (.str plan.Country.ValueString)) ∧
      (storeCreateBody plan).lookup "latitude" =
        (if plan.Latitude.IsNull then none else some (.float64 plan.Latitude.ValueFloat64)) ∧
      (storeCreateBody plan).lookup "longitude" =
        (if plan.Longitude.IsNull then none else some (.float64 plan.Longitude.ValueFloat64)) ∧
      (storeCreateBody plan).lookup "opening_hours" =
        (if plan.OpeningHours.IsNull then none else some (.str plan.OpeningHours.ValueString)) ∧
      (storeCreateBody plan).lookup "store_type" =
        (if plan.StoreType.IsNull then none else some (.str plan.StoreType.ValueString)) ∧
      (storeCreateBody plan).lookup "manager_email" =
        (if plan.ManagerEmail.IsNull then none
          else some (.str plan.ManagerEmail.ValueString))) ∧
    ((storeCreateBody plan).lookup "id" = none ∧
      (storeCreateBody plan).lookup "status" = none) ∧
    (∀ (req : CreateRequest storeResourceModel) (resp : CreateResponse storeResourceModel),
      (Decoded resp.Diagnostics req.PlanGetDiags →
        (∃ rest, (storeResource.Create env c req resp).2 =
          Call.Marshal (storeCreateBody req.Plan) :: rest) ∧
        (∀ jsonBody req0, env.Marshal (storeCreateBody req.Plan) = .ok jsonBody →
          NewRequest env "POST" (c.Endpoint ++ "/stores") (some jsonBody) = .ok req0 →
          Call.Do c.HTTPClient (setHeaders c req0) ∈ (storeResource.Create env c req resp).2 ∧
          (setHeaders c req0).Body = some jsonBody)) ∧
      Sends env (storeCreateBody req.Plan) (storeResource.Create env c req resp).2) := by
  refine ⟨?_, ?_, ?_, ?_, ?_⟩
  · rw [storeCreateBody_eq]
    simp only [List.map_append, map_fst_optional, List.map_cons, List.map_nil]
  · rw [storeCreateBody_eq]
    simp [List.lookup_append, lookup_optional_ne, List.lookup]
  · rw [storeCreateBody_eq]
    simp [List.lookup_append, lookup_optional_ne, lookup_optional_eq, List.lookup]
  · rw [storeCreateBody_eq]
    simp [List.lookup_append, lookup_optional_ne, List.lookup]
  · intro req resp
    refine ⟨?_, Sends_of_Outcomes env c _ _ _ _ _ _ _ _ _ (storeCreate_outcomes env c req resp)⟩
    intro hpre
    have hI := Issues_of_Outcomes env c "POST" "/stores" (some (storeCreateBody req.Plan))
      _ _ _ _ _ _ (by decide) (storeCreate_outcomes env c req resp)
    obtain ⟨t, ht⟩ := hI.2.2.2 hpre
    constructor
    · obtain ⟨rest, hr⟩ := DoRequest_calls_head env c "POST" "/stores" (storeCreateBody req.Plan)
      exact ⟨rest ++ t, by rw [← ht, hr]; rfl⟩
    · intro jsonBody req0 hm hn
      have hmem := DoRequest_do_of_built env c "POST" "/stores" (some (storeCreateBody req.Plan))
        (some jsonBody) [Call.Marshal (storeCreateBody req.Plan)] req0
        (Or.inr ⟨_, jsonBody, rfl, hm, rfl, rfl⟩) hn
      refine ⟨by rw [← ht]; exact List.mem_append_left _ hmem, ?_⟩
      rw [NewRequest_ok env "POST" (c.Endpoint ++ "/stores") (some jsonBody) req0 hn]
      rfl

/-- C21 witness: the plan of `samplePlan`, whose only optional field that is not
null is the country, gives the eleven keys and `country`; Create hands that
payload to the encoder and sends its encoding. -/
theorem storeCreate_payload_keys_witness :
    (storeCreateBody samplePlan).map Prod.fst =
      ["name", "store_number", "address", "city", "state", "zip_code", "phone_number",
        "has_drive_thru", "has_wifi", "has_mobile_order", "capacity", "country"] ∧
    (storeCreateBody samplePlan).lookup "country" = some (.str "US") ∧
    (storeCreateBody samplePlan).lookup "latitude" = none ∧
    Decoded [] [] ∧
    (∃ rest, (storeResource.Create createdEnv sampleClient ⟨samplePlan, []⟩ ⟨none, []⟩).2 =
      Call.Marshal (storeCreateBody samplePlan) :: rest) ∧
    createdEnv.Marshal (storeCreateBody samplePlan) = .ok samplePlanJSON ∧
    Call.Do sampleClient.HTTPClient (setHeaders sampleClient
        ⟨"POST", ⟨"https://api.starbucks.com/v1/stores", ""⟩, [], some samplePlanJSON⟩) ∈
      (storeResource.Create createdEnv sampleClient ⟨samplePlan, []⟩ ⟨none, []⟩).2 :=
  ⟨(storeCreate_payload_keys createdEnv sampleClient samplePlan).1,
   (storeCreate_payload_keys createdEnv sampleClient samplePlan).2.2.1.1,
   (storeCreate_payload_keys createdEnv sampleClient samplePlan).2.2.1.2.1,
   rfl,
   (((storeCreate_payload_keys createdEnv sampleClient samplePlan).2.2.2.2
      ⟨samplePlan, []⟩ ⟨none, []⟩).1 rfl).1,
   rfl,
   ((((storeCreate_payload_keys createdEnv sampleClient samplePlan).2.2.2.2
      ⟨samplePlan, []⟩ ⟨none, []⟩).1 rfl).2 samplePlanJSON
      ⟨"POST", ⟨"https://api.starbucks.com/v1/stores", ""⟩, [], some samplePlanJSON⟩
      rfl rfl).1⟩

/-- A warning does not make the diagnostics hold an error. -/
theorem HasError_AddWarning (ds : Diagnostics) (summary : String) (detail : Bytes) :
    Diagnostics.HasError (Diagnostics.AddWarning ds summary detail) = Diagnostics.HasError ds := by
  unfold Diagnostics.AddWarning Diagnostics.Append
  by_cases h : ds.contains ⟨.Warning, summary, detail⟩ = true
  · simp only [List.foldl, h, if_true]
  · simp only [List.foldl, h]
    simp [Diagnostics.HasError]

/-- C23: when the configured `api_key` is unknown, `Configure` of the provider
records the warning and no error, makes no call, so it does not read the
environment variable whatever it holds, and leaves both data fields as they
were; when they were unset, the `Configure` of every resource and data source
receives nil provider data and returns its receiver and its response as they
were: no client is set and no diagnostic is recorded. -/
theorem Configure_unknown_api_key (environ : List (String × String))
    (req : ProviderConfigureRequest) (resp : ProviderConfigureResponse)
    (hunknown : req.Config.APIKey = .unknown)
    (hpre : Decoded resp.Diagnostics req.ConfigGetDiags) :
    unknownAPIKey ∈ (starbucksProvider.Configure environ req resp).1.Diagnostics ∧
    Diagnostics.HasError (starbucksProvider.Configure environ req resp).1.Diagnostics = false ∧
    (starbucksProvider.Configure environ req resp).2 = [] ∧
    (starbucksProvider.Configure environ req resp).1.ResourceData = resp.ResourceData ∧
    (starbucksProvider.Configure environ req resp).1.DataSourceData = resp.DataSourceData ∧
    (resp.ResourceData = none → resp.DataSourceData = none →
      (∀ r cresp, storeResource.Configure r
        (resourceConfigureRequest (starbucksProvider.Configure environ req resp).1) cresp =
          (r, cresp)) ∧
      (∀ r cresp, employeeResource.Configure r
        (resourceConfigureRequest (starbucksProvider.Configure environ req resp).1) cresp =
          (r, cresp)) ∧
      (∀ r cresp, menuItemResource.Configure r
        (resourceConfigureRequest (starbucksProvider.Configure environ req resp).1) cresp =
          (r, cresp)) ∧
      (∀ r cresp, inventoryResource.Configure r
        (resourceConfigureRequest (starbucksProvider.Configure environ req resp).1) cresp =
          (r, cresp)) ∧
      (∀ r cresp, promotionResource.Configure r
        (resourceConfigureRequest (starbucksProvider.Configure environ req resp).1) cresp =
          (r, cresp)) ∧
      (∀ d cresp, storeDataSource.Configure d
        (dataSourceConfigureRequest (starbucksProvider.Configure environ req resp).1) cresp =
          (d, cresp)) ∧
      (∀ d cresp, storesDataSource.Configure d
        (dataSourceConfigureRequest (starbucksProvider.Configure environ req resp).1) cresp =
          (d, cresp))) := by
  unfold Decoded at hpre
  have hrun : starbucksProvider.Configure environ req resp =
      (⟨Diagnostics.AddWarning (Diagnostics.Append resp.Diagnostics req.ConfigGetDiags)
          "Unable to create client" (utf8 "Cannot use unknown value as api_key"),
        resp.DataSourceData, resp.ResourceData⟩, []) := by
    simp [starbucksProvider.Configure, hpre, hunknown, TfValue.IsUnknown]
  rw [hrun]
  refine ⟨mem_Append_singleton _ _, ?_, rfl, rfl, rfl, ?_⟩
  · simp only [HasError_AddWarning, hpre]
  · intro hr hd
    simp [resourceConfigureRequest, dataSourceConfigureRequest, hr, hd,
      storeResource.Configure, employeeResource.Configure, menuItemResource.Configure,
      inventoryResource.Configure, promotionResource.Configure, storeDataSource.Configure,
      storesDataSource.Configure]

/-- C23 witness: with an unknown `api_key` and a credential in the environment the
provider records only the warning and builds no client, and the `Configure` of
the store resource leaves the resource without a client. -/
theorem Configure_unknown_api_key_witness :
    ({ nullConfig with APIKey := .unknown } : starbucksProviderModel).APIKey = .unknown ∧
    Decoded [] [] ∧
    (starbucksProvider.Configure [("STARBUCKS_API_KEY", "secret")]
      ⟨{ nullConfig with APIKey := .unknown }, []⟩ ⟨[], none, none⟩).1 =
      ⟨[unknownAPIKey], none, none⟩ ∧
    (starbucksProvider.Configure [("STARBUCKS_API_KEY", "secret")]
      ⟨{ nullConfig with APIKey := .unknown }, []⟩ ⟨[], none, none⟩).2 = [] ∧
    storeResource.Configure ⟨none⟩
      (resourceConfigureRequest (starbucksProvider.Configure [("STARBUCKS_API_KEY", "secret")]
        ⟨{ nullConfig with APIKey := .unknown }, []⟩ ⟨[], none, none⟩).1) ⟨[]⟩ =
      (⟨none⟩, ⟨[]⟩) :=
  ⟨rfl, rfl, by decide,
   (Configure_unknown_api_key [("STARBUCKS_API_KEY", "secret")]
     ⟨{ nullConfig with APIKey := .unknown }, []⟩ ⟨[], none, none⟩ rfl rfl).2.2.1,
   ((Configure_unknown_api_key [("STARBUCKS_API_KEY", "secret")]
     ⟨{ nullConfig with APIKey := .unknown }, []⟩ ⟨[], none, none⟩ rfl rfl).2.2.2.2.2 rfl rfl).1
     ⟨none⟩ ⟨[]⟩⟩

end Starbucks
